import Mathlib

/-!
Verification of the flight-dynamics core of the r2 rocket-simulator
repository against its natural-language specification.

The TypeScript sources under src/services (physicsEngine.ts,
landingGuidance.ts, orbitalMechanics.ts) together with src/constants.ts
and the initial state built in src/App.tsx are embedded shallowly below:
JavaScript numbers are modelled as real numbers, fallible or nullable
fields as Option, and the mutable locals of each function as explicit
intermediate definitions.  Fields of SimulationState that
calculateNextState merely copies through unchanged (wind, RCS, docking,
fuel slosh, maneuver and payload bookkeeping, and the orbital-element
placeholders) play no role in any dynamics and are omitted from the
state record.
-/

namespace R2

noncomputable section

/-! ## Constants (src/constants.ts) -/

def GRAVITY : ℝ := 9.81
def AIR_DENSITY_SEA_LEVEL : ℝ := 1.225
def ROCKET_CROSS_SECTION_AREA : ℝ := 2.5
def DT : ℝ := 0.05
def MAX_STRUCTURAL_LOAD : ℝ := 4.0
def EARTH_RADIUS : ℝ := 6371000
def EARTH_MU : ℝ := 3.986004418e14

/-- src/services/physicsEngine.ts line 4. -/
def SEPARATION_IMPULSE : ℝ := 15

/-! ## Atmosphere model (src/constants.ts ATMOSPHERE_LAYERS and
physicsEngine.ts getAtmosphericProperties) -/

/-- One entry of ATMOSPHERE_LAYERS; maxAlt is Option ℝ with none
standing for the JavaScript Infinity of the exosphere entry. -/
structure AtmosphereLayer where
  name : String
  maxAlt : Option ℝ
  tempGradient : ℝ
  baseTemp : ℝ
  basePressure : ℝ

def ATMOSPHERE_LAYERS : List AtmosphereLayer :=
  [ ⟨"Troposphere", some 11000, -0.0065, 288.15, 101325⟩,
    ⟨"Tropopause", some 20000, 0, 216.65, 22632⟩,
    ⟨"Stratosphere", some 47000, 0.001, 216.65, 5474.9⟩,
    ⟨"Stratopause", some 51000, 0.0028, 228.65, 868.02⟩,
    ⟨"Mesosphere", some 71000, -0.0028, 270.65, 110.91⟩,
    ⟨"Mesopause", some 85000, -0.002, 214.65, 3.9564⟩,
    ⟨"Thermosphere", some 200000, 0, 186.87, 0.3734⟩,
    ⟨"Exosphere", none, 0, 1000, 0⟩ ]

/-- The for-loop of getAtmosphericProperties: find the first layer whose
ceiling is at or above the altitude, tracking the ceiling of the last
layer passed over (prevAlt).  The fallback pair (first layer, final
prevAlt) corresponds to the loop running to completion, which the
Infinity ceiling of the last entry makes unreachable. -/
def findLayer (altitude : ℝ) : List AtmosphereLayer → AtmosphereLayer → ℝ →
    AtmosphereLayer × ℝ
  | [], fallback, prevAlt => (fallback, prevAlt)
  | l :: ls, fallback, prevAlt =>
    match l.maxAlt with
    | none => (l, prevAlt)
    | some m => if altitude ≤ m then (l, prevAlt) else findLayer altitude ls fallback m

structure AtmProps where
  density : ℝ
  temperature : ℝ
  pressure : ℝ
  layer : String

def troposphereDefault : AtmosphereLayer :=
  ⟨"Troposphere", some 11000, -0.0065, 288.15, 101325⟩

def getAtmosphericProperties (altitude : ℝ) : AtmProps :=
  let found := findLayer altitude ATMOSPHERE_LAYERS troposphereDefault 0
  let layer := found.1
  let prevAlt := found.2
  let altInLayer := altitude - prevAlt
  let temp := layer.baseTemp + layer.tempGradient * altInLayer
  let pressure :=
    if layer.tempGradient ≠ 0 then
      layer.basePressure * (temp / layer.baseTemp) ^ (-GRAVITY / (layer.tempGradient * 287.05))
    else
      layer.basePressure * Real.exp (-GRAVITY * altInLayer / (287.05 * layer.baseTemp))
  let density := pressure / (287.058 * temp)
  ⟨max 0 density, temp, max 0 pressure, layer.name⟩

/-! ## Data model (src/types.ts RocketConfig / SimulationState) -/

structure StageConfig where
  fuelMass : ℝ
  dryMass : ℝ
  thrust : ℝ
  burnRate : ℝ

structure RocketConfig where
  stage1 : StageConfig
  stage2 : StageConfig
  dragCoefficient : ℝ
  payloadMass : ℝ

inductive Phase where
  | PRE_LAUNCH | BURNING | STAGING | COASTING | APOGEE | DESCENT | RE_ENTRY
  | CRASHED | LANDED | ORBITING | BOOSTBACK | LANDING
  deriving DecidableEq

/-- The dynamical fields of SimulationState.  activeStage is ℕ standing
for the TypeScript literal type 1|2; separationTime is Option ℝ with
none for null. -/
structure SimulationState where
  time : ℝ
  altitude : ℝ
  velocity : ℝ
  acceleration : ℝ
  positionX : ℝ
  positionY : ℝ
  velocityX : ℝ
  velocityY : ℝ
  stage1Fuel : ℝ
  stage2Fuel : ℝ
  activeStage : ℕ
  separationTime : Option ℝ
  phase : Phase
  maxAltitude : ℝ
  maxVelocity : ℝ
  temperature : ℝ
  maxTemperature : ℝ
  gForce : ℝ
  maxGForce : ℝ
  dynamicPressure : ℝ
  maxDynamicPressure : ℝ
  atmosphericDensity : ℝ
  atmosphereLayer : String
  deltaVExpended : ℝ
  deltaVRemaining : ℝ
  thrustAngle : ℝ
  downrangeDistance : ℝ
  structuralLoad : ℝ

/-! ## physicsEngine.ts helper functions -/

/-- Tsiolkovsky delta-v helper (physicsEngine.ts line 45). -/
def calculateDeltaV (initialMass finalMass exhaustVelocity : ℝ) : ℝ :=
  if finalMass ≤ 0 ∨ initialMass ≤ 0 then 0
  else exhaustVelocity * Real.log (initialMass / finalMass)

/-- Gravity-turn pitch schedule (physicsEngine.ts line 51). -/
def getGravityTurnAngle (altitude _velocity : ℝ) : ℝ :=
  if altitude < 1000 then 0
  else if altitude < 10000 then ((altitude - 1000) / 9000) * 45
  else if altitude < 40000 then 45 + ((altitude - 10000) / 30000) * 25
  else min 70 (45 + ((altitude - 10000) / 30000) * 25)

/-! ## calculateNextState (physicsEngine.ts lines 64-342)

Each local constant of the source function becomes one definition of the
input state and config. -/

/-- velocityX with the || 0 legacy default; x || 0 is x for every real x. -/
def velX (s : SimulationState) : ℝ := s.velocityX

/-- In the integrator the velocity field acts as vertical velocity. -/
def velY (s : SimulationState) : ℝ := s.velocity

def vTotal (s : SimulationState) : ℝ :=
  Real.sqrt (velX s * velX s + velY s * velY s)

def currentMass (s : SimulationState) (c : RocketConfig) : ℝ :=
  if s.activeStage = 1 then
    c.stage1.dryMass + s.stage1Fuel + c.stage2.dryMass + s.stage2Fuel + c.payloadMass
  else
    c.stage2.dryMass + s.stage2Fuel + c.payloadMass

def dryMassOnly (s : SimulationState) (c : RocketConfig) : ℝ :=
  if s.activeStage = 1 then c.stage1.dryMass + c.stage2.dryMass + c.payloadMass
  else c.stage2.dryMass + c.payloadMass

def airDensity (s : SimulationState) : ℝ := (getAtmosphericProperties s.altitude).density

def targetAngle (s : SimulationState) : ℝ := getGravityTurnAngle s.altitude s.velocity

/-- Smoothed thrust angle: moved toward the gravity-turn target at most
0.5 degrees per tick while BURNING, held otherwise. -/
def newThrustAngle (s : SimulationState) : ℝ :=
  if s.phase = Phase.BURNING then
    s.thrustAngle + Real.sign (targetAngle s - s.thrustAngle) *
      min 0.5 |targetAngle s - s.thrustAngle|
  else s.thrustAngle

def angleRad (s : SimulationState) : ℝ := newThrustAngle s * Real.pi / 180

def localGravity (s : SimulationState) : ℝ :=
  EARTH_MU / ((EARTH_RADIUS + s.altitude) * (EARTH_RADIUS + s.altitude))

def forceGravity (s : SimulationState) (c : RocketConfig) : ℝ :=
  currentMass s c * localGravity s

def dragMagnitude (s : SimulationState) (c : RocketConfig) : ℝ :=
  0.5 * airDensity s * (vTotal s * vTotal s) * c.dragCoefficient * ROCKET_CROSS_SECTION_AREA

def dragX (s : SimulationState) (c : RocketConfig) : ℝ :=
  if vTotal s > 0 then -(dragMagnitude s c) * (velX s / vTotal s) else 0

def dragY (s : SimulationState) (c : RocketConfig) : ℝ :=
  if vTotal s > 0 then -(dragMagnitude s c) * (velY s / vTotal s) else 0

def newDynamicPressure (s : SimulationState) : ℝ :=
  0.5 * airDensity s * (vTotal s * vTotal s)

/-- Outcome of the thrust-and-burn block (physicsEngine.ts lines 122-160):
the seven mutable locals it assigns. -/
structure BurnResult where
  forceThrust : ℝ
  s1Consumption : ℝ
  s2Consumption : ℝ
  newPhase0 : Phase
  newActiveStage : ℕ
  newSeparationTime : Option ℝ
  velocityAdjustment : ℝ
  deltaVThisStep : ℝ

def burnPassthrough (s : SimulationState) : BurnResult :=
  ⟨0, 0, 0, s.phase, s.activeStage, s.separationTime, 0, 0⟩

/-- The JS staging dwell guard is
`currentState.separationTime && time - currentState.separationTime > 2.0`:
a null or zero separationTime is falsy and blocks the transition. -/
def stagingDwellOver (s : SimulationState) : Prop :=
  match s.separationTime with
  | none => False
  | some sep => sep ≠ 0 ∧ s.time - sep > 2

instance (s : SimulationState) : Decidable (stagingDwellOver s) := by
  unfold stagingDwellOver
  cases s.separationTime <;> infer_instance

def burnLogic (s : SimulationState) (c : RocketConfig) : BurnResult :=
  if s.phase = Phase.BURNING then
    if s.activeStage = 1 then
      if s.stage1Fuel > 0 then
        { burnPassthrough s with
            forceThrust := c.stage1.thrust
            s1Consumption := c.stage1.burnRate * DT
            deltaVThisStep := c.stage1.thrust * DT / currentMass s c }
      else
        { burnPassthrough s with
            newPhase0 := Phase.STAGING
            newSeparationTime := some s.time
            velocityAdjustment := SEPARATION_IMPULSE }
    else if s.activeStage = 2 then
      if s.stage2Fuel > 0 then
        { burnPassthrough s with
            forceThrust := c.stage2.thrust
            s2Consumption := c.stage2.burnRate * DT
            deltaVThisStep := c.stage2.thrust * DT / currentMass s c }
      else
        { burnPassthrough s with newPhase0 := Phase.COASTING }
    else burnPassthrough s
  else if s.phase = Phase.STAGING then
    if stagingDwellOver s then
      { burnPassthrough s with newPhase0 := Phase.BURNING, newActiveStage := 2 }
    else burnPassthrough s
  else burnPassthrough s

def thrustVertical (s : SimulationState) (c : RocketConfig) : ℝ :=
  (burnLogic s c).forceThrust * Real.cos (angleRad s)

def thrustHorizontal (s : SimulationState) (c : RocketConfig) : ℝ :=
  (burnLogic s c).forceThrust * Real.sin (angleRad s)

def forceNetVertical (s : SimulationState) (c : RocketConfig) : ℝ :=
  thrustVertical s c + dragY s c - forceGravity s c

def forceNetHorizontal (s : SimulationState) (c : RocketConfig) : ℝ :=
  thrustHorizontal s c + dragX s c

def accelerationVertical (s : SimulationState) (c : RocketConfig) : ℝ :=
  forceNetVertical s c / currentMass s c

def accelerationHorizontal (s : SimulationState) (c : RocketConfig) : ℝ :=
  forceNetHorizontal s c / currentMass s c

def accelerationMag (s : SimulationState) (c : RocketConfig) : ℝ :=
  Real.sqrt (accelerationVertical s c * accelerationVertical s c +
    accelerationHorizontal s c * accelerationHorizontal s c)

def newGForce (s : SimulationState) (c : RocketConfig) : ℝ :=
  accelerationMag s c / GRAVITY

def newVelocityY (s : SimulationState) (c : RocketConfig) : ℝ :=
  velY s + accelerationVertical s c * DT + (burnLogic s c).velocityAdjustment

def newVelocityX (s : SimulationState) (c : RocketConfig) : ℝ :=
  velX s + accelerationHorizontal s c * DT

def newAltitude (s : SimulationState) (c : RocketConfig) : ℝ :=
  s.altitude + newVelocityY s c * DT

def newDownrange (s : SimulationState) (c : RocketConfig) : ℝ :=
  s.downrangeDistance + newVelocityX s c * DT

/-- The source keeps the velocity channel vertical for compatibility. -/
def newVelocity (s : SimulationState) (c : RocketConfig) : ℝ := newVelocityY s c

def T_ambient (s : SimulationState) : ℝ := (getAtmosphericProperties s.altitude).temperature

def localSpeedOfSound (s : SimulationState) : ℝ :=
  Real.sqrt (1.4 * 287.05 * T_ambient s)

def mach (s : SimulationState) : ℝ := vTotal s / localSpeedOfSound s

def T_recovery (s : SimulationState) : ℝ :=
  T_ambient s * (1 + 0.17 * mach s * mach s)

def engineHeat (s : SimulationState) : ℝ := if s.phase = Phase.BURNING then 50 else 0

def k_thermal (s : SimulationState) : ℝ :=
  0.05 * (airDensity s / AIR_DENSITY_SEA_LEVEL) + 0.001

def newTemperature (s : SimulationState) : ℝ :=
  s.temperature + (T_recovery s + engineHeat s - s.temperature) * k_thermal s * DT

def newS1Fuel (s : SimulationState) (c : RocketConfig) : ℝ :=
  max 0 (s.stage1Fuel - (burnLogic s c).s1Consumption)

def newS2Fuel (s : SimulationState) (c : RocketConfig) : ℝ :=
  max 0 (s.stage2Fuel - (burnLogic s c).s2Consumption)

def newDeltaVExpended (s : SimulationState) (c : RocketConfig) : ℝ :=
  s.deltaVExpended + (burnLogic s c).deltaVThisStep

def currentStageFuel (s : SimulationState) (c : RocketConfig) : ℝ :=
  if s.activeStage = 1 then newS1Fuel s c else newS2Fuel s c

def currentStageConfig (s : SimulationState) (c : RocketConfig) : StageConfig :=
  if s.activeStage = 1 then c.stage1 else c.stage2

def exhaustVelocity (s : SimulationState) (c : RocketConfig) : ℝ :=
  (currentStageConfig s c).thrust / (currentStageConfig s c).burnRate / GRAVITY

def remainingDeltaV (s : SimulationState) (c : RocketConfig) : ℝ :=
  (if currentStageFuel s c > 0 then
    calculateDeltaV (currentMass s c) (currentMass s c - currentStageFuel s c)
      (exhaustVelocity s c)
   else 0) +
  (if s.activeStage = 1 ∧ newS2Fuel s c > 0 then
    calculateDeltaV (c.stage2.dryMass + newS2Fuel s c + c.payloadMass)
      (c.stage2.dryMass + c.payloadMass) (c.stage2.thrust / c.stage2.burnRate / GRAVITY)
   else 0)

def newStructuralLoad (s : SimulationState) (c : RocketConfig) : ℝ :=
  newGForce s c / MAX_STRUCTURAL_LOAD * 100

/-- Global phase checks (physicsEngine.ts lines 232-237). -/
def newPhase (s : SimulationState) (c : RocketConfig) : Phase :=
  let p := (burnLogic s c).newPhase0
  if newAltitude s c ≤ 0 ∧ s.time > 1 then
    if |newVelocity s c| > 10 then Phase.CRASHED else Phase.LANDED
  else if newVelocity s c < 0 ∧ p ≠ Phase.DESCENT ∧ p ≠ Phase.CRASHED ∧
      p ≠ Phase.LANDED then
    Phase.DESCENT
  else p

def finalAltitude (s : SimulationState) (c : RocketConfig) : ℝ :=
  max 0 (newAltitude s c)

def finalVelocityY (s : SimulationState) (c : RocketConfig) : ℝ :=
  if finalAltitude s c = 0 then 0 else newVelocityY s c

def finalVelocityX (s : SimulationState) (c : RocketConfig) : ℝ :=
  if finalAltitude s c = 0 then 0 else newVelocityX s c

def finalVelocity (s : SimulationState) (c : RocketConfig) : ℝ :=
  if finalAltitude s c = 0 then 0 else finalVelocityY s c

def finalAcceleration (s : SimulationState) (c : RocketConfig) : ℝ :=
  if finalAltitude s c = 0 then 0 else accelerationMag s c

def calculateNextState (s : SimulationState) (c : RocketConfig) : SimulationState where
  time := s.time + DT
  altitude := finalAltitude s c
  velocity := finalVelocity s c
  acceleration := finalAcceleration s c
  positionX := newDownrange s c
  positionY := finalAltitude s c + EARTH_RADIUS
  velocityX := finalVelocityX s c
  velocityY := finalVelocityY s c
  stage1Fuel := newS1Fuel s c
  stage2Fuel := newS2Fuel s c
  activeStage := (burnLogic s c).newActiveStage
  separationTime := (burnLogic s c).newSeparationTime
  phase := newPhase s c
  maxAltitude := max s.maxAltitude (finalAltitude s c)
  maxVelocity := max s.maxVelocity (finalVelocity s c)
  temperature := newTemperature s
  maxTemperature := max s.maxTemperature (newTemperature s)
  gForce := newGForce s c
  maxGForce := max s.maxGForce (newGForce s c)
  dynamicPressure := newDynamicPressure s
  maxDynamicPressure := max s.maxDynamicPressure (newDynamicPressure s)
  atmosphericDensity := airDensity s
  atmosphereLayer := (getAtmosphericProperties s.altitude).layer
  deltaVExpended := newDeltaVExpended s c
  deltaVRemaining := remainingDeltaV s c
  thrustAngle := newThrustAngle s
  downrangeDistance := newDownrange s c
  structuralLoad := newStructuralLoad s c

/-! ## Landing guidance (src/services/landingGuidance.ts) -/

/-- State of the mass-refinement loop in calculateSuicideBurnAltitude:
the current burn-time estimate, the average mass last computed, and
whether the loop has hit its break. -/
structure SBState where
  est : ℝ
  avg : ℝ
  broke : Bool

/-- One pass of the for-loop (landingGuidance.ts lines 37-44). -/
def sbIter (velocity mass thrust burnRate : ℝ) (st : SBState) : SBState :=
  if st.broke then st
  else
    let fuelConsumed := st.est * burnRate
    let finalMass := max 1 (mass - fuelConsumed)
    let avgMass := (mass + finalMass) / 2
    let avgAccel := thrust / avgMass - GRAVITY
    if avgAccel ≤ 0 then ⟨st.est, avgMass, true⟩
    else ⟨velocity / avgAccel, avgMass, false⟩

def sbLoop (velocity mass thrust burnRate : ℝ) : SBState :=
  let st0 : SBState := ⟨velocity / (thrust / mass - GRAVITY), mass, false⟩
  if burnRate > 0 then
    sbIter velocity mass thrust burnRate
      (sbIter velocity mass thrust burnRate
        (sbIter velocity mass thrust burnRate st0))
  else st0

/-- landingGuidance.ts lines 26-57. -/
def calculateSuicideBurnAltitude (velocity mass thrust burnRate : ℝ) : ℝ :=
  let st := sbLoop velocity mass thrust burnRate
  let thrustAccel := thrust / st.avg
  let netAccel := thrustAccel - GRAVITY
  if netAccel ≤ 0 then 0
  else velocity * velocity / (2 * netAccel) + 100

/-! ## Orbital mechanics (src/services/orbitalMechanics.ts) -/

structure Vector2 where
  x : ℝ
  y : ℝ

def vectorMagnitude (v : Vector2) : ℝ := Real.sqrt (v.x * v.x + v.y * v.y)

def vectorDot (v1 v2 : Vector2) : ℝ := v1.x * v2.x + v1.y * v2.y

def vectorCross2D (v1 v2 : Vector2) : ℝ := v1.x * v2.y - v1.y * v2.x

def calculateCircularOrbitalVelocity (altitude : ℝ) : ℝ :=
  Real.sqrt (EARTH_MU / (EARTH_RADIUS + altitude))

/-- Model of the JavaScript Math.atan2. -/
def atan2 (y x : ℝ) : ℝ :=
  if x > 0 then Real.arctan (y / x)
  else if x < 0 then
    (if y ≥ 0 then Real.arctan (y / x) + Real.pi else Real.arctan (y / x) - Real.pi)
  else
    (if y > 0 then Real.pi / 2 else if y < 0 then -(Real.pi / 2) else 0)

structure OrbitalElements where
  apogee : ℝ
  perigee : ℝ
  eccentricity : ℝ
  semiMajorAxis : ℝ
  orbitalPeriod : ℝ
  inclination : ℝ
  specificEnergy : ℝ
  angularMomentum : ℝ

/-- orbitalMechanics.ts lines 76-132. -/
def calculateOrbitalElements (position velocity : Vector2) : OrbitalElements :=
  let r := vectorMagnitude position
  let v := vectorMagnitude velocity
  let specificEnergy := v * v / 2 - EARTH_MU / r
  let angularMomentum := vectorCross2D position velocity
  let semiMajorAxis := -EARTH_MU / (2 * specificEnergy)
  let eccentricity :=
    Real.sqrt (1 + 2 * specificEnergy * angularMomentum * angularMomentum /
      (EARTH_MU * EARTH_MU))
  let apogeeDist := semiMajorAxis * (1 + eccentricity)
  let perigeeDist := semiMajorAxis * (1 - eccentricity)
  let apogee := max 0 (apogeeDist - EARTH_RADIUS)
  let perigee := max 0 (perigeeDist - EARTH_RADIUS)
  let orbitalPeriod := 2 * Real.pi * Real.sqrt (|semiMajorAxis| ^ (3 : ℝ) / EARTH_MU)
  let inclination := |atan2 velocity.x velocity.y * (180 / Real.pi)|
  ⟨apogee, perigee, eccentricity, semiMajorAxis, orbitalPeriod, inclination,
    specificEnergy, angularMomentum⟩

/-! ## Initial state (src/App.tsx INITIAL_STATE, fuels filled from the
active config as handleReset does) -/

def initialState (c : RocketConfig) : SimulationState where
  time := 0
  altitude := 0
  velocity := 0
  acceleration := 0
  positionX := 0
  positionY := 6371000
  velocityX := 0
  velocityY := 0
  stage1Fuel := c.stage1.fuelMass
  stage2Fuel := c.stage2.fuelMass
  activeStage := 1
  separationTime := none
  phase := Phase.PRE_LAUNCH
  maxAltitude := 0
  maxVelocity := 0
  temperature := 288
  maxTemperature := 288
  gForce := 0
  maxGForce := 0
  dynamicPressure := 0
  maxDynamicPressure := 0
  atmosphericDensity := 1.225
  atmosphereLayer := "Troposphere"
  deltaVExpended := 0
  deltaVRemaining := 0
  thrustAngle := 0
  downrangeDistance := 0
  structuralLoad := 0

/-- The state at ignition: the first tick of the driver loop replaces
PRE_LAUNCH by BURNING and changes nothing else (App.tsx lines 258-260). -/
def launchState (c : RocketConfig) : SimulationState :=
  { initialState c with phase := Phase.BURNING }

/-- n applications of calculateNextState starting from the ignition state. -/
def iterStep (c : RocketConfig) : ℕ → SimulationState
  | 0 => launchState c
  | n + 1 => calculateNextState (iterStep c n) c

/-! ## Concrete states and configs used by counterexamples and witnesses -/

/-- A one-tonne single-stage stack with no thrust and no fuel. -/
def cfgA : RocketConfig := ⟨⟨0, 1000, 0, 0⟩, ⟨0, 0, 0, 0⟩, 0.75, 0⟩

/-- A coasting state 10 km up, at rest, used against C1. -/
def stateC1 : SimulationState :=
  { initialState cfgA with altitude := 10000, phase := Phase.COASTING, time := 10 }

/-- A crashed rocket at rest on the ground, as the integrator itself
produces after a crash (altitude and velocities clamped to zero). -/
def stateC2 : SimulationState :=
  { initialState cfgA with phase := Phase.CRASHED, time := 2 }

/-- A config whose stage-1 tank is empty: full fuel is zero fuel, so the
first tick runs the stage-separation branch on the pad. -/
def cfgZeroFuel : RocketConfig := ⟨⟨0, 2000, 0, 80⟩, ⟨0, 800, 0, 20⟩, 0.75, 500⟩

/-- The default vehicle with its stage-1 engine derated to 25 kN, far
below its 140 kN initial weight. -/
def cfgLowTWR : RocketConfig := ⟨⟨8000, 2000, 25000, 80⟩, ⟨3000, 800, 60000, 20⟩, 0.75, 500⟩

/-- Invariant backing the corrected C3: on the pad with engines
effectively off, the vehicle stays grounded with all motion clamped,
stage 1 attached, fuel ledger non-negative, in DESCENT or LANDED. -/
def groundedInv (s : SimulationState) : Prop :=
  s.altitude = 0 ∧ s.velocity = 0 ∧ s.velocityX = 0 ∧
  0 ≤ s.stage1Fuel ∧ 0 ≤ s.stage2Fuel ∧ s.activeStage = 1 ∧
  (s.phase = Phase.DESCENT ∨ s.phase = Phase.LANDED)

/-- The default vehicle of src/constants.ts DEFAULT_CONFIG. -/
def cfgC5 : RocketConfig := ⟨⟨8000, 2000, 250000, 80⟩, ⟨3000, 800, 60000, 20⟩, 0.75, 500⟩

/-- A staged stack 100 km up, five seconds after separation, descending
at 50 m/s. -/
def stateC5desc : SimulationState :=
  { initialState cfgC5 with
      phase := Phase.STAGING
      separationTime := some 5
      time := 10
      altitude := 100000
      velocity := -50
      stage1Fuel := 0 }

/-- The same staged stack still ascending at 1000 m/s. -/
def stateC5asc : SimulationState :=
  { initialState cfgC5 with
      phase := Phase.STAGING
      separationTime := some 5
      time := 10
      altitude := 100000
      velocity := 1000
      stage1Fuel := 0 }

/-- A surface point on the x axis, for the circular-orbit witness. -/
def posC7 : Vector2 := ⟨EARTH_RADIUS, 0⟩

/-- The matching perpendicular velocity at circular orbital speed. -/
def velC7 : Vector2 := ⟨0, Real.sqrt (EARTH_MU / EARTH_RADIUS)⟩

/-! ### Analysis artifacts for the suicide-burn loop (C6) -/

def alphaBar (m T z : ℝ) : ℝ := 2 * T / (m + max 1 (m - z)) - GRAVITY

def est0 (v m T : ℝ) : ℝ := v / (T / m - GRAVITY)

def est1 (v m T b : ℝ) : ℝ := v / alphaBar m T (est0 v m T * b)

def est2 (v m T b : ℝ) : ℝ := v / alphaBar m T (est1 v m T b * b)

def NqP (m c G u : ℝ) : ℝ :=
  4*m^2*c^2 + 12*m^2*c*G*u + 4*m*G*(m*G - c)*u^2 + c*G*u^3

def DqP (m c G u : ℝ) : ℝ :=
  8*m^3*c + 4*m^2*(4*m*G - c)*u + 2*m*(c - 4*m*G)*u^2 - c*u^3

end

end R2

namespace R2

noncomputable section

/-! ## Theorems -/

/-! ### Shared evaluation lemmas -/

theorem velX_zero (s : SimulationState) (hx : s.velocityX = 0) : velX s = 0 := hx

theorem vTotal_zero (s : SimulationState) (hx : s.velocityX = 0) (hy : s.velocity = 0) :
    vTotal s = 0 := by
  rw [vTotal, velX, velY, hx, hy]
  simp

theorem dragY_of_vTotal_zero (s : SimulationState) (c : RocketConfig)
    (h : vTotal s = 0) : dragY s c = 0 := by
  rw [dragY, h]
  norm_num

theorem dragX_of_vTotal_zero (s : SimulationState) (c : RocketConfig)
    (h : vTotal s = 0) : dragX s c = 0 := by
  rw [dragX, h]
  norm_num

theorem burnLogic_passthrough (s : SimulationState) (c : RocketConfig)
    (h1 : s.phase ≠ Phase.BURNING) (h2 : s.phase ≠ Phase.STAGING) :
    burnLogic s c = burnPassthrough s := by
  rw [burnLogic, if_neg h1, if_neg h2]

/-- Vertical acceleration of a thrustless, dragless state: minus local
gravity (needs non-zero mass for the division to cancel). -/
theorem accelV_freefall (s : SimulationState) (c : RocketConfig)
    (hthrust : (burnLogic s c).forceThrust = 0)
    (hdrag : dragY s c = 0) (hm : currentMass s c ≠ 0) :
    accelerationVertical s c = -localGravity s := by
  rw [accelerationVertical, forceNetVertical, thrustVertical, hthrust, hdrag, forceGravity]
  field_simp
  ring

/-- Local gravity at ground level, as an explicit constant expression. -/
theorem localGravity_ground (s : SimulationState) (halt : s.altitude = 0) :
    localGravity s = EARTH_MU / (EARTH_RADIUS * EARTH_RADIUS) := by
  rw [localGravity, halt, add_zero]

/-- Full kinematic evaluation of one step from a grounded rest state
whose burn logic is pass-through: the rocket sags under gravity for one
tick, is clamped back to the ground, and all velocity channels return 0. -/
theorem rest_kinematics (s : SimulationState) (c : RocketConfig)
    (hpass : burnLogic s c = burnPassthrough s)
    (halt : s.altitude = 0) (hv : s.velocity = 0) (hvx : s.velocityX = 0)
    (hm : 0 < currentMass s c) :
    newVelocityY s c = -(EARTH_MU / (EARTH_RADIUS * EARTH_RADIUS)) * DT ∧
    newAltitude s c < 0 ∧
    (calculateNextState s c).altitude = 0 ∧
    (calculateNextState s c).velocity = 0 ∧
    (calculateNextState s c).velocityX = 0 ∧
    (calculateNextState s c).velocityY = 0 := by
  have hvt : vTotal s = 0 := vTotal_zero s hvx hv
  have hthrust : (burnLogic s c).forceThrust = 0 := by rw [hpass]; rfl
  have hadj : (burnLogic s c).velocityAdjustment = 0 := by rw [hpass]; rfl
  have haV : accelerationVertical s c = -localGravity s :=
    accelV_freefall s c hthrust (dragY_of_vTotal_zero s c hvt) (ne_of_gt hm)
  have hg : localGravity s = EARTH_MU / (EARTH_RADIUS * EARTH_RADIUS) :=
    localGravity_ground s halt
  have hnv : newVelocityY s c = -(EARTH_MU / (EARTH_RADIUS * EARTH_RADIUS)) * DT := by
    rw [newVelocityY, velY, hv, haV, hg, hadj]
    ring
  have hnvneg : newVelocityY s c < 0 := by
    rw [hnv, EARTH_MU, EARTH_RADIUS, DT]
    norm_num
  have hnalt : newAltitude s c < 0 := by
    rw [newAltitude, halt, zero_add]
    have hdt : (0 : ℝ) < DT := by rw [DT]; norm_num
    exact mul_neg_of_neg_of_pos hnvneg hdt
  have hfa : finalAltitude s c = 0 := by
    rw [finalAltitude]
    exact max_eq_left (le_of_lt hnalt)
  refine ⟨hnv, hnalt, hfa, ?_, ?_, ?_⟩
  · show finalVelocity s c = 0
    rw [finalVelocity, if_pos hfa]
  · show finalVelocityX s c = 0
    rw [finalVelocityX, if_pos hfa]
  · show finalVelocityY s c = 0
    rw [finalVelocityY, if_pos hfa]

/-- Phase after one step from a grounded rest pass-through state past
the startup grace period: always LANDED, because the one-tick sag speed
is far below the 10 m/s crash threshold. -/
theorem rest_phase_landed (s : SimulationState) (c : RocketConfig)
    (hpass : burnLogic s c = burnPassthrough s)
    (halt : s.altitude = 0) (hv : s.velocity = 0) (hvx : s.velocityX = 0)
    (hm : 0 < currentMass s c) (ht : 1 < s.time) :
    (calculateNextState s c).phase = Phase.LANDED := by
  obtain ⟨hnv, hnalt, -, -, -, -⟩ := rest_kinematics s c hpass halt hv hvx hm
  show newPhase s c = Phase.LANDED
  rw [newPhase]
  simp only [if_pos (And.intro (le_of_lt hnalt) ht)]
  rw [if_neg]
  rw [newVelocity, hnv, EARTH_MU, EARTH_RADIUS, DT]
  rw [abs_of_nonpos (by norm_num)]
  norm_num

/-- Phase after one step from a grounded rest pass-through state inside
the startup grace period: DESCENT is entered or kept, LANDED is kept. -/
theorem rest_phase_early (s : SimulationState) (c : RocketConfig)
    (hpass : burnLogic s c = burnPassthrough s)
    (halt : s.altitude = 0) (hv : s.velocity = 0) (hvx : s.velocityX = 0)
    (hm : 0 < currentMass s c) (ht : ¬1 < s.time)
    (hph : s.phase = Phase.DESCENT ∨ s.phase = Phase.LANDED) :
    (calculateNextState s c).phase = s.phase := by
  obtain ⟨hnv, hnalt, -, -, -, -⟩ := rest_kinematics s c hpass halt hv hvx hm
  have hp0 : (burnLogic s c).newPhase0 = s.phase := by rw [hpass]; rfl
  show newPhase s c = s.phase
  rw [newPhase]
  simp only [hp0]
  rw [if_neg (by
    intro hcon
    exact ht hcon.2)]
  rcases hph with h | h <;> rw [h] <;> simp

/-- C4: every state returned by calculateNextState has non-negative
stage-1 and stage-2 fuel and non-negative altitude, and whenever the
returned altitude is zero all three velocity channels are zero. -/
theorem c4_state_invariants (s : SimulationState) (c : RocketConfig) :
    0 ≤ (calculateNextState s c).stage1Fuel ∧
    0 ≤ (calculateNextState s c).stage2Fuel ∧
    0 ≤ (calculateNextState s c).altitude ∧
    ((calculateNextState s c).altitude = 0 →
      (calculateNextState s c).velocity = 0 ∧
      (calculateNextState s c).velocityX = 0 ∧
      (calculateNextState s c).velocityY = 0) := by
  refine ⟨le_max_left _ _, le_max_left _ _, le_max_left _ _, fun h => ?_⟩
  have h' : finalAltitude s c = 0 := h
  refine ⟨?_, ?_, ?_⟩
  · show finalVelocity s c = 0
    rw [finalVelocity, if_pos h']
  · show finalVelocityX s c = 0
    rw [finalVelocityX, if_pos h']
  · show finalVelocityY s c = 0
    rw [finalVelocityY, if_pos h']

/-- C4 witness: the invariants evaluated at the ignition state of the
one-tonne test config. -/
theorem c4_state_invariants_witness :
    0 ≤ (calculateNextState (launchState cfgA) cfgA).stage1Fuel ∧
    0 ≤ (calculateNextState (launchState cfgA) cfgA).stage2Fuel ∧
    0 ≤ (calculateNextState (launchState cfgA) cfgA).altitude ∧
    ((calculateNextState (launchState cfgA) cfgA).altitude = 0 →
      (calculateNextState (launchState cfgA) cfgA).velocity = 0 ∧
      (calculateNextState (launchState cfgA) cfgA).velocityX = 0 ∧
      (calculateNextState (launchState cfgA) cfgA).velocityY = 0) :=
  c4_state_invariants (launchState cfgA) cfgA

/-- C9: for every altitude at or above zero the atmosphere lookup
returns non-negative density and pressure. -/
theorem c9_atmosphere_nonneg (a : ℝ) (h : 0 ≤ a) :
    0 ≤ (getAtmosphericProperties a).density ∧
    0 ≤ (getAtmosphericProperties a).pressure :=
  ⟨le_max_left _ _, le_max_left _ _⟩

/-- C9 witness at sea level. -/
theorem c9_atmosphere_nonneg_witness :
    (0 : ℝ) ≤ 0 ∧
    (0 ≤ (getAtmosphericProperties 0).density ∧
      0 ≤ (getAtmosphericProperties 0).pressure) :=
  ⟨le_refl 0, c9_atmosphere_nonneg 0 (le_refl 0)⟩

/-- C10: the suicide-burn altitude is never strictly between 0 and the
100 m safety margin: it is exactly 0 when the net deceleration is not
positive and at least 100 otherwise. -/
theorem c10_suicide_burn_margin (velocity mass thrust burnRate : ℝ)
    (hv : 0 ≤ velocity) (hm : 0 < mass) (ht : 0 ≤ thrust) (hb : 0 ≤ burnRate) :
    calculateSuicideBurnAltitude velocity mass thrust burnRate = 0 ∨
    100 ≤ calculateSuicideBurnAltitude velocity mass thrust burnRate := by
  simp only [calculateSuicideBurnAltitude]
  split_ifs with hna
  · exact Or.inl rfl
  · refine Or.inr ?_
    have hpos : 0 < thrust / (sbLoop velocity mass thrust burnRate).avg - GRAVITY :=
      lt_of_not_ge hna
    have h0 : 0 ≤ velocity * velocity /
        (2 * (thrust / (sbLoop velocity mass thrust burnRate).avg - GRAVITY)) :=
      div_nonneg (mul_self_nonneg _) (by linarith)
    linarith

/-- C10 witness: a thrustless stage cannot decelerate, so the formula
returns 0 there, which satisfies the disjunction. -/
theorem c10_suicide_burn_margin_witness :
    (0 : ℝ) ≤ 10 ∧ (0 : ℝ) < 1000 ∧ (0 : ℝ) ≤ 0 ∧
    (calculateSuicideBurnAltitude 10 1000 0 0 = 0 ∨
      100 ≤ calculateSuicideBurnAltitude 10 1000 0 0) :=
  ⟨by norm_num, by norm_num, le_refl 0,
    c10_suicide_burn_margin 10 1000 0 0 (by norm_num) (by norm_num) (le_refl 0) (le_refl 0)⟩

/-- C1 amended: the integrator is semi-implicit Euler with a ground
clamp: the returned altitude is the non-negative part of the input
altitude plus the post-update vertical velocity times DT, where the
post-update velocity is the input vertical velocity plus vertical
acceleration times DT plus the staging separation impulse. -/
theorem c1_semi_implicit_euler (s : SimulationState) (c : RocketConfig) :
    (calculateNextState s c).altitude = max 0 (s.altitude + newVelocityY s c * DT) ∧
    newVelocityY s c =
      s.velocity + accelerationVertical s c * DT + (burnLogic s c).velocityAdjustment :=
  ⟨rfl, rfl⟩

/-- C1 counterexample: at a coasting state 10 km up at rest, the
returned altitude is strictly below the input altitude (gravity already
acted during the tick), so it differs from input altitude plus
pre-update vertical velocity times DT, which would leave it unchanged. -/
theorem c1_counterexample :
    (calculateNextState stateC1 cfgA).altitude ≠
      stateC1.altitude + stateC1.velocity * DT := by
  have hvx : stateC1.velocityX = 0 := rfl
  have hv : stateC1.velocity = 0 := rfl
  have hvt : vTotal stateC1 = 0 := vTotal_zero stateC1 hvx hv
  have hpass : burnLogic stateC1 cfgA = burnPassthrough stateC1 :=
    burnLogic_passthrough stateC1 cfgA (by intro h; exact Phase.noConfusion h)
      (by intro h; exact Phase.noConfusion h)
  have hthrust : (burnLogic stateC1 cfgA).forceThrust = 0 := by rw [hpass]; rfl
  have hadj : (burnLogic stateC1 cfgA).velocityAdjustment = 0 := by rw [hpass]; rfl
  have hmass : currentMass stateC1 cfgA = 1000 := by
    rw [currentMass, if_pos (show stateC1.activeStage = 1 from rfl)]
    show cfgA.stage1.dryMass + (0 : ℝ) + cfgA.stage2.dryMass + 0 + cfgA.payloadMass = 1000
    norm_num [cfgA]
  have haV : accelerationVertical stateC1 cfgA = -localGravity stateC1 :=
    accelV_freefall stateC1 cfgA hthrust (dragY_of_vTotal_zero stateC1 cfgA hvt)
      (by rw [hmass]; norm_num)
  have hg : localGravity stateC1 = EARTH_MU / (6381000 * 6381000) := by
    rw [localGravity]
    norm_num [EARTH_RADIUS, show stateC1.altitude = 10000 from rfl]
  have hnv : newVelocityY stateC1 cfgA = -(EARTH_MU / (6381000 * 6381000)) * DT := by
    rw [newVelocityY, velY, hv, haV, hg, hadj]
    ring
  have halt10 : stateC1.altitude = 10000 := rfl
  have hfin : (calculateNextState stateC1 cfgA).altitude =
      max 0 (10000 + -(EARTH_MU / (6381000 * 6381000)) * DT * DT) := by
    show finalAltitude stateC1 cfgA = _
    rw [finalAltitude, newAltitude, hnv, halt10]
  rw [hfin, hv, halt10]
  rw [max_eq_right (by rw [EARTH_MU, DT]; norm_num)]
  rw [EARTH_MU, DT]
  norm_num

/-- Ground-rest terminal-state evaluation shared by the C2 theorems. -/
theorem terminal_rest_step (s : SimulationState) (c : RocketConfig)
    (hph : s.phase = Phase.LANDED ∨ s.phase = Phase.CRASHED)
    (halt : s.altitude = 0) (hv : s.velocity = 0) (hvx : s.velocityX = 0)
    (ht : 1 < s.time) (hm : 0 < currentMass s c) :
    (calculateNextState s c).altitude = 0 ∧
    (calculateNextState s c).velocity = 0 ∧
    (calculateNextState s c).velocityX = 0 ∧
    (calculateNextState s c).velocityY = 0 ∧
    (calculateNextState s c).phase = Phase.LANDED := by
  have hpass : burnLogic s c = burnPassthrough s := by
    refine burnLogic_passthrough s c ?_ ?_ <;>
      rcases hph with h | h <;> rw [h] <;> intro hcon <;> exact Phase.noConfusion hcon
  obtain ⟨-, -, h1, h2, h3, h4⟩ := rest_kinematics s c hpass halt hv hvx hm
  exact ⟨h1, h2, h3, h4, rest_phase_landed s c hpass halt hv hvx hm ht⟩

/-- C2 counterexample: from the ground-rest crashed state the code's own
crash handling produces, one more step returns phase LANDED, so CRASHED
is not terminal for calculateNextState. -/
theorem c2_counterexample :
    stateC2.phase = Phase.CRASHED ∧
    (calculateNextState stateC2 cfgA).phase = Phase.LANDED := by
  refine ⟨rfl, ?_⟩
  have hmass : currentMass stateC2 cfgA = 1000 := by
    rw [currentMass, if_pos (show stateC2.activeStage = 1 from rfl)]
    show cfgA.stage1.dryMass + (0 : ℝ) + cfgA.stage2.dryMass + 0 + cfgA.payloadMass = 1000
    norm_num [cfgA]
  exact (terminal_rest_step stateC2 cfgA (Or.inr rfl) rfl rfl rfl
    (by show (1 : ℝ) < 2; norm_num) (by rw [hmass]; norm_num)).2.2.2.2

/-- C2 amended: for ground-rest states past the startup grace period
with positive vehicle mass, calculateNextState leaves the kinematics at
zero; a LANDED state stays LANDED, but a CRASHED state transitions to
LANDED on the next step (the function itself has no terminal guard; the
driver in App.tsx stops ticking once either terminal phase is seen). -/
theorem c2_terminal_ground_rest (s : SimulationState) (c : RocketConfig)
    (hph : s.phase = Phase.LANDED ∨ s.phase = Phase.CRASHED)
    (halt : s.altitude = 0) (hv : s.velocity = 0) (hvx : s.velocityX = 0)
    (ht : 1 < s.time) (hm : 0 < currentMass s c) :
    (calculateNextState s c).altitude = s.altitude ∧
    (calculateNextState s c).velocity = s.velocity ∧
    (calculateNextState s c).velocityX = s.velocityX ∧
    (calculateNextState s c).velocityY = 0 ∧
    (calculateNextState s c).phase = Phase.LANDED := by
  obtain ⟨h1, h2, h3, h4, h5⟩ := terminal_rest_step s c hph halt hv hvx ht hm
  rw [halt, hv, hvx]
  exact ⟨h1, h2, h3, h4, h5⟩

/-- C2 witness: the amended statement applied to the concrete crashed
ground-rest state. -/
theorem c2_terminal_ground_rest_witness :
    (stateC2.phase = Phase.LANDED ∨ stateC2.phase = Phase.CRASHED) ∧
    stateC2.altitude = 0 ∧ stateC2.velocity = 0 ∧ stateC2.velocityX = 0 ∧
    1 < stateC2.time ∧ 0 < currentMass stateC2 cfgA ∧
    ((calculateNextState stateC2 cfgA).altitude = stateC2.altitude ∧
      (calculateNextState stateC2 cfgA).velocity = stateC2.velocity ∧
      (calculateNextState stateC2 cfgA).velocityX = stateC2.velocityX ∧
      (calculateNextState stateC2 cfgA).velocityY = 0 ∧
      (calculateNextState stateC2 cfgA).phase = Phase.LANDED) := by
  have hmass : 0 < currentMass stateC2 cfgA := by
    rw [currentMass, if_pos (show stateC2.activeStage = 1 from rfl)]
    show (0 : ℝ) < cfgA.stage1.dryMass + 0 + cfgA.stage2.dryMass + 0 + cfgA.payloadMass
    norm_num [cfgA]
  have ht : (1 : ℝ) < stateC2.time := by show (1 : ℝ) < 2; norm_num
  exact ⟨Or.inr rfl, rfl, rfl, rfl, ht, hmass,
    c2_terminal_ground_rest stateC2 cfgA (Or.inr rfl) rfl rfl rfl ht hmass⟩

/-! ### C3: a thrust-deficient vehicle stays on the pad -/

theorem mass_pos_of_stage1 (s : SimulationState) (c : RocketConfig)
    (h1 : s.activeStage = 1) (hf1 : 0 ≤ s.stage1Fuel) (hf2 : 0 ≤ s.stage2Fuel)
    (hdry : 0 < c.stage1.dryMass + c.stage2.dryMass + c.payloadMass) :
    0 < currentMass s c := by
  rw [currentMass, if_pos h1]
  linarith

/-- First tick from ignition with thrust below weight: the vehicle sags,
is clamped to the pad, and the global phase check flips it to DESCENT
(so the engine never fires again). -/
theorem launch_low_twr_step (c : RocketConfig)
    (hf1 : 0 < c.stage1.fuelMass)
    (hm0 : 0 < currentMass (launchState c) c)
    (htwr : c.stage1.thrust <
      currentMass (launchState c) c * (EARTH_MU / (EARTH_RADIUS * EARTH_RADIUS))) :
    groundedInv (calculateNextState (launchState c) c) := by
  set s := launchState c with hs
  have hphase : s.phase = Phase.BURNING := rfl
  have hstage : s.activeStage = 1 := rfl
  have hfuel : s.stage1Fuel > 0 := hf1
  have hburn : burnLogic s c =
      { burnPassthrough s with
          forceThrust := c.stage1.thrust
          s1Consumption := c.stage1.burnRate * DT
          deltaVThisStep := c.stage1.thrust * DT / currentMass s c } := by
    rw [burnLogic, if_pos hphase, if_pos hstage, if_pos hfuel]
  have hangle : newThrustAngle s = 0 := by
    rw [newThrustAngle, if_pos hphase]
    have htgt : targetAngle s = 0 := by
      rw [targetAngle]
      show getGravityTurnAngle 0 0 = 0
      rw [getGravityTurnAngle, if_pos (by norm_num : (0 : ℝ) < 1000)]
    rw [htgt]
    show (0 : ℝ) + Real.sign (0 - 0) * min 0.5 |0 - 0| = 0
    simp
  have hcos : Real.cos (angleRad s) = 1 := by
    rw [angleRad, hangle, zero_mul, zero_div, Real.cos_zero]
  have hthrustV : thrustVertical s c = c.stage1.thrust := by
    rw [thrustVertical, hburn, hcos, mul_one]
  have hvt : vTotal s = 0 := vTotal_zero s rfl rfl
  have hdY : dragY s c = 0 := dragY_of_vTotal_zero s c hvt
  have hg : localGravity s = EARTH_MU / (EARTH_RADIUS * EARTH_RADIUS) :=
    localGravity_ground s rfl
  have haV : accelerationVertical s c =
      (c.stage1.thrust - currentMass s c * (EARTH_MU / (EARTH_RADIUS * EARTH_RADIUS))) /
        currentMass s c := by
    rw [accelerationVertical, forceNetVertical, hthrustV, hdY, forceGravity, hg]
    ring_nf
  have haVneg : accelerationVertical s c < 0 := by
    rw [haV]
    exact div_neg_of_neg_of_pos (by linarith) hm0
  have hadj : (burnLogic s c).velocityAdjustment = 0 := by rw [hburn]; rfl
  have hdt : (0 : ℝ) < DT := by rw [DT]; norm_num
  have hnv : newVelocityY s c < 0 := by
    rw [newVelocityY, hadj, add_zero]
    have : velY s = 0 := rfl
    rw [this, zero_add]
    exact mul_neg_of_neg_of_pos haVneg hdt
  have hnalt : newAltitude s c < 0 := by
    rw [newAltitude]
    have : s.altitude = 0 := rfl
    rw [this, zero_add]
    exact mul_neg_of_neg_of_pos hnv hdt
  have hfa : finalAltitude s c = 0 := by
    rw [finalAltitude]
    exact max_eq_left (le_of_lt hnalt)
  have hphase' : newPhase s c = Phase.DESCENT := by
    rw [newPhase]
    have hp0 : (burnLogic s c).newPhase0 = Phase.BURNING := by rw [hburn]; rfl
    simp only [hp0]
    rw [if_neg (by
      intro hcon
      have : (1 : ℝ) < 0 := by
        have hst : s.time = 0 := rfl
        rw [hst] at hcon
        exact hcon.2
      norm_num at this)]
    rw [if_pos]
    exact ⟨hnv, by simp, by simp, by simp⟩
  refine ⟨hfa, ?_, ?_, le_max_left _ _, le_max_left _ _, ?_, Or.inl hphase'⟩
  · show finalVelocity s c = 0
    rw [finalVelocity, if_pos hfa]
  · show finalVelocityX s c = 0
    rw [finalVelocityX, if_pos hfa]
  · show (burnLogic s c).newActiveStage = 1
    rw [hburn]
    exact hstage

/-- Each further tick preserves the grounded invariant. -/
theorem groundedInv_preserved (s : SimulationState) (c : RocketConfig)
    (hdry : 0 < c.stage1.dryMass + c.stage2.dryMass + c.payloadMass)
    (hinv : groundedInv s) : groundedInv (calculateNextState s c) := by
  obtain ⟨halt, hv, hvx, hf1, hf2, hstage, hph⟩ := hinv
  have hm : 0 < currentMass s c := mass_pos_of_stage1 s c hstage hf1 hf2 hdry
  have hpass : burnLogic s c = burnPassthrough s := by
    refine burnLogic_passthrough s c ?_ ?_ <;>
      rcases hph with h | h <;> rw [h] <;> intro hcon <;> exact Phase.noConfusion hcon
  obtain ⟨-, -, h1, h2, h3, -⟩ := rest_kinematics s c hpass halt hv hvx hm
  have hcons1 : (burnLogic s c).s1Consumption = 0 := by rw [hpass]; rfl
  have hcons2 : (burnLogic s c).s2Consumption = 0 := by rw [hpass]; rfl
  refine ⟨h1, h2, h3, le_max_left _ _, le_max_left _ _, ?_, ?_⟩
  · show (burnLogic s c).newActiveStage = 1
    rw [hpass]
    exact hstage
  · by_cases ht : 1 < s.time
    · exact Or.inr (rest_phase_landed s c hpass halt hv hvx hm ht)
    · rw [rest_phase_early s c hpass halt hv hvx hm ht hph]
      exact hph

/-- C3 amended: a configuration with non-negative masses, positive total
dry mass, a positive stage-1 fuel load, and stage-1 thrust strictly
below the initial weight (with weight taken at the pad gravity
EARTH_MU / EARTH_RADIUS²) never leaves the ground: every iterate of
calculateNextState from the ignition state has altitude 0 and vertical
velocity at most 0. -/
theorem c3_low_twr_stays_grounded (c : RocketConfig)
    (hf1 : 0 < c.stage1.fuelMass) (hf2 : 0 ≤ c.stage2.fuelMass)
    (hd1 : 0 ≤ c.stage1.dryMass) (hd2 : 0 ≤ c.stage2.dryMass) (hpm : 0 ≤ c.payloadMass)
    (hdry : 0 < c.stage1.dryMass + c.stage2.dryMass + c.payloadMass)
    (htwr : c.stage1.thrust <
      (c.stage1.dryMass + c.stage1.fuelMass + c.stage2.dryMass + c.stage2.fuelMass +
        c.payloadMass) * (EARTH_MU / (EARTH_RADIUS * EARTH_RADIUS))) :
    ∀ n : ℕ, (iterStep c n).altitude = 0 ∧ (iterStep c n).velocity ≤ 0 := by
  have hmass0 : currentMass (launchState c) c =
      c.stage1.dryMass + c.stage1.fuelMass + c.stage2.dryMass + c.stage2.fuelMass +
        c.payloadMass := by
    rw [currentMass, if_pos (show (launchState c).activeStage = 1 from rfl)]
    rfl
  have hm0 : 0 < currentMass (launchState c) c := by
    rw [hmass0]
    linarith
  have hstep1 : groundedInv (iterStep c 1) :=
    launch_low_twr_step c hf1 hm0 (by rw [hmass0]; exact htwr)
  have hinv : ∀ n : ℕ, groundedInv (iterStep c (n + 1)) := by
    intro n
    induction n with
    | zero => exact hstep1
    | succ k ih => exact groundedInv_preserved (iterStep c (k + 1)) c hdry ih
  intro n
  cases n with
  | zero => exact ⟨rfl, le_of_eq rfl⟩
  | succ k =>
    obtain ⟨h1, h2, -⟩ := hinv k
    exact ⟨h1, le_of_eq h2⟩

/-- C3 counterexample: a config with an empty stage-1 tank has thrust
(zero) strictly below its initial weight, yet the very first step leaves
the ground: the staging branch fires on the pad and its 15 m/s
separation impulse lofts the stack to positive altitude. -/
theorem c3_counterexample :
    cfgZeroFuel.stage1.thrust <
      (cfgZeroFuel.stage1.dryMass + cfgZeroFuel.stage1.fuelMass +
        cfgZeroFuel.stage2.dryMass + cfgZeroFuel.stage2.fuelMass +
        cfgZeroFuel.payloadMass) * (EARTH_MU / (EARTH_RADIUS * EARTH_RADIUS)) ∧
    (calculateNextState (launchState cfgZeroFuel) cfgZeroFuel).altitude ≠ 0 := by
  constructor
  · norm_num [cfgZeroFuel, EARTH_MU, EARTH_RADIUS]
  · set s := launchState cfgZeroFuel with hs
    have hphase : s.phase = Phase.BURNING := rfl
    have hstage : s.activeStage = 1 := rfl
    have hburn : burnLogic s cfgZeroFuel =
        { burnPassthrough s with
            newPhase0 := Phase.STAGING
            newSeparationTime := some s.time
            velocityAdjustment := SEPARATION_IMPULSE } := by
      rw [burnLogic, if_pos hphase, if_pos hstage,
        if_neg (show ¬s.stage1Fuel > 0 by norm_num [hs, launchState, initialState, cfgZeroFuel])]
    have hthrust : (burnLogic s cfgZeroFuel).forceThrust = 0 := by rw [hburn]; rfl
    have hadj : (burnLogic s cfgZeroFuel).velocityAdjustment = SEPARATION_IMPULSE := by
      rw [hburn]
    have hmass : currentMass s cfgZeroFuel = 3300 := by
      rw [currentMass, if_pos hstage]
      show cfgZeroFuel.stage1.dryMass + cfgZeroFuel.stage1.fuelMass +
        cfgZeroFuel.stage2.dryMass + cfgZeroFuel.stage2.fuelMass +
        cfgZeroFuel.payloadMass = 3300
      norm_num [cfgZeroFuel]
    have hvt : vTotal s = 0 := vTotal_zero s rfl rfl
    have haV : accelerationVertical s cfgZeroFuel = -localGravity s :=
      accelV_freefall s cfgZeroFuel hthrust (dragY_of_vTotal_zero s cfgZeroFuel hvt)
        (by rw [hmass]; norm_num)
    have hg : localGravity s = EARTH_MU / (EARTH_RADIUS * EARTH_RADIUS) :=
      localGravity_ground s rfl
    have hnv : newVelocityY s cfgZeroFuel =
        -(EARTH_MU / (EARTH_RADIUS * EARTH_RADIUS)) * DT + SEPARATION_IMPULSE := by
      rw [newVelocityY, hadj, haV, hg]
      have : velY s = 0 := rfl
      rw [this]
      ring
    have hfa : (calculateNextState s cfgZeroFuel).altitude =
        max 0 ((-(EARTH_MU / (EARTH_RADIUS * EARTH_RADIUS)) * DT + SEPARATION_IMPULSE) * DT) := by
      show finalAltitude s cfgZeroFuel = _
      rw [finalAltitude, newAltitude, hnv]
      have : s.altitude = 0 := rfl
      rw [this, zero_add]
    rw [hfa]
    rw [max_eq_right (by rw [EARTH_MU, EARTH_RADIUS, DT, SEPARATION_IMPULSE]; norm_num)]
    rw [EARTH_MU, EARTH_RADIUS, DT, SEPARATION_IMPULSE]
    norm_num

/-- C3 witness: the amended statement applied to the derated default
vehicle, read off after three ticks. -/
theorem c3_low_twr_stays_grounded_witness :
    (0 : ℝ) < cfgLowTWR.stage1.fuelMass ∧ (0 : ℝ) ≤ cfgLowTWR.stage2.fuelMass ∧
    (0 : ℝ) ≤ cfgLowTWR.stage1.dryMass ∧ (0 : ℝ) ≤ cfgLowTWR.stage2.dryMass ∧
    (0 : ℝ) ≤ cfgLowTWR.payloadMass ∧
    (0 : ℝ) < cfgLowTWR.stage1.dryMass + cfgLowTWR.stage2.dryMass + cfgLowTWR.payloadMass ∧
    cfgLowTWR.stage1.thrust <
      (cfgLowTWR.stage1.dryMass + cfgLowTWR.stage1.fuelMass + cfgLowTWR.stage2.dryMass +
        cfgLowTWR.stage2.fuelMass + cfgLowTWR.payloadMass) *
        (EARTH_MU / (EARTH_RADIUS * EARTH_RADIUS)) ∧
    (iterStep cfgLowTWR 3).altitude = 0 ∧ (iterStep cfgLowTWR 3).velocity ≤ 0 := by
  have h1 : (0 : ℝ) < cfgLowTWR.stage1.fuelMass := by norm_num [cfgLowTWR]
  have h2 : (0 : ℝ) ≤ cfgLowTWR.stage2.fuelMass := by norm_num [cfgLowTWR]
  have h3 : (0 : ℝ) ≤ cfgLowTWR.stage1.dryMass := by norm_num [cfgLowTWR]
  have h4 : (0 : ℝ) ≤ cfgLowTWR.stage2.dryMass := by norm_num [cfgLowTWR]
  have h5 : (0 : ℝ) ≤ cfgLowTWR.payloadMass := by norm_num [cfgLowTWR]
  have h6 : (0 : ℝ) < cfgLowTWR.stage1.dryMass + cfgLowTWR.stage2.dryMass +
      cfgLowTWR.payloadMass := by norm_num [cfgLowTWR]
  have h7 : cfgLowTWR.stage1.thrust <
      (cfgLowTWR.stage1.dryMass + cfgLowTWR.stage1.fuelMass + cfgLowTWR.stage2.dryMass +
        cfgLowTWR.stage2.fuelMass + cfgLowTWR.payloadMass) *
        (EARTH_MU / (EARTH_RADIUS * EARTH_RADIUS)) := by
    norm_num [cfgLowTWR, EARTH_MU, EARTH_RADIUS]
  exact ⟨h1, h2, h3, h4, h5, h6, h7,
    c3_low_twr_stays_grounded cfgLowTWR h1 h2 h3 h4 h5 h6 h7 3⟩

/-! ### C7: circular orbits -/

theorem orbitalElements_specificEnergy (p v : Vector2) :
    (calculateOrbitalElements p v).specificEnergy =
      vectorMagnitude v * vectorMagnitude v / 2 - EARTH_MU / vectorMagnitude p := rfl

theorem orbitalElements_angularMomentum (p v : Vector2) :
    (calculateOrbitalElements p v).angularMomentum = vectorCross2D p v := rfl

theorem orbitalElements_eccentricity (p v : Vector2) :
    (calculateOrbitalElements p v).eccentricity =
      Real.sqrt (1 + 2 * (calculateOrbitalElements p v).specificEnergy *
        (calculateOrbitalElements p v).angularMomentum *
        (calculateOrbitalElements p v).angularMomentum / (EARTH_MU * EARTH_MU)) := rfl

theorem orbitalElements_semiMajorAxis (p v : Vector2) :
    (calculateOrbitalElements p v).semiMajorAxis =
      -EARTH_MU / (2 * (calculateOrbitalElements p v).specificEnergy) := rfl

theorem orbitalElements_apogee (p v : Vector2) :
    (calculateOrbitalElements p v).apogee =
      max 0 ((calculateOrbitalElements p v).semiMajorAxis *
        (1 + (calculateOrbitalElements p v).eccentricity) - EARTH_RADIUS) := rfl

theorem orbitalElements_perigee (p v : Vector2) :
    (calculateOrbitalElements p v).perigee =
      max 0 ((calculateOrbitalElements p v).semiMajorAxis *
        (1 - (calculateOrbitalElements p v).eccentricity) - EARTH_RADIUS) := rfl

/-- C7: for a position at radius EARTH_RADIUS + a, a velocity
perpendicular to it of exactly the circular orbital speed for altitude
a, the orbital-elements calculator returns eccentricity exactly 0 and
apogee and perigee exactly a (real arithmetic). -/
theorem c7_circular_orbit (a : ℝ) (pos vel : Vector2) (ha : 0 ≤ a)
    (hr : vectorMagnitude pos = EARTH_RADIUS + a)
    (hperp : vectorDot pos vel = 0)
    (hv : vectorMagnitude vel = calculateCircularOrbitalVelocity a) :
    (calculateOrbitalElements pos vel).eccentricity = 0 ∧
    (calculateOrbitalElements pos vel).apogee = a ∧
    (calculateOrbitalElements pos vel).perigee = a := by
  have hR : (0 : ℝ) < EARTH_RADIUS := by rw [EARTH_RADIUS]; norm_num
  have hμ : (0 : ℝ) < EARTH_MU := by rw [EARTH_MU]; norm_num
  have hρ : (0 : ℝ) < EARTH_RADIUS + a := by linarith
  have hSpos : 0 ≤ pos.x * pos.x + pos.y * pos.y :=
    add_nonneg (mul_self_nonneg _) (mul_self_nonneg _)
  have hSvel : 0 ≤ vel.x * vel.x + vel.y * vel.y :=
    add_nonneg (mul_self_nonneg _) (mul_self_nonneg _)
  have hp2 : vectorMagnitude pos * vectorMagnitude pos =
      (EARTH_RADIUS + a) * (EARTH_RADIUS + a) := by rw [hr]
  have hpS : vectorMagnitude pos * vectorMagnitude pos =
      pos.x * pos.x + pos.y * pos.y := Real.mul_self_sqrt hSpos
  have hvv : vectorMagnitude vel * vectorMagnitude vel =
      EARTH_MU / (EARTH_RADIUS + a) := by
    rw [hv, calculateCircularOrbitalVelocity]
    exact Real.mul_self_sqrt (div_nonneg hμ.le hρ.le)
  have hvS : vectorMagnitude vel * vectorMagnitude vel =
      vel.x * vel.x + vel.y * vel.y := Real.mul_self_sqrt hSvel
  have lagrange : vectorCross2D pos vel * vectorCross2D pos vel +
      vectorDot pos vel * vectorDot pos vel =
      (pos.x * pos.x + pos.y * pos.y) * (vel.x * vel.x + vel.y * vel.y) := by
    rw [vectorCross2D, vectorDot]
    ring
  have hcross : vectorCross2D pos vel * vectorCross2D pos vel =
      EARTH_MU * (EARTH_RADIUS + a) := by
    have hS : pos.x * pos.x + pos.y * pos.y =
        (EARTH_RADIUS + a) * (EARTH_RADIUS + a) := hpS.symm.trans hp2
    have hS2 : vel.x * vel.x + vel.y * vel.y =
        EARTH_MU / (EARTH_RADIUS + a) := hvS.symm.trans hvv
    have h1 : vectorCross2D pos vel * vectorCross2D pos vel =
        ((EARTH_RADIUS + a) * (EARTH_RADIUS + a)) * (EARTH_MU / (EARTH_RADIUS + a)) := by
      rw [hS, hS2, hperp] at lagrange
      linarith
    rw [h1]
    field_simp
    ring
  have hE : (calculateOrbitalElements pos vel).specificEnergy =
      -(EARTH_MU / (2 * (EARTH_RADIUS + a))) := by
    rw [orbitalElements_specificEnergy, hvv, hr]
    field_simp
    ring
  have harg : 1 + 2 * (calculateOrbitalElements pos vel).specificEnergy *
      (calculateOrbitalElements pos vel).angularMomentum *
      (calculateOrbitalElements pos vel).angularMomentum / (EARTH_MU * EARTH_MU) = 0 := by
    have h2 : 2 * (calculateOrbitalElements pos vel).specificEnergy *
        (calculateOrbitalElements pos vel).angularMomentum *
        (calculateOrbitalElements pos vel).angularMomentum =
        2 * (calculateOrbitalElements pos vel).specificEnergy *
        ((calculateOrbitalElements pos vel).angularMomentum *
          (calculateOrbitalElements pos vel).angularMomentum) := by ring
    rw [h2, orbitalElements_angularMomentum, hcross, hE]
    field_simp
    ring
  have hecc : (calculateOrbitalElements pos vel).eccentricity = 0 := by
    rw [orbitalElements_eccentricity, harg, Real.sqrt_zero]
  have hsma : (calculateOrbitalElements pos vel).semiMajorAxis = EARTH_RADIUS + a := by
    rw [orbitalElements_semiMajorAxis, hE]
    field_simp
    ring
  refine ⟨hecc, ?_, ?_⟩
  · rw [orbitalElements_apogee, hsma, hecc]
    rw [show (EARTH_RADIUS + a) * (1 + 0) - EARTH_RADIUS = a by ring]
    exact max_eq_right ha
  · rw [orbitalElements_perigee, hsma, hecc]
    rw [show (EARTH_RADIUS + a) * (1 - 0) - EARTH_RADIUS = a by ring]
    exact max_eq_right ha

/-- C7 witness: a surface-radius position with perpendicular circular
velocity gives a circular orbit of altitude 0. -/
theorem c7_circular_orbit_witness :
    (0 : ℝ) ≤ 0 ∧ vectorMagnitude posC7 = EARTH_RADIUS + 0 ∧
    vectorDot posC7 velC7 = 0 ∧
    vectorMagnitude velC7 = calculateCircularOrbitalVelocity 0 ∧
    ((calculateOrbitalElements posC7 velC7).eccentricity = 0 ∧
      (calculateOrbitalElements posC7 velC7).apogee = 0 ∧
      (calculateOrbitalElements posC7 velC7).perigee = 0) := by
  have hR : (0 : ℝ) < EARTH_RADIUS := by rw [EARTH_RADIUS]; norm_num
  have hμ : (0 : ℝ) < EARTH_MU := by rw [EARTH_MU]; norm_num
  have h1 : vectorMagnitude posC7 = EARTH_RADIUS + 0 := by
    rw [vectorMagnitude]
    show Real.sqrt (EARTH_RADIUS * EARTH_RADIUS + 0 * 0) = EARTH_RADIUS + 0
    rw [show EARTH_RADIUS * EARTH_RADIUS + 0 * 0 = EARTH_RADIUS * EARTH_RADIUS by ring,
      Real.sqrt_mul_self hR.le, add_zero]
  have h2 : vectorDot posC7 velC7 = 0 := by
    rw [vectorDot]
    show EARTH_RADIUS * 0 + 0 * Real.sqrt (EARTH_MU / EARTH_RADIUS) = 0
    ring
  have h3 : vectorMagnitude velC7 = calculateCircularOrbitalVelocity 0 := by
    rw [vectorMagnitude, calculateCircularOrbitalVelocity]
    show Real.sqrt (0 * 0 + Real.sqrt (EARTH_MU / EARTH_RADIUS) *
      Real.sqrt (EARTH_MU / EARTH_RADIUS)) = Real.sqrt (EARTH_MU / (EARTH_RADIUS + 0))
    rw [Real.mul_self_sqrt (div_nonneg hμ.le hR.le)]
    rw [show (0 : ℝ) * 0 + EARTH_MU / EARTH_RADIUS = EARTH_MU / (EARTH_RADIUS + 0) by
      rw [add_zero, zero_mul, zero_add]]
  exact ⟨le_refl 0, h1, h2, h3,
    c7_circular_orbit 0 posC7 velC7 (le_refl 0) h1 h2 h3⟩

/-! ### C5: the staging dwell -/

theorem findLayer_100000 :
    findLayer 100000 ATMOSPHERE_LAYERS troposphereDefault 0 =
      (⟨"Thermosphere", some 200000, 0, 186.87, 0.3734⟩, 85000) := by
  rw [ATMOSPHERE_LAYERS]
  rw [findLayer]
  norm_num
  rw [findLayer]
  norm_num
  rw [findLayer]
  norm_num
  rw [findLayer]
  norm_num
  rw [findLayer]
  norm_num
  rw [findLayer]
  norm_num
  rw [findLayer]
  norm_num

/-- The atmospheric density the integrator sees at 100 km: non-negative
and below 7e-6 kg/m³ (the raw barometric value times an exp factor at
most 1). -/
theorem atm_density_100000 :
    0 ≤ (getAtmosphericProperties 100000).density ∧
    (getAtmosphericProperties 100000).density ≤ 0.000007 := by
  refine ⟨le_max_left _ _, ?_⟩
  have hd : (getAtmosphericProperties 100000).density =
      max 0 ((0.3734 : ℝ) * Real.exp (-GRAVITY * (100000 - 85000) / (287.05 * 186.87)) /
        (287.058 * (186.87 + 0 * (100000 - 85000)))) := by
    show (let found := findLayer 100000 ATMOSPHERE_LAYERS troposphereDefault 0
      let layer := found.1
      let prevAlt := found.2
      let altInLayer := (100000 : ℝ) - prevAlt
      let temp := layer.baseTemp + layer.tempGradient * altInLayer
      let pressure :=
        if layer.tempGradient ≠ 0 then
          layer.basePressure * (temp / layer.baseTemp) ^ (-GRAVITY / (layer.tempGradient * 287.05))
        else
          layer.basePressure * Real.exp (-GRAVITY * altInLayer / (287.05 * layer.baseTemp))
      let density := pressure / (287.058 * temp)
      (⟨max 0 density, temp, max 0 pressure, layer.name⟩ : AtmProps)).density = _
    rw [findLayer_100000]
    norm_num
  rw [hd]
  have hexp : Real.exp (-GRAVITY * (100000 - 85000) / (287.05 * 186.87)) ≤ 1 := by
    rw [show (1 : ℝ) = Real.exp 0 from Real.exp_zero.symm]
    apply Real.exp_le_exp.mpr
    rw [GRAVITY]
    norm_num
  have hexp0 : 0 < Real.exp (-GRAVITY * (100000 - 85000) / (287.05 * 186.87)) :=
    Real.exp_pos _
  apply max_le (by norm_num)
  rw [div_le_iff₀ (by norm_num : (0 : ℝ) < 287.058 * (186.87 + 0 * (100000 - 85000)))]
  nlinarith

/-- C5 amended: from a STAGING state with a nonzero recorded separation
time, provided the stepped state is still airborne (positive returned
altitude) and not descending (non-negative returned vertical velocity),
calculateNextState switches to BURNING on stage 2 exactly when the
elapsed time exceeds the 2 s dwell, and otherwise keeps STAGING with the
stage unchanged.  (A zero separation time is falsy in the JavaScript
guard, a ground contact retags to LANDED or CRASHED, and a negative new
vertical velocity retags to DESCENT, which is why those cases are
excluded.) -/
theorem c5_staging_dwell (s : SimulationState) (c : RocketConfig)
    (hph : s.phase = Phase.STAGING) (τ : ℝ)
    (hsep : s.separationTime = some τ) (hτ : τ ≠ 0)
    (halt : 0 < (calculateNextState s c).altitude)
    (hvel : 0 ≤ (calculateNextState s c).velocityY) :
    (2 < s.time - τ →
      (calculateNextState s c).phase = Phase.BURNING ∧
      (calculateNextState s c).activeStage = 2) ∧
    (s.time - τ ≤ 2 →
      (calculateNextState s c).phase = Phase.STAGING ∧
      (calculateNextState s c).activeStage = s.activeStage) := by
  have hfa_pos : (0 : ℝ) < finalAltitude s c := halt
  have hfa_ne : finalAltitude s c ≠ 0 := ne_of_gt hfa_pos
  have hnalt_pos : 0 < newAltitude s c := by
    rcases lt_max_iff.mp hfa_pos with h | h
    · exact absurd h (lt_irrefl 0)
    · exact h
  have hvel' : 0 ≤ newVelocityY s c := by
    have heq : (calculateNextState s c).velocityY = newVelocityY s c := by
      show finalVelocityY s c = newVelocityY s c
      rw [finalVelocityY, if_neg hfa_ne]
    rwa [heq] at hvel
  have hnotfirst : ¬(newAltitude s c ≤ 0 ∧ s.time > 1) := by
    intro hcon
    exact absurd hcon.1 (not_le.mpr hnalt_pos)
  have hnotdesc : ¬(newVelocity s c < 0 ∧ (burnLogic s c).newPhase0 ≠ Phase.DESCENT ∧
      (burnLogic s c).newPhase0 ≠ Phase.CRASHED ∧
      (burnLogic s c).newPhase0 ≠ Phase.LANDED) := by
    intro hcon
    exact absurd hcon.1 (not_lt.mpr hvel')
  have hphase_eq : (calculateNextState s c).phase = (burnLogic s c).newPhase0 := by
    show newPhase s c = _
    simp only [newPhase]
    rw [if_neg hnotfirst, if_neg hnotdesc]
  have hnotburn : s.phase ≠ Phase.BURNING := by rw [hph]; intro hcon; exact Phase.noConfusion hcon
  constructor
  · intro ht
    have hdw : stagingDwellOver s := by
      rw [stagingDwellOver, hsep]
      exact ⟨hτ, ht⟩
    have hb : burnLogic s c =
        { burnPassthrough s with newPhase0 := Phase.BURNING, newActiveStage := 2 } := by
      rw [burnLogic, if_neg hnotburn, if_pos hph, if_pos hdw]
    constructor
    · rw [hphase_eq, hb]
    · show (burnLogic s c).newActiveStage = 2
      rw [hb]
  · intro ht
    have hdw : ¬stagingDwellOver s := by
      rw [stagingDwellOver, hsep]
      intro hcon
      exact absurd hcon.2 (not_lt.mpr ht)
    have hb : burnLogic s c = burnPassthrough s := by
      rw [burnLogic, if_neg hnotburn, if_pos hph, if_neg hdw]
    constructor
    · rw [hphase_eq, hb]
      exact hph
    · show (burnLogic s c).newActiveStage = s.activeStage
      rw [hb]
      rfl

/-- Vertical acceleration bounds for a thrustless 6300 kg stack at
100 km with small drag: between -9.61 and -8.99 m/s². -/
theorem accelV_bounds_100k (s : SimulationState) (c : RocketConfig)
    (halt100 : s.altitude = 100000)
    (hthrust : (burnLogic s c).forceThrust = 0)
    (hmass : currentMass s c = 6300)
    (hdY : |dragY s c| ≤ 7) :
    -9.61 ≤ accelerationVertical s c ∧ accelerationVertical s c ≤ -8.99 := by
  have htv : thrustVertical s c = 0 := by rw [thrustVertical, hthrust, zero_mul]
  have hg : localGravity s = EARTH_MU / (6471000 * 6471000) := by
    rw [localGravity, halt100]
    norm_num [EARTH_RADIUS]
  have hglb : (9 : ℝ) ≤ EARTH_MU / (6471000 * 6471000) := by
    rw [EARTH_MU]
    norm_num
  have hgub : EARTH_MU / (6471000 * 6471000) ≤ 9.6 := by
    rw [EARTH_MU]
    norm_num
  obtain ⟨hd1, hd2⟩ := abs_le.mp hdY
  rw [accelerationVertical, forceNetVertical, htv, forceGravity, hmass, hg, zero_add]
  constructor
  · rw [le_div_iff₀ (by norm_num : (0 : ℝ) < 6300)]
    nlinarith
  · rw [div_le_iff₀ (by norm_num : (0 : ℝ) < 6300)]
    nlinarith

/-- C5 counterexample: a STAGING state with separation recorded at t=5,
now at t=10 (elapsed 5 s, past the 2 s dwell) but descending at 50 m/s,
does not transition to BURNING: the global phase check retags the
BURNING result to DESCENT in the same tick. -/
theorem c5_counterexample :
    stateC5desc.phase = Phase.STAGING ∧
    stateC5desc.separationTime = some 5 ∧
    2 < stateC5desc.time - 5 ∧
    (calculateNextState stateC5desc cfgC5).phase = Phase.DESCENT := by
  refine ⟨rfl, rfl, by show (2 : ℝ) < 10 - 5; norm_num, ?_⟩
  have hph : stateC5desc.phase = Phase.STAGING := rfl
  have hdw : stagingDwellOver stateC5desc := by
    rw [stagingDwellOver]
    show (5 : ℝ) ≠ 0 ∧ (10 : ℝ) - 5 > 2
    norm_num
  have hb : burnLogic stateC5desc cfgC5 =
      { burnPassthrough stateC5desc with
          newPhase0 := Phase.BURNING, newActiveStage := 2 } := by
    rw [burnLogic, if_neg (by intro hcon; exact Phase.noConfusion hcon), if_pos hph,
      if_pos hdw]
  have hthrust : (burnLogic stateC5desc cfgC5).forceThrust = 0 := by rw [hb]; rfl
  have hadj : (burnLogic stateC5desc cfgC5).velocityAdjustment = 0 := by rw [hb]; rfl
  have hp0 : (burnLogic stateC5desc cfgC5).newPhase0 = Phase.BURNING := by rw [hb]
  have hmass : currentMass stateC5desc cfgC5 = 6300 := by
    rw [currentMass, if_pos (show stateC5desc.activeStage = 1 from rfl)]
    show cfgC5.stage1.dryMass + (0 : ℝ) + cfgC5.stage2.dryMass + cfgC5.stage2.fuelMass +
      cfgC5.payloadMass = 6300
    norm_num [cfgC5]
  have hvt : vTotal stateC5desc = 50 := by
    rw [vTotal]
    have hx : velX stateC5desc = 0 := rfl
    have hy : velY stateC5desc = -50 := rfl
    rw [hx, hy]
    rw [show (0 : ℝ) * 0 + -50 * -50 = 50 * 50 by norm_num]
    exact Real.sqrt_mul_self (by norm_num)
  have hvtpos : vTotal stateC5desc > 0 := by rw [hvt]; norm_num
  have hdm : dragMagnitude stateC5desc cfgC5 =
      0.5 * (getAtmosphericProperties 100000).density * (50 * 50) * 0.75 * 2.5 := by
    rw [dragMagnitude, hvt]
    rfl
  obtain ⟨hρ0, hρ7⟩ := atm_density_100000
  have hdm0 : 0 ≤ dragMagnitude stateC5desc cfgC5 := by rw [hdm]; nlinarith
  have hdm7 : dragMagnitude stateC5desc cfgC5 ≤ 7 := by rw [hdm]; nlinarith
  have hdY : dragY stateC5desc cfgC5 = dragMagnitude stateC5desc cfgC5 := by
    rw [dragY, if_pos hvtpos, hvt]
    have hy : velY stateC5desc = -50 := rfl
    rw [hy, show ((-50 : ℝ) / 50) = -1 by norm_num]
    ring
  have habs : |dragY stateC5desc cfgC5| ≤ 7 := by
    rw [hdY, abs_of_nonneg hdm0]
    exact hdm7
  obtain ⟨halb, haub⟩ := accelV_bounds_100k stateC5desc cfgC5 rfl hthrust hmass habs
  have hnv : newVelocityY stateC5desc cfgC5 =
      -50 + accelerationVertical stateC5desc cfgC5 * DT := by
    rw [newVelocityY, hadj, add_zero]
    have hy : velY stateC5desc = -50 := rfl
    rw [hy]
  have hdt : DT = 0.05 := rfl
  have hnvneg : newVelocityY stateC5desc cfgC5 < 0 := by
    rw [hnv, hdt]
    nlinarith
  have hnvlb : -51 ≤ newVelocityY stateC5desc cfgC5 := by
    rw [hnv, hdt]
    nlinarith
  have hnalt : 0 < newAltitude stateC5desc cfgC5 := by
    rw [newAltitude]
    have ha : stateC5desc.altitude = 100000 := rfl
    rw [ha, hdt]
    nlinarith
  show newPhase stateC5desc cfgC5 = Phase.DESCENT
  simp only [newPhase, hp0]
  rw [if_neg (by
    intro hcon
    exact absurd hcon.1 (not_le.mpr hnalt))]
  rw [if_pos]
  refine ⟨hnvneg, by simp, by simp, by simp⟩

/-- C5 witness: the same staged stack still ascending at 1000 m/s does
transition to BURNING on stage 2 once the dwell has elapsed. -/
theorem c5_staging_dwell_witness :
    stateC5asc.phase = Phase.STAGING ∧
    stateC5asc.separationTime = some 5 ∧ (5 : ℝ) ≠ 0 ∧
    0 < (calculateNextState stateC5asc cfgC5).altitude ∧
    0 ≤ (calculateNextState stateC5asc cfgC5).velocityY ∧
    ((calculateNextState stateC5asc cfgC5).phase = Phase.BURNING ∧
      (calculateNextState stateC5asc cfgC5).activeStage = 2) := by
  have hph : stateC5asc.phase = Phase.STAGING := rfl
  have hdw : stagingDwellOver stateC5asc := by
    rw [stagingDwellOver]
    show (5 : ℝ) ≠ 0 ∧ (10 : ℝ) - 5 > 2
    norm_num
  have hb : burnLogic stateC5asc cfgC5 =
      { burnPassthrough stateC5asc with
          newPhase0 := Phase.BURNING, newActiveStage := 2 } := by
    rw [burnLogic, if_neg (by intro hcon; exact Phase.noConfusion hcon), if_pos hph,
      if_pos hdw]
  have hthrust : (burnLogic stateC5asc cfgC5).forceThrust = 0 := by rw [hb]; rfl
  have hadj : (burnLogic stateC5asc cfgC5).velocityAdjustment = 0 := by rw [hb]; rfl
  have hmass : currentMass stateC5asc cfgC5 = 6300 := by
    rw [currentMass, if_pos (show stateC5asc.activeStage = 1 from rfl)]
    show cfgC5.stage1.dryMass + (0 : ℝ) + cfgC5.stage2.dryMass + cfgC5.stage2.fuelMass +
      cfgC5.payloadMass = 6300
    norm_num [cfgC5]
  have hvt : vTotal stateC5asc = 1000 := by
    rw [vTotal]
    have hx : velX stateC5asc = 0 := rfl
    have hy : velY stateC5asc = 1000 := rfl
    rw [hx, hy]
    rw [show (0 : ℝ) * 0 + 1000 * 1000 = 1000 * 1000 by norm_num]
    exact Real.sqrt_mul_self (by norm_num)
  have hvtpos : vTotal stateC5asc > 0 := by rw [hvt]; norm_num
  have hdm : dragMagnitude stateC5asc cfgC5 =
      0.5 * (getAtmosphericProperties 100000).density * (1000 * 1000) * 0.75 * 2.5 := by
    rw [dragMagnitude, hvt]
    rfl
  obtain ⟨hρ0, hρ7⟩ := atm_density_100000
  have hdm0 : 0 ≤ dragMagnitude stateC5asc cfgC5 := by rw [hdm]; nlinarith
  have hdm7 : dragMagnitude stateC5asc cfgC5 ≤ 7 := by rw [hdm]; nlinarith
  have hdY : dragY stateC5asc cfgC5 = -dragMagnitude stateC5asc cfgC5 := by
    rw [dragY, if_pos hvtpos, hvt]
    have hy : velY stateC5asc = 1000 := rfl
    rw [hy, show ((1000 : ℝ) / 1000) = 1 by norm_num]
    ring
  have habs : |dragY stateC5asc cfgC5| ≤ 7 := by
    rw [hdY, abs_neg, abs_of_nonneg hdm0]
    exact hdm7
  obtain ⟨halb, haub⟩ := accelV_bounds_100k stateC5asc cfgC5 rfl hthrust hmass habs
  have hnv : newVelocityY stateC5asc cfgC5 =
      1000 + accelerationVertical stateC5asc cfgC5 * DT := by
    rw [newVelocityY, hadj, add_zero]
    have hy : velY stateC5asc = 1000 := rfl
    rw [hy]
  have hdt : DT = 0.05 := rfl
  have hnvpos : 0 < newVelocityY stateC5asc cfgC5 := by
    rw [hnv, hdt]
    nlinarith
  have hnalt : 0 < newAltitude stateC5asc cfgC5 := by
    rw [newAltitude]
    have ha : stateC5asc.altitude = 100000 := rfl
    rw [ha, hdt]
    nlinarith
  have hfa : (calculateNextState stateC5asc cfgC5).altitude = newAltitude stateC5asc cfgC5 := by
    show finalAltitude stateC5asc cfgC5 = _
    rw [finalAltitude]
    exact max_eq_right (le_of_lt hnalt)
  have halt' : 0 < (calculateNextState stateC5asc cfgC5).altitude := by
    rw [hfa]
    exact hnalt
  have hvel' : 0 ≤ (calculateNextState stateC5asc cfgC5).velocityY := by
    show 0 ≤ finalVelocityY stateC5asc cfgC5
    rw [finalVelocityY, if_neg (by
      show finalAltitude stateC5asc cfgC5 ≠ 0
      exact ne_of_gt halt')]
    exact le_of_lt hnvpos
  exact ⟨rfl, rfl, by norm_num, halt', hvel',
    (c5_staging_dwell stateC5asc cfgC5 rfl 5 rfl (by norm_num) halt' hvel').1
      (by show (2 : ℝ) < 10 - 5; norm_num)⟩

/-! ### C6: monotonicity of calculateSuicideBurnAltitude.
The loop is analysed through the average deceleration alphaBar and the
two-pass estimate chain est0, est1, est2; polynomial kernels are settled
by sum-of-squares certificates. -/

set_option maxHeartbeats 1600000 in
theorem pk1_kernel (m c G p q : ℝ) (hp : 0 ≤ p) (hpq : p ≤ q) (hq : q ≤ m - 1)
    (hc : 0 ≤ c) (hG : 0 ≤ G) :
    p ^ 2 * (c + G * q) * (2 * m - p) ≤ q ^ 2 * (c + G * p) * (2 * m - q) := by
  obtain ⟨a, ha⟩ : ∃ x : ℝ, p = x ^ 2 := ⟨Real.sqrt p, (Real.sq_sqrt hp).symm⟩
  obtain ⟨b, hb⟩ : ∃ x : ℝ, q - p = x ^ 2 := ⟨Real.sqrt (q - p), (Real.sq_sqrt (by linarith)).symm⟩
  obtain ⟨f, hf⟩ : ∃ x : ℝ, m - 1 - q = x ^ 2 := ⟨Real.sqrt (m - 1 - q), (Real.sq_sqrt (by linarith)).symm⟩
  obtain ⟨pp, hpp⟩ : ∃ x : ℝ, c = x ^ 2 := ⟨Real.sqrt c, (Real.sq_sqrt hc).symm⟩
  obtain ⟨g, hg⟩ : ∃ x : ℝ, G = x ^ 2 := ⟨Real.sqrt G, (Real.sq_sqrt hG).symm⟩
  have hq2 : q = a ^ 2 + b ^ 2 := by linarith
  have hm2 : m = 1 + a ^ 2 + b ^ 2 + f ^ 2 := by linarith
  rw [← sub_nonneg, ha, hq2, hm2, hpp, hg]
  have h0 : (0:ℝ) ≤
      a ^ 4 * b ^ 4 * g ^ 2 +
      2 * a ^ 4 * b ^ 2 * f ^ 2 * g ^ 2 +
      a ^ 4 * b ^ 2 * pp ^ 2 +
      2 * a ^ 4 * b ^ 2 * g ^ 2 +
      a ^ 2 * b ^ 6 * g ^ 2 +
      2 * a ^ 2 * b ^ 4 * f ^ 2 * g ^ 2 +
      3 * a ^ 2 * b ^ 4 * pp ^ 2 +
      2 * a ^ 2 * b ^ 4 * g ^ 2 +
      4 * a ^ 2 * b ^ 2 * f ^ 2 * pp ^ 2 +
      4 * a ^ 2 * b ^ 2 * pp ^ 2 +
      b ^ 6 * pp ^ 2 +
      2 * b ^ 4 * f ^ 2 * pp ^ 2 +
      2 * b ^ 4 * pp ^ 2 := by positivity
  nlinarith [h0]

set_option maxHeartbeats 16000000 in
set_option maxRecDepth 4000 in
theorem cu_kernel (m c G u U : ℝ) (hu : 0 ≤ u) (huU : u ≤ U) (hU : U ≤ m - 1)
    (hc : 0 ≤ c) (hG : 0 ≤ G) :
    u ^ 2 * NqP m c G U * DqP m c G u ≤ U ^ 2 * NqP m c G u * DqP m c G U := by
  obtain ⟨a, ha⟩ : ∃ x : ℝ, u = x ^ 2 := ⟨Real.sqrt u, (Real.sq_sqrt hu).symm⟩
  obtain ⟨b, hb⟩ : ∃ x : ℝ, U - u = x ^ 2 := ⟨Real.sqrt (U - u), (Real.sq_sqrt (by linarith)).symm⟩
  obtain ⟨f, hf⟩ : ∃ x : ℝ, m - 1 - U = x ^ 2 := ⟨Real.sqrt (m - 1 - U), (Real.sq_sqrt (by linarith)).symm⟩
  obtain ⟨p, hp⟩ : ∃ x : ℝ, c = x ^ 2 := ⟨Real.sqrt c, (Real.sq_sqrt hc).symm⟩
  obtain ⟨g, hg⟩ : ∃ x : ℝ, G = x ^ 2 := ⟨Real.sqrt G, (Real.sq_sqrt hG).symm⟩
  have hU2 : U = a ^ 2 + b ^ 2 := by linarith
  have hm2 : m = 1 + a ^ 2 + b ^ 2 + f ^ 2 := by linarith
  have hc0 : (0:ℝ) ≤ (((((32 * (a ^ 8 * b ^ 2 * g ^ 3) ^ 2 + 64 * (a ^ 8 * b * f * g ^ 3) ^ 2) + (76 * (a ^ 8 * b * p * g ^ 2) ^ 2 + 64 * (a ^ 8 * b * g ^ 3) ^ 2)) + ((192 * (a ^ 7 * b ^ 3 * g ^ 3) ^ 2 + 512 * (a ^ 7 * b ^ 2 * f * g ^ 3) ^ 2) + (628 * (a ^ 7 * b ^ 2 * p * g ^ 2) ^ 2 + 512 * (a ^ 7 * b ^ 2 * g ^ 3) ^ 2))) + (((256 * (a ^ 7 * b * f ^ 2 * g ^ 3) ^ 2 + 648 * (a ^ 7 * b * f * p * g ^ 2) ^ 2) + (512 * (a ^ 7 * b * f * g ^ 3) ^ 2 + 92 * (a ^ 7 * b * p ^ 2 * g) ^ 2)) + ((648 * (a ^ 7 * b * p * g ^ 2) ^ 2 + 256 * (a ^ 7 * b * g ^ 3) ^ 2) + (480 * (a ^ 6 * b ^ 4 * g ^ 3) ^ 2 + 1600 * (a ^ 6 * b ^ 3 * f * g ^ 3) ^ 2)))) + ((((2092 * (a ^ 6 * b ^ 3 * p * g ^ 2) ^ 2 + 1600 * (a ^ 6 * b ^ 3 * g ^ 3) ^ 2) + (1472 * (a ^ 6 * b ^ 2 * f ^ 2 * g ^ 3) ^ 2 + 4120 * (a ^ 6 * b ^ 2 * f * p * g ^ 2) ^ 2)) + ((2944 * (a ^ 6 * b ^ 2 * f * g ^ 3) ^ 2 + 657 * (a ^ 6 * b ^ 2 * p ^ 2 * g) ^ 2) + (4120 * (a ^ 6 * b ^ 2 * p * g ^ 2) ^ 2 + 1472 * (a ^ 6 * b ^ 2 * g ^ 3) ^ 2))) + (((384 * (a ^ 6 * b * f ^ 3 * g ^ 3) ^ 2 + 1852 * (a ^ 6 * b * f ^ 2 * p * g ^ 2) ^ 2) + (1152 * (a ^ 6 * b * f ^ 2 * g ^ 3) ^ 2 + 670 * (a ^ 6 * b * f * p ^ 2 * g) ^ 2)) + ((3704 * (a ^ 6 * b * f * p * g ^ 2) ^ 2 + 1152 * (a ^ 6 * b * f * g ^ 3) ^ 2) + (28 * (a ^ 6 * b * p ^ 3) ^ 2 + 670 * (a ^ 6 * b * p ^ 2 * g) ^ 2))))) :=
    (add_nonneg (add_nonneg (add_nonneg (add_nonneg (add_nonneg (mul_nonneg (by norm_num) (sq_nonneg (a ^ 8 * b ^ 2 * g ^ 3))) (mul_nonneg (by norm_num) (sq_nonneg (a ^ 8 * b * f * g ^ 3)))) (add_nonneg (mul_nonneg (by norm_num) (sq_nonneg (a ^ 8 * b * p * g ^ 2))) (mul_nonneg (by norm_num) (sq_nonneg (a ^ 8 * b * g ^ 3))))) (add_nonneg (add_nonneg (mul_nonneg (by norm_num) (sq_nonneg (a ^ 7 * b ^ 3 * g ^ 3))) (mul_nonneg (by norm_num) (sq_nonneg (a ^ 7 * b ^ 2 * f * g ^ 3)))) (add_nonneg (mul_nonneg (by norm_num) (sq_nonneg (a ^ 7 * b ^ 2 * p * g ^ 2))) (mul_nonneg (by norm_num) (sq_nonneg (a ^ 7 * b ^ 2 * g ^ 3)))))) (add_nonneg (add_nonneg (add_nonneg (mul_nonneg (by norm_num) (sq_nonneg (a ^ 7 * b * f ^ 2 * g ^ 3))) (mul_nonneg (by norm_num) (sq_nonneg (a ^ 7 * b * f * p * g ^ 2)))) (add_nonneg (mul_nonneg (by norm_num) (sq_nonneg (a ^ 7 * b * f * g ^ 3))) (mul_nonneg (by norm_num) (sq_nonneg (a ^ 7 * b * p ^ 2 * g))))) (add_nonneg (add_nonneg (mul_nonneg (by norm_num) (sq_nonneg (a ^ 7 * b * p * g ^ 2))) (mul_nonneg (by norm_num) (sq_nonneg (a ^ 7 * b * g ^ 3)))) (add_nonneg (mul_nonneg (by norm_num) (sq_nonneg (a ^ 6 * b ^ 4 * g ^ 3))) (mul_nonneg (by norm_num) (sq_nonneg (a ^ 6 * b ^ 3 * f * g ^ 3))))))) (add_nonneg (add_nonneg (add_nonneg (add_nonneg (mul_nonneg (by norm_num) (sq_nonneg (a ^ 6 * b ^ 3 * p * g ^ 2))) (mul_nonneg (by norm_num) (sq_nonneg (a ^ 6 * b ^ 3 * g ^ 3)))) (add_nonneg (mul_nonneg (by norm_num) (sq_nonneg (a ^ 6 * b ^ 2 * f ^ 2 * g ^ 3))) (mul_nonneg (by norm_num) (sq_nonneg (a ^ 6 * b ^ 2 * f * p * g ^ 2))))) (add_nonneg (add_nonneg (mul_nonneg (by norm_num) (sq_nonneg (a ^ 6 * b ^ 2 * f * g ^ 3))) (mul_nonneg (by norm_num) (sq_nonneg (a ^ 6 * b ^ 2 * p ^ 2 * g)))) (add_nonneg (mul_nonneg (by norm_num) (sq_nonneg (a ^ 6 * b ^ 2 * p * g ^ 2))) (mul_nonneg (by norm_num) (sq_nonneg (a ^ 6 * b ^ 2 * g ^ 3)))))) (add_nonneg (add_nonneg (add_nonneg (mul_nonneg (by norm_num) (sq_nonneg (a ^ 6 * b * f ^ 3 * g ^ 3))) (mul_nonneg (by norm_num) (sq_nonneg (a ^ 6 * b * f ^ 2 * p * g ^ 2)))) (add_nonneg (mul_nonneg (by norm_num) (sq_nonneg (a ^ 6 * b * f ^ 2 * g ^ 3))) (mul_nonneg (by norm_num) (sq_nonneg (a ^ 6 * b * f * p ^ 2 * g))))) (add_nonneg (add_nonneg (mul_nonneg (by norm_num) (sq_nonneg (a ^ 6 * b * f * p * g ^ 2))) (mul_nonneg (by norm_num) (sq_nonneg (a ^ 6 * b * f * g ^ 3)))) (add_nonneg (mul_nonneg (by norm_num) (sq_nonneg (a ^ 6 * b * p ^ 3))) (mul_nonneg (by norm_num) (sq_nonneg (a ^ 6 * b * p ^ 2 * g))))))))
  have hc1 : (0:ℝ) ≤ (((((1852 * (a ^ 6 * b * p * g ^ 2) ^ 2 + 384 * (a ^ 6 * b * g ^ 3) ^ 2) + (640 * (a ^ 5 * b ^ 5 * g ^ 3) ^ 2 + 2560 * (a ^ 5 * b ^ 4 * f * g ^ 3) ^ 2)) + ((3704 * (a ^ 5 * b ^ 4 * p * g ^ 2) ^ 2 + 2560 * (a ^ 5 * b ^ 4 * g ^ 3) ^ 2) + (3328 * (a ^ 5 * b ^ 3 * f ^ 2 * g ^ 3) ^ 2 + 10568 * (a ^ 5 * b ^ 3 * f * p * g ^ 2) ^ 2))) + (((6656 * (a ^ 5 * b ^ 3 * f * g ^ 3) ^ 2 + 1887 * (a ^ 5 * b ^ 3 * p ^ 2 * g) ^ 2) + (10568 * (a ^ 5 * b ^ 3 * p * g ^ 2) ^ 2 + 3328 * (a ^ 5 * b ^ 3 * g ^ 3) ^ 2)) + ((1664 * (a ^ 5 * b ^ 2 * f ^ 3 * g ^ 3) ^ 2 + 9228 * (a ^ 5 * b ^ 2 * f ^ 2 * p * g ^ 2) ^ 2) + (4992 * (a ^ 5 * b ^ 2 * f ^ 2 * g ^ 3) ^ 2 + 3722 * (a ^ 5 * b ^ 2 * f * p ^ 2 * g) ^ 2)))) + ((((18456 * (a ^ 5 * b ^ 2 * f * p * g ^ 2) ^ 2 + 4992 * (a ^ 5 * b ^ 2 * f * g ^ 3) ^ 2) + (176 * (a ^ 5 * b ^ 2 * p ^ 3) ^ 2 + 3722 * (a ^ 5 * b ^ 2 * p ^ 2 * g) ^ 2)) + ((9228 * (a ^ 5 * b ^ 2 * p * g ^ 2) ^ 2 + 1664 * (a ^ 5 * b ^ 2 * g ^ 3) ^ 2) + (256 * (a ^ 5 * b * f ^ 4 * g ^ 3) ^ 2 + 2448 * (a ^ 5 * b * f ^ 3 * p * g ^ 2) ^ 2))) + (((1024 * (a ^ 5 * b * f ^ 3 * g ^ 3) ^ 2 + 1712 * (a ^ 5 * b * f ^ 2 * p ^ 2 * g) ^ 2) + (7344 * (a ^ 5 * b * f ^ 2 * p * g ^ 2) ^ 2 + 1536 * (a ^ 5 * b * f ^ 2 * g ^ 3) ^ 2)) + ((184 * (a ^ 5 * b * f * p ^ 3) ^ 2 + 3424 * (a ^ 5 * b * f * p ^ 2 * g) ^ 2) + (7344 * (a ^ 5 * b * f * p * g ^ 2) ^ 2 + 1024 * (a ^ 5 * b * f * g ^ 3) ^ 2))))) :=
    (add_nonneg (add_nonneg (add_nonneg (add_nonneg (add_nonneg (mul_nonneg (by norm_num) (sq_nonneg (a ^ 6 * b * p * g ^ 2))) (mul_nonneg (by norm_num) (sq_nonneg (a ^ 6 * b * g ^ 3)))) (add_nonneg (mul_nonneg (by norm_num) (sq_nonneg (a ^ 5 * b ^ 5 * g ^ 3))) (mul_nonneg (by norm_num) (sq_nonneg (a ^ 5 * b ^ 4 * f * g ^ 3))))) (add_nonneg (add_nonneg (mul_nonneg (by norm_num) (sq_nonneg (a ^ 5 * b ^ 4 * p * g ^ 2))) (mul_nonneg (by norm_num) (sq_nonneg (a ^ 5 * b ^ 4 * g ^ 3)))) (add_nonneg (mul_nonneg (by norm_num) (sq_nonneg (a ^ 5 * b ^ 3 * f ^ 2 * g ^ 3))) (mul_nonneg (by norm_num) (sq_nonneg (a ^ 5 * b ^ 3 * f * p * g ^ 2)))))) (add_nonneg (add_nonneg (add_nonneg (mul_nonneg (by norm_num) (sq_nonneg (a ^ 5 * b ^ 3 * f * g ^ 3))) (mul_nonneg (by norm_num) (sq_nonneg (a ^ 5 * b ^ 3 * p ^ 2 * g)))) (add_nonneg (mul_nonneg (by norm_num) (sq_nonneg (a ^ 5 * b ^ 3 * p * g ^ 2))) (mul_nonneg (by norm_num) (sq_nonneg (a ^ 5 * b ^ 3 * g ^ 3))))) (add_nonneg (add_nonneg (mul_nonneg (by norm_num) (sq_nonneg (a ^ 5 * b ^ 2 * f ^ 3 * g ^ 3))) (mul_nonneg (by norm_num) (sq_nonneg (a ^ 5 * b ^ 2 * f ^ 2 * p * g ^ 2)))) (add_nonneg (mul_nonneg (by norm_num) (sq_nonneg (a ^ 5 * b ^ 2 * f ^ 2 * g ^ 3))) (mul_nonneg (by norm_num) (sq_nonneg (a ^ 5 * b ^ 2 * f * p ^ 2 * g))))))) (add_nonneg (add_nonneg (add_nonneg (add_nonneg (mul_nonneg (by norm_num) (sq_nonneg (a ^ 5 * b ^ 2 * f * p * g ^ 2))) (mul_nonneg (by norm_num) (sq_nonneg (a ^ 5 * b ^ 2 * f * g ^ 3)))) (add_nonneg (mul_nonneg (by norm_num) (sq_nonneg (a ^ 5 * b ^ 2 * p ^ 3))) (mul_nonneg (by norm_num) (sq_nonneg (a ^ 5 * b ^ 2 * p ^ 2 * g))))) (add_nonneg (add_nonneg (mul_nonneg (by norm_num) (sq_nonneg (a ^ 5 * b ^ 2 * p * g ^ 2))) (mul_nonneg (by norm_num) (sq_nonneg (a ^ 5 * b ^ 2 * g ^ 3)))) (add_nonneg (mul_nonneg (by norm_num) (sq_nonneg (a ^ 5 * b * f ^ 4 * g ^ 3))) (mul_nonneg (by norm_num) (sq_nonneg (a ^ 5 * b * f ^ 3 * p * g ^ 2)))))) (add_nonneg (add_nonneg (add_nonneg (mul_nonneg (by norm_num) (sq_nonneg (a ^ 5 * b * f ^ 3 * g ^ 3))) (mul_nonneg (by norm_num) (sq_nonneg (a ^ 5 * b * f ^ 2 * p ^ 2 * g)))) (add_nonneg (mul_nonneg (by norm_num) (sq_nonneg (a ^ 5 * b * f ^ 2 * p * g ^ 2))) (mul_nonneg (by norm_num) (sq_nonneg (a ^ 5 * b * f ^ 2 * g ^ 3))))) (add_nonneg (add_nonneg (mul_nonneg (by norm_num) (sq_nonneg (a ^ 5 * b * f * p ^ 3))) (mul_nonneg (by norm_num) (sq_nonneg (a ^ 5 * b * f * p ^ 2 * g)))) (add_nonneg (mul_nonneg (by norm_num) (sq_nonneg (a ^ 5 * b * f * p * g ^ 2))) (mul_nonneg (by norm_num) (sq_nonneg (a ^ 5 * b * f * g ^ 3))))))))
  have hc2 : (0:ℝ) ≤ (((((184 * (a ^ 5 * b * p ^ 3) ^ 2 + 1712 * (a ^ 5 * b * p ^ 2 * g) ^ 2) + (2448 * (a ^ 5 * b * p * g ^ 2) ^ 2 + 256 * (a ^ 5 * b * g ^ 3) ^ 2)) + ((480 * (a ^ 4 * b ^ 6 * g ^ 3) ^ 2 + 2240 * (a ^ 4 * b ^ 5 * f * g ^ 3) ^ 2) + (3796 * (a ^ 4 * b ^ 5 * p * g ^ 2) ^ 2 + 2240 * (a ^ 4 * b ^ 5 * g ^ 3) ^ 2))) + (((3712 * (a ^ 4 * b ^ 4 * f ^ 2 * g ^ 3) ^ 2 + 14040 * (a ^ 4 * b ^ 4 * f * p * g ^ 2) ^ 2) + (7424 * (a ^ 4 * b ^ 4 * f * g ^ 3) ^ 2 + 2859 * (a ^ 4 * b ^ 4 * p ^ 2 * g) ^ 2)) + ((14040 * (a ^ 4 * b ^ 4 * p * g ^ 2) ^ 2 + 3712 * (a ^ 4 * b ^ 4 * g ^ 3) ^ 2) + (2688 * (a ^ 4 * b ^ 3 * f ^ 3 * g ^ 3) ^ 2 + 17912 * (a ^ 4 * b ^ 3 * f ^ 2 * p * g ^ 2) ^ 2)))) + ((((8064 * (a ^ 4 * b ^ 3 * f ^ 2 * g ^ 3) ^ 2 + 8230 * (a ^ 4 * b ^ 3 * f * p ^ 2 * g) ^ 2) + (35824 * (a ^ 4 * b ^ 3 * f * p * g ^ 2) ^ 2 + 8064 * (a ^ 4 * b ^ 3 * f * g ^ 3) ^ 2)) + ((436 * (a ^ 4 * b ^ 3 * p ^ 3) ^ 2 + 8230 * (a ^ 4 * b ^ 3 * p ^ 2 * g) ^ 2) + (17912 * (a ^ 4 * b ^ 3 * p * g ^ 2) ^ 2 + 2688 * (a ^ 4 * b ^ 3 * g ^ 3) ^ 2))) + (((800 * (a ^ 4 * b ^ 2 * f ^ 4 * g ^ 3) ^ 2 + 9224 * (a ^ 4 * b ^ 2 * f ^ 3 * p * g ^ 2) ^ 2) + (3200 * (a ^ 4 * b ^ 2 * f ^ 3 * g ^ 3) ^ 2 + 7376 * (a ^ 4 * b ^ 2 * f ^ 2 * p ^ 2 * g) ^ 2)) + ((27672 * (a ^ 4 * b ^ 2 * f ^ 2 * p * g ^ 2) ^ 2 + 4800 * (a ^ 4 * b ^ 2 * f ^ 2 * g ^ 3) ^ 2) + (888 * (a ^ 4 * b ^ 2 * f * p ^ 3) ^ 2 + 14752 * (a ^ 4 * b ^ 2 * f * p ^ 2 * g) ^ 2))))) :=
    (add_nonneg (add_nonneg (add_nonneg (add_nonneg (add_nonneg (mul_nonneg (by norm_num) (sq_nonneg (a ^ 5 * b * p ^ 3))) (mul_nonneg (by norm_num) (sq_nonneg (a ^ 5 * b * p ^ 2 * g)))) (add_nonneg (mul_nonneg (by norm_num) (sq_nonneg (a ^ 5 * b * p * g ^ 2))) (mul_nonneg (by norm_num) (sq_nonneg (a ^ 5 * b * g ^ 3))))) (add_nonneg (add_nonneg (mul_nonneg (by norm_num) (sq_nonneg (a ^ 4 * b ^ 6 * g ^ 3))) (mul_nonneg (by norm_num) (sq_nonneg (a ^ 4 * b ^ 5 * f * g ^ 3)))) (add_nonneg (mul_nonneg (by norm_num) (sq_nonneg (a ^ 4 * b ^ 5 * p * g ^ 2))) (mul_nonneg (by norm_num) (sq_nonneg (a ^ 4 * b ^ 5 * g ^ 3)))))) (add_nonneg (add_nonneg (add_nonneg (mul_nonneg (by norm_num) (sq_nonneg (a ^ 4 * b ^ 4 * f ^ 2 * g ^ 3))) (mul_nonneg (by norm_num) (sq_nonneg (a ^ 4 * b ^ 4 * f * p * g ^ 2)))) (add_nonneg (mul_nonneg (by norm_num) (sq_nonneg (a ^ 4 * b ^ 4 * f * g ^ 3))) (mul_nonneg (by norm_num) (sq_nonneg (a ^ 4 * b ^ 4 * p ^ 2 * g))))) (add_nonneg (add_nonneg (mul_nonneg (by norm_num) (sq_nonneg (a ^ 4 * b ^ 4 * p * g ^ 2))) (mul_nonneg (by norm_num) (sq_nonneg (a ^ 4 * b ^ 4 * g ^ 3)))) (add_nonneg (mul_nonneg (by norm_num) (sq_nonneg (a ^ 4 * b ^ 3 * f ^ 3 * g ^ 3))) (mul_nonneg (by norm_num) (sq_nonneg (a ^ 4 * b ^ 3 * f ^ 2 * p * g ^ 2))))))) (add_nonneg (add_nonneg (add_nonneg (add_nonneg (mul_nonneg (by norm_num) (sq_nonneg (a ^ 4 * b ^ 3 * f ^ 2 * g ^ 3))) (mul_nonneg (by norm_num) (sq_nonneg (a ^ 4 * b ^ 3 * f * p ^ 2 * g)))) (add_nonneg (mul_nonneg (by norm_num) (sq_nonneg (a ^ 4 * b ^ 3 * f * p * g ^ 2))) (mul_nonneg (by norm_num) (sq_nonneg (a ^ 4 * b ^ 3 * f * g ^ 3))))) (add_nonneg (add_nonneg (mul_nonneg (by norm_num) (sq_nonneg (a ^ 4 * b ^ 3 * p ^ 3))) (mul_nonneg (by norm_num) (sq_nonneg (a ^ 4 * b ^ 3 * p ^ 2 * g)))) (add_nonneg (mul_nonneg (by norm_num) (sq_nonneg (a ^ 4 * b ^ 3 * p * g ^ 2))) (mul_nonneg (by norm_num) (sq_nonneg (a ^ 4 * b ^ 3 * g ^ 3)))))) (add_nonneg (add_nonneg (add_nonneg (mul_nonneg (by norm_num) (sq_nonneg (a ^ 4 * b ^ 2 * f ^ 4 * g ^ 3))) (mul_nonneg (by norm_num) (sq_nonneg (a ^ 4 * b ^ 2 * f ^ 3 * p * g ^ 2)))) (add_nonneg (mul_nonneg (by norm_num) (sq_nonneg (a ^ 4 * b ^ 2 * f ^ 3 * g ^ 3))) (mul_nonneg (by norm_num) (sq_nonneg (a ^ 4 * b ^ 2 * f ^ 2 * p ^ 2 * g))))) (add_nonneg (add_nonneg (mul_nonneg (by norm_num) (sq_nonneg (a ^ 4 * b ^ 2 * f ^ 2 * p * g ^ 2))) (mul_nonneg (by norm_num) (sq_nonneg (a ^ 4 * b ^ 2 * f ^ 2 * g ^ 3)))) (add_nonneg (mul_nonneg (by norm_num) (sq_nonneg (a ^ 4 * b ^ 2 * f * p ^ 3))) (mul_nonneg (by norm_num) (sq_nonneg (a ^ 4 * b ^ 2 * f * p ^ 2 * g))))))))
  have hc3 : (0:ℝ) ≤ (((((27672 * (a ^ 4 * b ^ 2 * f * p * g ^ 2) ^ 2 + 3200 * (a ^ 4 * b ^ 2 * f * g ^ 3) ^ 2) + (888 * (a ^ 4 * b ^ 2 * p ^ 3) ^ 2 + 7376 * (a ^ 4 * b ^ 2 * p ^ 2 * g) ^ 2)) + ((9224 * (a ^ 4 * b ^ 2 * p * g ^ 2) ^ 2 + 800 * (a ^ 4 * b ^ 2 * g ^ 3) ^ 2) + (64 * (a ^ 4 * b * f ^ 5 * g ^ 3) ^ 2 + 1552 * (a ^ 4 * b * f ^ 4 * p * g ^ 2) ^ 2))) + (((320 * (a ^ 4 * b * f ^ 4 * g ^ 3) ^ 2 + 2064 * (a ^ 4 * b * f ^ 3 * p ^ 2 * g) ^ 2) + (6208 * (a ^ 4 * b * f ^ 3 * p * g ^ 2) ^ 2 + 640 * (a ^ 4 * b * f ^ 3 * g ^ 3) ^ 2)) + ((428 * (a ^ 4 * b * f ^ 2 * p ^ 3) ^ 2 + 6192 * (a ^ 4 * b * f ^ 2 * p ^ 2 * g) ^ 2) + (9312 * (a ^ 4 * b * f ^ 2 * p * g ^ 2) ^ 2 + 640 * (a ^ 4 * b * f ^ 2 * g ^ 3) ^ 2)))) + ((((856 * (a ^ 4 * b * f * p ^ 3) ^ 2 + 6192 * (a ^ 4 * b * f * p ^ 2 * g) ^ 2) + (6208 * (a ^ 4 * b * f * p * g ^ 2) ^ 2 + 320 * (a ^ 4 * b * f * g ^ 3) ^ 2)) + ((428 * (a ^ 4 * b * p ^ 3) ^ 2 + 2064 * (a ^ 4 * b * p ^ 2 * g) ^ 2) + (1552 * (a ^ 4 * b * p * g ^ 2) ^ 2 + 64 * (a ^ 4 * b * g ^ 3) ^ 2))) + (((192 * (a ^ 3 * b ^ 7 * g ^ 3) ^ 2 + 1024 * (a ^ 3 * b ^ 6 * f * g ^ 3) ^ 2) + (2260 * (a ^ 3 * b ^ 6 * p * g ^ 2) ^ 2 + 1024 * (a ^ 3 * b ^ 6 * g ^ 3) ^ 2)) + ((2048 * (a ^ 3 * b ^ 5 * f ^ 2 * g ^ 3) ^ 2 + 10192 * (a ^ 3 * b ^ 5 * f * p * g ^ 2) ^ 2) + (4096 * (a ^ 3 * b ^ 5 * f * g ^ 3) ^ 2 + 2477 * (a ^ 3 * b ^ 5 * p ^ 2 * g) ^ 2))))) :=
    (add_nonneg (add_nonneg (add_nonneg (add_nonneg (add_nonneg (mul_nonneg (by norm_num) (sq_nonneg (a ^ 4 * b ^ 2 * f * p * g ^ 2))) (mul_nonneg (by norm_num) (sq_nonneg (a ^ 4 * b ^ 2 * f * g ^ 3)))) (add_nonneg (mul_nonneg (by norm_num) (sq_nonneg (a ^ 4 * b ^ 2 * p ^ 3))) (mul_nonneg (by norm_num) (sq_nonneg (a ^ 4 * b ^ 2 * p ^ 2 * g))))) (add_nonneg (add_nonneg (mul_nonneg (by norm_num) (sq_nonneg (a ^ 4 * b ^ 2 * p * g ^ 2))) (mul_nonneg (by norm_num) (sq_nonneg (a ^ 4 * b ^ 2 * g ^ 3)))) (add_nonneg (mul_nonneg (by norm_num) (sq_nonneg (a ^ 4 * b * f ^ 5 * g ^ 3))) (mul_nonneg (by norm_num) (sq_nonneg (a ^ 4 * b * f ^ 4 * p * g ^ 2)))))) (add_nonneg (add_nonneg (add_nonneg (mul_nonneg (by norm_num) (sq_nonneg (a ^ 4 * b * f ^ 4 * g ^ 3))) (mul_nonneg (by norm_num) (sq_nonneg (a ^ 4 * b * f ^ 3 * p ^ 2 * g)))) (add_nonneg (mul_nonneg (by norm_num) (sq_nonneg (a ^ 4 * b * f ^ 3 * p * g ^ 2))) (mul_nonneg (by norm_num) (sq_nonneg (a ^ 4 * b * f ^ 3 * g ^ 3))))) (add_nonneg (add_nonneg (mul_nonneg (by norm_num) (sq_nonneg (a ^ 4 * b * f ^ 2 * p ^ 3))) (mul_nonneg (by norm_num) (sq_nonneg (a ^ 4 * b * f ^ 2 * p ^ 2 * g)))) (add_nonneg (mul_nonneg (by norm_num) (sq_nonneg (a ^ 4 * b * f ^ 2 * p * g ^ 2))) (mul_nonneg (by norm_num) (sq_nonneg (a ^ 4 * b * f ^ 2 * g ^ 3))))))) (add_nonneg (add_nonneg (add_nonneg (add_nonneg (mul_nonneg (by norm_num) (sq_nonneg (a ^ 4 * b * f * p ^ 3))) (mul_nonneg (by norm_num) (sq_nonneg (a ^ 4 * b * f * p ^ 2 * g)))) (add_nonneg (mul_nonneg (by norm_num) (sq_nonneg (a ^ 4 * b * f * p * g ^ 2))) (mul_nonneg (by norm_num) (sq_nonneg (a ^ 4 * b * f * g ^ 3))))) (add_nonneg (add_nonneg (mul_nonneg (by norm_num) (sq_nonneg (a ^ 4 * b * p ^ 3))) (mul_nonneg (by norm_num) (sq_nonneg (a ^ 4 * b * p ^ 2 * g)))) (add_nonneg (mul_nonneg (by norm_num) (sq_nonneg (a ^ 4 * b * p * g ^ 2))) (mul_nonneg (by norm_num) (sq_nonneg (a ^ 4 * b * g ^ 3)))))) (add_nonneg (add_nonneg (add_nonneg (mul_nonneg (by norm_num) (sq_nonneg (a ^ 3 * b ^ 7 * g ^ 3))) (mul_nonneg (by norm_num) (sq_nonneg (a ^ 3 * b ^ 6 * f * g ^ 3)))) (add_nonneg (mul_nonneg (by norm_num) (sq_nonneg (a ^ 3 * b ^ 6 * p * g ^ 2))) (mul_nonneg (by norm_num) (sq_nonneg (a ^ 3 * b ^ 6 * g ^ 3))))) (add_nonneg (add_nonneg (mul_nonneg (by norm_num) (sq_nonneg (a ^ 3 * b ^ 5 * f ^ 2 * g ^ 3))) (mul_nonneg (by norm_num) (sq_nonneg (a ^ 3 * b ^ 5 * f * p * g ^ 2)))) (add_nonneg (mul_nonneg (by norm_num) (sq_nonneg (a ^ 3 * b ^ 5 * f * g ^ 3))) (mul_nonneg (by norm_num) (sq_nonneg (a ^ 3 * b ^ 5 * p ^ 2 * g))))))))
  have hc4 : (0:ℝ) ≤ (((((10192 * (a ^ 3 * b ^ 5 * p * g ^ 2) ^ 2 + 2048 * (a ^ 3 * b ^ 5 * g ^ 3) ^ 2) + (1920 * (a ^ 3 * b ^ 4 * f ^ 3 * g ^ 3) ^ 2 + 16892 * (a ^ 3 * b ^ 4 * f ^ 2 * p * g ^ 2) ^ 2)) + ((5760 * (a ^ 3 * b ^ 4 * f ^ 2 * g ^ 3) ^ 2 + 9270 * (a ^ 3 * b ^ 4 * f * p ^ 2 * g) ^ 2) + (33784 * (a ^ 3 * b ^ 4 * f * p * g ^ 2) ^ 2 + 5760 * (a ^ 3 * b ^ 4 * f * g ^ 3) ^ 2))) + (((556 * (a ^ 3 * b ^ 4 * p ^ 3) ^ 2 + 9270 * (a ^ 3 * b ^ 4 * p ^ 2 * g) ^ 2) + (16892 * (a ^ 3 * b ^ 4 * p * g ^ 2) ^ 2 + 1920 * (a ^ 3 * b ^ 4 * g ^ 3) ^ 2)) + ((832 * (a ^ 3 * b ^ 3 * f ^ 4 * g ^ 3) ^ 2 + 12640 * (a ^ 3 * b ^ 3 * f ^ 3 * p * g ^ 2) ^ 2) + (3328 * (a ^ 3 * b ^ 3 * f ^ 3 * g ^ 3) ^ 2 + 12128 * (a ^ 3 * b ^ 3 * f ^ 2 * p ^ 2 * g) ^ 2)))) + ((((37920 * (a ^ 3 * b ^ 3 * f ^ 2 * p * g ^ 2) ^ 2 + 4992 * (a ^ 3 * b ^ 3 * f ^ 2 * g ^ 3) ^ 2) + (1664 * (a ^ 3 * b ^ 3 * f * p ^ 3) ^ 2 + 24256 * (a ^ 3 * b ^ 3 * f * p ^ 2 * g) ^ 2)) + ((37920 * (a ^ 3 * b ^ 3 * f * p * g ^ 2) ^ 2 + 3328 * (a ^ 3 * b ^ 3 * f * g ^ 3) ^ 2) + (1664 * (a ^ 3 * b ^ 3 * p ^ 3) ^ 2 + 12128 * (a ^ 3 * b ^ 3 * p ^ 2 * g) ^ 2))) + (((12640 * (a ^ 3 * b ^ 3 * p * g ^ 2) ^ 2 + 832 * (a ^ 3 * b ^ 3 * g ^ 3) ^ 2) + (128 * (a ^ 3 * b ^ 2 * f ^ 5 * g ^ 3) ^ 2 + 4064 * (a ^ 3 * b ^ 2 * f ^ 4 * p * g ^ 2) ^ 2)) + ((640 * (a ^ 3 * b ^ 2 * f ^ 4 * g ^ 3) ^ 2 + 6560 * (a ^ 3 * b ^ 2 * f ^ 3 * p ^ 2 * g) ^ 2) + (16256 * (a ^ 3 * b ^ 2 * f ^ 3 * p * g ^ 2) ^ 2 + 1280 * (a ^ 3 * b ^ 2 * f ^ 3 * g ^ 3) ^ 2))))) :=
    (add_nonneg (add_nonneg (add_nonneg (add_nonneg (add_nonneg (mul_nonneg (by norm_num) (sq_nonneg (a ^ 3 * b ^ 5 * p * g ^ 2))) (mul_nonneg (by norm_num) (sq_nonneg (a ^ 3 * b ^ 5 * g ^ 3)))) (add_nonneg (mul_nonneg (by norm_num) (sq_nonneg (a ^ 3 * b ^ 4 * f ^ 3 * g ^ 3))) (mul_nonneg (by norm_num) (sq_nonneg (a ^ 3 * b ^ 4 * f ^ 2 * p * g ^ 2))))) (add_nonneg (add_nonneg (mul_nonneg (by norm_num) (sq_nonneg (a ^ 3 * b ^ 4 * f ^ 2 * g ^ 3))) (mul_nonneg (by norm_num) (sq_nonneg (a ^ 3 * b ^ 4 * f * p ^ 2 * g)))) (add_nonneg (mul_nonneg (by norm_num) (sq_nonneg (a ^ 3 * b ^ 4 * f * p * g ^ 2))) (mul_nonneg (by norm_num) (sq_nonneg (a ^ 3 * b ^ 4 * f * g ^ 3)))))) (add_nonneg (add_nonneg (add_nonneg (mul_nonneg (by norm_num) (sq_nonneg (a ^ 3 * b ^ 4 * p ^ 3))) (mul_nonneg (by norm_num) (sq_nonneg (a ^ 3 * b ^ 4 * p ^ 2 * g)))) (add_nonneg (mul_nonneg (by norm_num) (sq_nonneg (a ^ 3 * b ^ 4 * p * g ^ 2))) (mul_nonneg (by norm_num) (sq_nonneg (a ^ 3 * b ^ 4 * g ^ 3))))) (add_nonneg (add_nonneg (mul_nonneg (by norm_num) (sq_nonneg (a ^ 3 * b ^ 3 * f ^ 4 * g ^ 3))) (mul_nonneg (by norm_num) (sq_nonneg (a ^ 3 * b ^ 3 * f ^ 3 * p * g ^ 2)))) (add_nonneg (mul_nonneg (by norm_num) (sq_nonneg (a ^ 3 * b ^ 3 * f ^ 3 * g ^ 3))) (mul_nonneg (by norm_num) (sq_nonneg (a ^ 3 * b ^ 3 * f ^ 2 * p ^ 2 * g))))))) (add_nonneg (add_nonneg (add_nonneg (add_nonneg (mul_nonneg (by norm_num) (sq_nonneg (a ^ 3 * b ^ 3 * f ^ 2 * p * g ^ 2))) (mul_nonneg (by norm_num) (sq_nonneg (a ^ 3 * b ^ 3 * f ^ 2 * g ^ 3)))) (add_nonneg (mul_nonneg (by norm_num) (sq_nonneg (a ^ 3 * b ^ 3 * f * p ^ 3))) (mul_nonneg (by norm_num) (sq_nonneg (a ^ 3 * b ^ 3 * f * p ^ 2 * g))))) (add_nonneg (add_nonneg (mul_nonneg (by norm_num) (sq_nonneg (a ^ 3 * b ^ 3 * f * p * g ^ 2))) (mul_nonneg (by norm_num) (sq_nonneg (a ^ 3 * b ^ 3 * f * g ^ 3)))) (add_nonneg (mul_nonneg (by norm_num) (sq_nonneg (a ^ 3 * b ^ 3 * p ^ 3))) (mul_nonneg (by norm_num) (sq_nonneg (a ^ 3 * b ^ 3 * p ^ 2 * g)))))) (add_nonneg (add_nonneg (add_nonneg (mul_nonneg (by norm_num) (sq_nonneg (a ^ 3 * b ^ 3 * p * g ^ 2))) (mul_nonneg (by norm_num) (sq_nonneg (a ^ 3 * b ^ 3 * g ^ 3)))) (add_nonneg (mul_nonneg (by norm_num) (sq_nonneg (a ^ 3 * b ^ 2 * f ^ 5 * g ^ 3))) (mul_nonneg (by norm_num) (sq_nonneg (a ^ 3 * b ^ 2 * f ^ 4 * p * g ^ 2))))) (add_nonneg (add_nonneg (mul_nonneg (by norm_num) (sq_nonneg (a ^ 3 * b ^ 2 * f ^ 4 * g ^ 3))) (mul_nonneg (by norm_num) (sq_nonneg (a ^ 3 * b ^ 2 * f ^ 3 * p ^ 2 * g)))) (add_nonneg (mul_nonneg (by norm_num) (sq_nonneg (a ^ 3 * b ^ 2 * f ^ 3 * p * g ^ 2))) (mul_nonneg (by norm_num) (sq_nonneg (a ^ 3 * b ^ 2 * f ^ 3 * g ^ 3))))))))
  have hc5 : (0:ℝ) ≤ (((((1576 * (a ^ 3 * b ^ 2 * f ^ 2 * p ^ 3) ^ 2 + 19680 * (a ^ 3 * b ^ 2 * f ^ 2 * p ^ 2 * g) ^ 2) + (24384 * (a ^ 3 * b ^ 2 * f ^ 2 * p * g ^ 2) ^ 2 + 1280 * (a ^ 3 * b ^ 2 * f ^ 2 * g ^ 3) ^ 2)) + ((3152 * (a ^ 3 * b ^ 2 * f * p ^ 3) ^ 2 + 19680 * (a ^ 3 * b ^ 2 * f * p ^ 2 * g) ^ 2) + (16256 * (a ^ 3 * b ^ 2 * f * p * g ^ 2) ^ 2 + 640 * (a ^ 3 * b ^ 2 * f * g ^ 3) ^ 2))) + (((1576 * (a ^ 3 * b ^ 2 * p ^ 3) ^ 2 + 6560 * (a ^ 3 * b ^ 2 * p ^ 2 * g) ^ 2) + (4064 * (a ^ 3 * b ^ 2 * p * g ^ 2) ^ 2 + 128 * (a ^ 3 * b ^ 2 * g ^ 3) ^ 2)) + ((384 * (a ^ 3 * b * f ^ 5 * p * g ^ 2) ^ 2 + 1216 * (a ^ 3 * b * f ^ 4 * p ^ 2 * g) ^ 2) + (1920 * (a ^ 3 * b * f ^ 4 * p * g ^ 2) ^ 2 + 480 * (a ^ 3 * b * f ^ 3 * p ^ 3) ^ 2)))) + ((((4864 * (a ^ 3 * b * f ^ 3 * p ^ 2 * g) ^ 2 + 3840 * (a ^ 3 * b * f ^ 3 * p * g ^ 2) ^ 2) + (1440 * (a ^ 3 * b * f ^ 2 * p ^ 3) ^ 2 + 7296 * (a ^ 3 * b * f ^ 2 * p ^ 2 * g) ^ 2)) + ((3840 * (a ^ 3 * b * f ^ 2 * p * g ^ 2) ^ 2 + 1440 * (a ^ 3 * b * f * p ^ 3) ^ 2) + (4864 * (a ^ 3 * b * f * p ^ 2 * g) ^ 2 + 1920 * (a ^ 3 * b * f * p * g ^ 2) ^ 2))) + (((480 * (a ^ 3 * b * p ^ 3) ^ 2 + 1216 * (a ^ 3 * b * p ^ 2 * g) ^ 2) + (384 * (a ^ 3 * b * p * g ^ 2) ^ 2 + 32 * (a ^ 2 * b ^ 8 * g ^ 3) ^ 2)) + ((192 * (a ^ 2 * b ^ 7 * f * g ^ 3) ^ 2 + 724 * (a ^ 2 * b ^ 7 * p * g ^ 2) ^ 2) + (192 * (a ^ 2 * b ^ 7 * g ^ 3) ^ 2 + 448 * (a ^ 2 * b ^ 6 * f ^ 2 * g ^ 3) ^ 2))))) :=
    (add_nonneg (add_nonneg (add_nonneg (add_nonneg (add_nonneg (mul_nonneg (by norm_num) (sq_nonneg (a ^ 3 * b ^ 2 * f ^ 2 * p ^ 3))) (mul_nonneg (by norm_num) (sq_nonneg (a ^ 3 * b ^ 2 * f ^ 2 * p ^ 2 * g)))) (add_nonneg (mul_nonneg (by norm_num) (sq_nonneg (a ^ 3 * b ^ 2 * f ^ 2 * p * g ^ 2))) (mul_nonneg (by norm_num) (sq_nonneg (a ^ 3 * b ^ 2 * f ^ 2 * g ^ 3))))) (add_nonneg (add_nonneg (mul_nonneg (by norm_num) (sq_nonneg (a ^ 3 * b ^ 2 * f * p ^ 3))) (mul_nonneg (by norm_num) (sq_nonneg (a ^ 3 * b ^ 2 * f * p ^ 2 * g)))) (add_nonneg (mul_nonneg (by norm_num) (sq_nonneg (a ^ 3 * b ^ 2 * f * p * g ^ 2))) (mul_nonneg (by norm_num) (sq_nonneg (a ^ 3 * b ^ 2 * f * g ^ 3)))))) (add_nonneg (add_nonneg (add_nonneg (mul_nonneg (by norm_num) (sq_nonneg (a ^ 3 * b ^ 2 * p ^ 3))) (mul_nonneg (by norm_num) (sq_nonneg (a ^ 3 * b ^ 2 * p ^ 2 * g)))) (add_nonneg (mul_nonneg (by norm_num) (sq_nonneg (a ^ 3 * b ^ 2 * p * g ^ 2))) (mul_nonneg (by norm_num) (sq_nonneg (a ^ 3 * b ^ 2 * g ^ 3))))) (add_nonneg (add_nonneg (mul_nonneg (by norm_num) (sq_nonneg (a ^ 3 * b * f ^ 5 * p * g ^ 2))) (mul_nonneg (by norm_num) (sq_nonneg (a ^ 3 * b * f ^ 4 * p ^ 2 * g)))) (add_nonneg (mul_nonneg (by norm_num) (sq_nonneg (a ^ 3 * b * f ^ 4 * p * g ^ 2))) (mul_nonneg (by norm_num) (sq_nonneg (a ^ 3 * b * f ^ 3 * p ^ 3))))))) (add_nonneg (add_nonneg (add_nonneg (add_nonneg (mul_nonneg (by norm_num) (sq_nonneg (a ^ 3 * b * f ^ 3 * p ^ 2 * g))) (mul_nonneg (by norm_num) (sq_nonneg (a ^ 3 * b * f ^ 3 * p * g ^ 2)))) (add_nonneg (mul_nonneg (by norm_num) (sq_nonneg (a ^ 3 * b * f ^ 2 * p ^ 3))) (mul_nonneg (by norm_num) (sq_nonneg (a ^ 3 * b * f ^ 2 * p ^ 2 * g))))) (add_nonneg (add_nonneg (mul_nonneg (by norm_num) (sq_nonneg (a ^ 3 * b * f ^ 2 * p * g ^ 2))) (mul_nonneg (by norm_num) (sq_nonneg (a ^ 3 * b * f * p ^ 3)))) (add_nonneg (mul_nonneg (by norm_num) (sq_nonneg (a ^ 3 * b * f * p ^ 2 * g))) (mul_nonneg (by norm_num) (sq_nonneg (a ^ 3 * b * f * p * g ^ 2)))))) (add_nonneg (add_nonneg (add_nonneg (mul_nonneg (by norm_num) (sq_nonneg (a ^ 3 * b * p ^ 3))) (mul_nonneg (by norm_num) (sq_nonneg (a ^ 3 * b * p ^ 2 * g)))) (add_nonneg (mul_nonneg (by norm_num) (sq_nonneg (a ^ 3 * b * p * g ^ 2))) (mul_nonneg (by norm_num) (sq_nonneg (a ^ 2 * b ^ 8 * g ^ 3))))) (add_nonneg (add_nonneg (mul_nonneg (by norm_num) (sq_nonneg (a ^ 2 * b ^ 7 * f * g ^ 3))) (mul_nonneg (by norm_num) (sq_nonneg (a ^ 2 * b ^ 7 * p * g ^ 2)))) (add_nonneg (mul_nonneg (by norm_num) (sq_nonneg (a ^ 2 * b ^ 7 * g ^ 3))) (mul_nonneg (by norm_num) (sq_nonneg (a ^ 2 * b ^ 6 * f ^ 2 * g ^ 3))))))))
  have hc6 : (0:ℝ) ≤ (((((3824 * (a ^ 2 * b ^ 6 * f * p * g ^ 2) ^ 2 + 896 * (a ^ 2 * b ^ 6 * f * g ^ 3) ^ 2) + (1224 * (a ^ 2 * b ^ 6 * p ^ 2 * g) ^ 2 + 3824 * (a ^ 2 * b ^ 6 * p * g ^ 2) ^ 2)) + ((448 * (a ^ 2 * b ^ 6 * g ^ 3) ^ 2 + 512 * (a ^ 2 * b ^ 5 * f ^ 3 * g ^ 3) ^ 2) + (7700 * (a ^ 2 * b ^ 5 * f ^ 2 * p * g ^ 2) ^ 2 + 1536 * (a ^ 2 * b ^ 5 * f ^ 2 * g ^ 3) ^ 2))) + (((5580 * (a ^ 2 * b ^ 5 * f * p ^ 2 * g) ^ 2 + 15400 * (a ^ 2 * b ^ 5 * f * p * g ^ 2) ^ 2) + (1536 * (a ^ 2 * b ^ 5 * f * g ^ 3) ^ 2 + 388 * (a ^ 2 * b ^ 5 * p ^ 3) ^ 2)) + ((5580 * (a ^ 2 * b ^ 5 * p ^ 2 * g) ^ 2 + 7700 * (a ^ 2 * b ^ 5 * p * g ^ 2) ^ 2) + (512 * (a ^ 2 * b ^ 5 * g ^ 3) ^ 2 + 288 * (a ^ 2 * b ^ 4 * f ^ 4 * g ^ 3) ^ 2)))) + ((((7400 * (a ^ 2 * b ^ 4 * f ^ 3 * p * g ^ 2) ^ 2 + 1152 * (a ^ 2 * b ^ 4 * f ^ 3 * g ^ 3) ^ 2) + (9436 * (a ^ 2 * b ^ 4 * f ^ 2 * p ^ 2 * g) ^ 2 + 22200 * (a ^ 2 * b ^ 4 * f ^ 2 * p * g ^ 2) ^ 2)) + ((1728 * (a ^ 2 * b ^ 4 * f ^ 2 * g ^ 3) ^ 2 + 1520 * (a ^ 2 * b ^ 4 * f * p ^ 3) ^ 2) + (18872 * (a ^ 2 * b ^ 4 * f * p ^ 2 * g) ^ 2 + 22200 * (a ^ 2 * b ^ 4 * f * p * g ^ 2) ^ 2))) + (((1152 * (a ^ 2 * b ^ 4 * f * g ^ 3) ^ 2 + 1520 * (a ^ 2 * b ^ 4 * p ^ 3) ^ 2) + (9436 * (a ^ 2 * b ^ 4 * p ^ 2 * g) ^ 2 + 7400 * (a ^ 2 * b ^ 4 * p * g ^ 2) ^ 2)) + ((288 * (a ^ 2 * b ^ 4 * g ^ 3) ^ 2 + 64 * (a ^ 2 * b ^ 3 * f ^ 5 * g ^ 3) ^ 2) + (3376 * (a ^ 2 * b ^ 3 * f ^ 4 * p * g ^ 2) ^ 2 + 320 * (a ^ 2 * b ^ 3 * f ^ 4 * g ^ 3) ^ 2))))) :=
    (add_nonneg (add_nonneg (add_nonneg (add_nonneg (add_nonneg (mul_nonneg (by norm_num) (sq_nonneg (a ^ 2 * b ^ 6 * f * p * g ^ 2))) (mul_nonneg (by norm_num) (sq_nonneg (a ^ 2 * b ^ 6 * f * g ^ 3)))) (add_nonneg (mul_nonneg (by norm_num) (sq_nonneg (a ^ 2 * b ^ 6 * p ^ 2 * g))) (mul_nonneg (by norm_num) (sq_nonneg (a ^ 2 * b ^ 6 * p * g ^ 2))))) (add_nonneg (add_nonneg (mul_nonneg (by norm_num) (sq_nonneg (a ^ 2 * b ^ 6 * g ^ 3))) (mul_nonneg (by norm_num) (sq_nonneg (a ^ 2 * b ^ 5 * f ^ 3 * g ^ 3)))) (add_nonneg (mul_nonneg (by norm_num) (sq_nonneg (a ^ 2 * b ^ 5 * f ^ 2 * p * g ^ 2))) (mul_nonneg (by norm_num) (sq_nonneg (a ^ 2 * b ^ 5 * f ^ 2 * g ^ 3)))))) (add_nonneg (add_nonneg (add_nonneg (mul_nonneg (by norm_num) (sq_nonneg (a ^ 2 * b ^ 5 * f * p ^ 2 * g))) (mul_nonneg (by norm_num) (sq_nonneg (a ^ 2 * b ^ 5 * f * p * g ^ 2)))) (add_nonneg (mul_nonneg (by norm_num) (sq_nonneg (a ^ 2 * b ^ 5 * f * g ^ 3))) (mul_nonneg (by norm_num) (sq_nonneg (a ^ 2 * b ^ 5 * p ^ 3))))) (add_nonneg (add_nonneg (mul_nonneg (by norm_num) (sq_nonneg (a ^ 2 * b ^ 5 * p ^ 2 * g))) (mul_nonneg (by norm_num) (sq_nonneg (a ^ 2 * b ^ 5 * p * g ^ 2)))) (add_nonneg (mul_nonneg (by norm_num) (sq_nonneg (a ^ 2 * b ^ 5 * g ^ 3))) (mul_nonneg (by norm_num) (sq_nonneg (a ^ 2 * b ^ 4 * f ^ 4 * g ^ 3))))))) (add_nonneg (add_nonneg (add_nonneg (add_nonneg (mul_nonneg (by norm_num) (sq_nonneg (a ^ 2 * b ^ 4 * f ^ 3 * p * g ^ 2))) (mul_nonneg (by norm_num) (sq_nonneg (a ^ 2 * b ^ 4 * f ^ 3 * g ^ 3)))) (add_nonneg (mul_nonneg (by norm_num) (sq_nonneg (a ^ 2 * b ^ 4 * f ^ 2 * p ^ 2 * g))) (mul_nonneg (by norm_num) (sq_nonneg (a ^ 2 * b ^ 4 * f ^ 2 * p * g ^ 2))))) (add_nonneg (add_nonneg (mul_nonneg (by norm_num) (sq_nonneg (a ^ 2 * b ^ 4 * f ^ 2 * g ^ 3))) (mul_nonneg (by norm_num) (sq_nonneg (a ^ 2 * b ^ 4 * f * p ^ 3)))) (add_nonneg (mul_nonneg (by norm_num) (sq_nonneg (a ^ 2 * b ^ 4 * f * p ^ 2 * g))) (mul_nonneg (by norm_num) (sq_nonneg (a ^ 2 * b ^ 4 * f * p * g ^ 2)))))) (add_nonneg (add_nonneg (add_nonneg (mul_nonneg (by norm_num) (sq_nonneg (a ^ 2 * b ^ 4 * f * g ^ 3))) (mul_nonneg (by norm_num) (sq_nonneg (a ^ 2 * b ^ 4 * p ^ 3)))) (add_nonneg (mul_nonneg (by norm_num) (sq_nonneg (a ^ 2 * b ^ 4 * p ^ 2 * g))) (mul_nonneg (by norm_num) (sq_nonneg (a ^ 2 * b ^ 4 * p * g ^ 2))))) (add_nonneg (add_nonneg (mul_nonneg (by norm_num) (sq_nonneg (a ^ 2 * b ^ 4 * g ^ 3))) (mul_nonneg (by norm_num) (sq_nonneg (a ^ 2 * b ^ 3 * f ^ 5 * g ^ 3)))) (add_nonneg (mul_nonneg (by norm_num) (sq_nonneg (a ^ 2 * b ^ 3 * f ^ 4 * p * g ^ 2))) (mul_nonneg (by norm_num) (sq_nonneg (a ^ 2 * b ^ 3 * f ^ 4 * g ^ 3))))))))
  have hc7 : (0:ℝ) ≤ (((((7336 * (a ^ 2 * b ^ 3 * f ^ 3 * p ^ 2 * g) ^ 2 + 13504 * (a ^ 2 * b ^ 3 * f ^ 3 * p * g ^ 2) ^ 2) + (640 * (a ^ 2 * b ^ 3 * f ^ 3 * g ^ 3) ^ 2 + 2120 * (a ^ 2 * b ^ 3 * f ^ 2 * p ^ 3) ^ 2)) + ((22008 * (a ^ 2 * b ^ 3 * f ^ 2 * p ^ 2 * g) ^ 2 + 20256 * (a ^ 2 * b ^ 3 * f ^ 2 * p * g ^ 2) ^ 2) + (640 * (a ^ 2 * b ^ 3 * f ^ 2 * g ^ 3) ^ 2 + 4240 * (a ^ 2 * b ^ 3 * f * p ^ 3) ^ 2))) + (((22008 * (a ^ 2 * b ^ 3 * f * p ^ 2 * g) ^ 2 + 13504 * (a ^ 2 * b ^ 3 * f * p * g ^ 2) ^ 2) + (320 * (a ^ 2 * b ^ 3 * f * g ^ 3) ^ 2 + 2120 * (a ^ 2 * b ^ 3 * p ^ 3) ^ 2)) + ((7336 * (a ^ 2 * b ^ 3 * p ^ 2 * g) ^ 2 + 3376 * (a ^ 2 * b ^ 3 * p * g ^ 2) ^ 2) + (64 * (a ^ 2 * b ^ 3 * g ^ 3) ^ 2 + 576 * (a ^ 2 * b ^ 2 * f ^ 5 * p * g ^ 2) ^ 2)))) + ((((2544 * (a ^ 2 * b ^ 2 * f ^ 4 * p ^ 2 * g) ^ 2 + 2880 * (a ^ 2 * b ^ 2 * f ^ 4 * p * g ^ 2) ^ 2) + (1264 * (a ^ 2 * b ^ 2 * f ^ 3 * p ^ 3) ^ 2 + 10176 * (a ^ 2 * b ^ 2 * f ^ 3 * p ^ 2 * g) ^ 2)) + ((5760 * (a ^ 2 * b ^ 2 * f ^ 3 * p * g ^ 2) ^ 2 + 3792 * (a ^ 2 * b ^ 2 * f ^ 2 * p ^ 3) ^ 2) + (15264 * (a ^ 2 * b ^ 2 * f ^ 2 * p ^ 2 * g) ^ 2 + 5760 * (a ^ 2 * b ^ 2 * f ^ 2 * p * g ^ 2) ^ 2))) + (((3792 * (a ^ 2 * b ^ 2 * f * p ^ 3) ^ 2 + 10176 * (a ^ 2 * b ^ 2 * f * p ^ 2 * g) ^ 2) + (2880 * (a ^ 2 * b ^ 2 * f * p * g ^ 2) ^ 2 + 1264 * (a ^ 2 * b ^ 2 * p ^ 3) ^ 2)) + ((2544 * (a ^ 2 * b ^ 2 * p ^ 2 * g) ^ 2 + 576 * (a ^ 2 * b ^ 2 * p * g ^ 2) ^ 2) + (288 * (a ^ 2 * b * f ^ 5 * p ^ 2 * g) ^ 2 + 272 * (a ^ 2 * b * f ^ 4 * p ^ 3) ^ 2))))) :=
    (add_nonneg (add_nonneg (add_nonneg (add_nonneg (add_nonneg (mul_nonneg (by norm_num) (sq_nonneg (a ^ 2 * b ^ 3 * f ^ 3 * p ^ 2 * g))) (mul_nonneg (by norm_num) (sq_nonneg (a ^ 2 * b ^ 3 * f ^ 3 * p * g ^ 2)))) (add_nonneg (mul_nonneg (by norm_num) (sq_nonneg (a ^ 2 * b ^ 3 * f ^ 3 * g ^ 3))) (mul_nonneg (by norm_num) (sq_nonneg (a ^ 2 * b ^ 3 * f ^ 2 * p ^ 3))))) (add_nonneg (add_nonneg (mul_nonneg (by norm_num) (sq_nonneg (a ^ 2 * b ^ 3 * f ^ 2 * p ^ 2 * g))) (mul_nonneg (by norm_num) (sq_nonneg (a ^ 2 * b ^ 3 * f ^ 2 * p * g ^ 2)))) (add_nonneg (mul_nonneg (by norm_num) (sq_nonneg (a ^ 2 * b ^ 3 * f ^ 2 * g ^ 3))) (mul_nonneg (by norm_num) (sq_nonneg (a ^ 2 * b ^ 3 * f * p ^ 3)))))) (add_nonneg (add_nonneg (add_nonneg (mul_nonneg (by norm_num) (sq_nonneg (a ^ 2 * b ^ 3 * f * p ^ 2 * g))) (mul_nonneg (by norm_num) (sq_nonneg (a ^ 2 * b ^ 3 * f * p * g ^ 2)))) (add_nonneg (mul_nonneg (by norm_num) (sq_nonneg (a ^ 2 * b ^ 3 * f * g ^ 3))) (mul_nonneg (by norm_num) (sq_nonneg (a ^ 2 * b ^ 3 * p ^ 3))))) (add_nonneg (add_nonneg (mul_nonneg (by norm_num) (sq_nonneg (a ^ 2 * b ^ 3 * p ^ 2 * g))) (mul_nonneg (by norm_num) (sq_nonneg (a ^ 2 * b ^ 3 * p * g ^ 2)))) (add_nonneg (mul_nonneg (by norm_num) (sq_nonneg (a ^ 2 * b ^ 3 * g ^ 3))) (mul_nonneg (by norm_num) (sq_nonneg (a ^ 2 * b ^ 2 * f ^ 5 * p * g ^ 2))))))) (add_nonneg (add_nonneg (add_nonneg (add_nonneg (mul_nonneg (by norm_num) (sq_nonneg (a ^ 2 * b ^ 2 * f ^ 4 * p ^ 2 * g))) (mul_nonneg (by norm_num) (sq_nonneg (a ^ 2 * b ^ 2 * f ^ 4 * p * g ^ 2)))) (add_nonneg (mul_nonneg (by norm_num) (sq_nonneg (a ^ 2 * b ^ 2 * f ^ 3 * p ^ 3))) (mul_nonneg (by norm_num) (sq_nonneg (a ^ 2 * b ^ 2 * f ^ 3 * p ^ 2 * g))))) (add_nonneg (add_nonneg (mul_nonneg (by norm_num) (sq_nonneg (a ^ 2 * b ^ 2 * f ^ 3 * p * g ^ 2))) (mul_nonneg (by norm_num) (sq_nonneg (a ^ 2 * b ^ 2 * f ^ 2 * p ^ 3)))) (add_nonneg (mul_nonneg (by norm_num) (sq_nonneg (a ^ 2 * b ^ 2 * f ^ 2 * p ^ 2 * g))) (mul_nonneg (by norm_num) (sq_nonneg (a ^ 2 * b ^ 2 * f ^ 2 * p * g ^ 2)))))) (add_nonneg (add_nonneg (add_nonneg (mul_nonneg (by norm_num) (sq_nonneg (a ^ 2 * b ^ 2 * f * p ^ 3))) (mul_nonneg (by norm_num) (sq_nonneg (a ^ 2 * b ^ 2 * f * p ^ 2 * g)))) (add_nonneg (mul_nonneg (by norm_num) (sq_nonneg (a ^ 2 * b ^ 2 * f * p * g ^ 2))) (mul_nonneg (by norm_num) (sq_nonneg (a ^ 2 * b ^ 2 * p ^ 3))))) (add_nonneg (add_nonneg (mul_nonneg (by norm_num) (sq_nonneg (a ^ 2 * b ^ 2 * p ^ 2 * g))) (mul_nonneg (by norm_num) (sq_nonneg (a ^ 2 * b ^ 2 * p * g ^ 2)))) (add_nonneg (mul_nonneg (by norm_num) (sq_nonneg (a ^ 2 * b * f ^ 5 * p ^ 2 * g))) (mul_nonneg (by norm_num) (sq_nonneg (a ^ 2 * b * f ^ 4 * p ^ 3))))))))
  have hc8 : (0:ℝ) ≤ (((((1440 * (a ^ 2 * b * f ^ 4 * p ^ 2 * g) ^ 2 + 1088 * (a ^ 2 * b * f ^ 3 * p ^ 3) ^ 2) + (2880 * (a ^ 2 * b * f ^ 3 * p ^ 2 * g) ^ 2 + 1632 * (a ^ 2 * b * f ^ 2 * p ^ 3) ^ 2)) + ((2880 * (a ^ 2 * b * f ^ 2 * p ^ 2 * g) ^ 2 + 1088 * (a ^ 2 * b * f * p ^ 3) ^ 2) + (1440 * (a ^ 2 * b * f * p ^ 2 * g) ^ 2 + 272 * (a ^ 2 * b * p ^ 3) ^ 2))) + (((288 * (a ^ 2 * b * p ^ 2 * g) ^ 2 + 96 * (a * b ^ 8 * p * g ^ 2) ^ 2) + (576 * (a * b ^ 7 * f * p * g ^ 2) ^ 2 + 316 * (a * b ^ 7 * p ^ 2 * g) ^ 2)) + ((576 * (a * b ^ 7 * p * g ^ 2) ^ 2 + 1344 * (a * b ^ 6 * f ^ 2 * p * g ^ 2) ^ 2) + (1680 * (a * b ^ 6 * f * p ^ 2 * g) ^ 2 + 2688 * (a * b ^ 6 * f * p * g ^ 2) ^ 2)))) + ((((140 * (a * b ^ 6 * p ^ 3) ^ 2 + 1680 * (a * b ^ 6 * p ^ 2 * g) ^ 2) + (1344 * (a * b ^ 6 * p * g ^ 2) ^ 2 + 1536 * (a * b ^ 5 * f ^ 3 * p * g ^ 2) ^ 2)) + ((3420 * (a * b ^ 5 * f ^ 2 * p ^ 2 * g) ^ 2 + 4608 * (a * b ^ 5 * f ^ 2 * p * g ^ 2) ^ 2) + (672 * (a * b ^ 5 * f * p ^ 3) ^ 2 + 6840 * (a * b ^ 5 * f * p ^ 2 * g) ^ 2))) + (((4608 * (a * b ^ 5 * f * p * g ^ 2) ^ 2 + 672 * (a * b ^ 5 * p ^ 3) ^ 2) + (3420 * (a * b ^ 5 * p ^ 2 * g) ^ 2 + 1536 * (a * b ^ 5 * p * g ^ 2) ^ 2)) + ((864 * (a * b ^ 4 * f ^ 4 * p * g ^ 2) ^ 2 + 3352 * (a * b ^ 4 * f ^ 3 * p ^ 2 * g) ^ 2) + (3456 * (a * b ^ 4 * f ^ 3 * p * g ^ 2) ^ 2 + 1220 * (a * b ^ 4 * f ^ 2 * p ^ 3) ^ 2))))) :=
    (add_nonneg (add_nonneg (add_nonneg (add_nonneg (add_nonneg (mul_nonneg (by norm_num) (sq_nonneg (a ^ 2 * b * f ^ 4 * p ^ 2 * g))) (mul_nonneg (by norm_num) (sq_nonneg (a ^ 2 * b * f ^ 3 * p ^ 3)))) (add_nonneg (mul_nonneg (by norm_num) (sq_nonneg (a ^ 2 * b * f ^ 3 * p ^ 2 * g))) (mul_nonneg (by norm_num) (sq_nonneg (a ^ 2 * b * f ^ 2 * p ^ 3))))) (add_nonneg (add_nonneg (mul_nonneg (by norm_num) (sq_nonneg (a ^ 2 * b * f ^ 2 * p ^ 2 * g))) (mul_nonneg (by norm_num) (sq_nonneg (a ^ 2 * b * f * p ^ 3)))) (add_nonneg (mul_nonneg (by norm_num) (sq_nonneg (a ^ 2 * b * f * p ^ 2 * g))) (mul_nonneg (by norm_num) (sq_nonneg (a ^ 2 * b * p ^ 3)))))) (add_nonneg (add_nonneg (add_nonneg (mul_nonneg (by norm_num) (sq_nonneg (a ^ 2 * b * p ^ 2 * g))) (mul_nonneg (by norm_num) (sq_nonneg (a * b ^ 8 * p * g ^ 2)))) (add_nonneg (mul_nonneg (by norm_num) (sq_nonneg (a * b ^ 7 * f * p * g ^ 2))) (mul_nonneg (by norm_num) (sq_nonneg (a * b ^ 7 * p ^ 2 * g))))) (add_nonneg (add_nonneg (mul_nonneg (by norm_num) (sq_nonneg (a * b ^ 7 * p * g ^ 2))) (mul_nonneg (by norm_num) (sq_nonneg (a * b ^ 6 * f ^ 2 * p * g ^ 2)))) (add_nonneg (mul_nonneg (by norm_num) (sq_nonneg (a * b ^ 6 * f * p ^ 2 * g))) (mul_nonneg (by norm_num) (sq_nonneg (a * b ^ 6 * f * p * g ^ 2))))))) (add_nonneg (add_nonneg (add_nonneg (add_nonneg (mul_nonneg (by norm_num) (sq_nonneg (a * b ^ 6 * p ^ 3))) (mul_nonneg (by norm_num) (sq_nonneg (a * b ^ 6 * p ^ 2 * g)))) (add_nonneg (mul_nonneg (by norm_num) (sq_nonneg (a * b ^ 6 * p * g ^ 2))) (mul_nonneg (by norm_num) (sq_nonneg (a * b ^ 5 * f ^ 3 * p * g ^ 2))))) (add_nonneg (add_nonneg (mul_nonneg (by norm_num) (sq_nonneg (a * b ^ 5 * f ^ 2 * p ^ 2 * g))) (mul_nonneg (by norm_num) (sq_nonneg (a * b ^ 5 * f ^ 2 * p * g ^ 2)))) (add_nonneg (mul_nonneg (by norm_num) (sq_nonneg (a * b ^ 5 * f * p ^ 3))) (mul_nonneg (by norm_num) (sq_nonneg (a * b ^ 5 * f * p ^ 2 * g)))))) (add_nonneg (add_nonneg (add_nonneg (mul_nonneg (by norm_num) (sq_nonneg (a * b ^ 5 * f * p * g ^ 2))) (mul_nonneg (by norm_num) (sq_nonneg (a * b ^ 5 * p ^ 3)))) (add_nonneg (mul_nonneg (by norm_num) (sq_nonneg (a * b ^ 5 * p ^ 2 * g))) (mul_nonneg (by norm_num) (sq_nonneg (a * b ^ 5 * p * g ^ 2))))) (add_nonneg (add_nonneg (mul_nonneg (by norm_num) (sq_nonneg (a * b ^ 4 * f ^ 4 * p * g ^ 2))) (mul_nonneg (by norm_num) (sq_nonneg (a * b ^ 4 * f ^ 3 * p ^ 2 * g)))) (add_nonneg (mul_nonneg (by norm_num) (sq_nonneg (a * b ^ 4 * f ^ 3 * p * g ^ 2))) (mul_nonneg (by norm_num) (sq_nonneg (a * b ^ 4 * f ^ 2 * p ^ 3))))))))
  have hc9 : (0:ℝ) ≤ (((((10056 * (a * b ^ 4 * f ^ 2 * p ^ 2 * g) ^ 2 + 5184 * (a * b ^ 4 * f ^ 2 * p * g ^ 2) ^ 2) + (2440 * (a * b ^ 4 * f * p ^ 3) ^ 2 + 10056 * (a * b ^ 4 * f * p ^ 2 * g) ^ 2)) + ((3456 * (a * b ^ 4 * f * p * g ^ 2) ^ 2 + 1220 * (a * b ^ 4 * p ^ 3) ^ 2) + (3352 * (a * b ^ 4 * p ^ 2 * g) ^ 2 + 864 * (a * b ^ 4 * p * g ^ 2) ^ 2))) + (((192 * (a * b ^ 3 * f ^ 5 * p * g ^ 2) ^ 2 + 1584 * (a * b ^ 3 * f ^ 4 * p ^ 2 * g) ^ 2) + (960 * (a * b ^ 3 * f ^ 4 * p * g ^ 2) ^ 2 + 1056 * (a * b ^ 3 * f ^ 3 * p ^ 3) ^ 2)) + ((6336 * (a * b ^ 3 * f ^ 3 * p ^ 2 * g) ^ 2 + 1920 * (a * b ^ 3 * f ^ 3 * p * g ^ 2) ^ 2) + (3168 * (a * b ^ 3 * f ^ 2 * p ^ 3) ^ 2 + 9504 * (a * b ^ 3 * f ^ 2 * p ^ 2 * g) ^ 2)))) + ((((1920 * (a * b ^ 3 * f ^ 2 * p * g ^ 2) ^ 2 + 3168 * (a * b ^ 3 * f * p ^ 3) ^ 2) + (6336 * (a * b ^ 3 * f * p ^ 2 * g) ^ 2 + 960 * (a * b ^ 3 * f * p * g ^ 2) ^ 2)) + ((1056 * (a * b ^ 3 * p ^ 3) ^ 2 + 1584 * (a * b ^ 3 * p ^ 2 * g) ^ 2) + (192 * (a * b ^ 3 * p * g ^ 2) ^ 2 + 288 * (a * b ^ 2 * f ^ 5 * p ^ 2 * g) ^ 2))) + (((432 * (a * b ^ 2 * f ^ 4 * p ^ 3) ^ 2 + 1440 * (a * b ^ 2 * f ^ 4 * p ^ 2 * g) ^ 2) + (1728 * (a * b ^ 2 * f ^ 3 * p ^ 3) ^ 2 + 2880 * (a * b ^ 2 * f ^ 3 * p ^ 2 * g) ^ 2)) + ((2592 * (a * b ^ 2 * f ^ 2 * p ^ 3) ^ 2 + 2880 * (a * b ^ 2 * f ^ 2 * p ^ 2 * g) ^ 2) + (1728 * (a * b ^ 2 * f * p ^ 3) ^ 2 + 1440 * (a * b ^ 2 * f * p ^ 2 * g) ^ 2))))) :=
    (add_nonneg (add_nonneg (add_nonneg (add_nonneg (add_nonneg (mul_nonneg (by norm_num) (sq_nonneg (a * b ^ 4 * f ^ 2 * p ^ 2 * g))) (mul_nonneg (by norm_num) (sq_nonneg (a * b ^ 4 * f ^ 2 * p * g ^ 2)))) (add_nonneg (mul_nonneg (by norm_num) (sq_nonneg (a * b ^ 4 * f * p ^ 3))) (mul_nonneg (by norm_num) (sq_nonneg (a * b ^ 4 * f * p ^ 2 * g))))) (add_nonneg (add_nonneg (mul_nonneg (by norm_num) (sq_nonneg (a * b ^ 4 * f * p * g ^ 2))) (mul_nonneg (by norm_num) (sq_nonneg (a * b ^ 4 * p ^ 3)))) (add_nonneg (mul_nonneg (by norm_num) (sq_nonneg (a * b ^ 4 * p ^ 2 * g))) (mul_nonneg (by norm_num) (sq_nonneg (a * b ^ 4 * p * g ^ 2)))))) (add_nonneg (add_nonneg (add_nonneg (mul_nonneg (by norm_num) (sq_nonneg (a * b ^ 3 * f ^ 5 * p * g ^ 2))) (mul_nonneg (by norm_num) (sq_nonneg (a * b ^ 3 * f ^ 4 * p ^ 2 * g)))) (add_nonneg (mul_nonneg (by norm_num) (sq_nonneg (a * b ^ 3 * f ^ 4 * p * g ^ 2))) (mul_nonneg (by norm_num) (sq_nonneg (a * b ^ 3 * f ^ 3 * p ^ 3))))) (add_nonneg (add_nonneg (mul_nonneg (by norm_num) (sq_nonneg (a * b ^ 3 * f ^ 3 * p ^ 2 * g))) (mul_nonneg (by norm_num) (sq_nonneg (a * b ^ 3 * f ^ 3 * p * g ^ 2)))) (add_nonneg (mul_nonneg (by norm_num) (sq_nonneg (a * b ^ 3 * f ^ 2 * p ^ 3))) (mul_nonneg (by norm_num) (sq_nonneg (a * b ^ 3 * f ^ 2 * p ^ 2 * g))))))) (add_nonneg (add_nonneg (add_nonneg (add_nonneg (mul_nonneg (by norm_num) (sq_nonneg (a * b ^ 3 * f ^ 2 * p * g ^ 2))) (mul_nonneg (by norm_num) (sq_nonneg (a * b ^ 3 * f * p ^ 3)))) (add_nonneg (mul_nonneg (by norm_num) (sq_nonneg (a * b ^ 3 * f * p ^ 2 * g))) (mul_nonneg (by norm_num) (sq_nonneg (a * b ^ 3 * f * p * g ^ 2))))) (add_nonneg (add_nonneg (mul_nonneg (by norm_num) (sq_nonneg (a * b ^ 3 * p ^ 3))) (mul_nonneg (by norm_num) (sq_nonneg (a * b ^ 3 * p ^ 2 * g)))) (add_nonneg (mul_nonneg (by norm_num) (sq_nonneg (a * b ^ 3 * p * g ^ 2))) (mul_nonneg (by norm_num) (sq_nonneg (a * b ^ 2 * f ^ 5 * p ^ 2 * g)))))) (add_nonneg (add_nonneg (add_nonneg (mul_nonneg (by norm_num) (sq_nonneg (a * b ^ 2 * f ^ 4 * p ^ 3))) (mul_nonneg (by norm_num) (sq_nonneg (a * b ^ 2 * f ^ 4 * p ^ 2 * g)))) (add_nonneg (mul_nonneg (by norm_num) (sq_nonneg (a * b ^ 2 * f ^ 3 * p ^ 3))) (mul_nonneg (by norm_num) (sq_nonneg (a * b ^ 2 * f ^ 3 * p ^ 2 * g))))) (add_nonneg (add_nonneg (mul_nonneg (by norm_num) (sq_nonneg (a * b ^ 2 * f ^ 2 * p ^ 3))) (mul_nonneg (by norm_num) (sq_nonneg (a * b ^ 2 * f ^ 2 * p ^ 2 * g)))) (add_nonneg (mul_nonneg (by norm_num) (sq_nonneg (a * b ^ 2 * f * p ^ 3))) (mul_nonneg (by norm_num) (sq_nonneg (a * b ^ 2 * f * p ^ 2 * g))))))))
  have hc10 : (0:ℝ) ≤ (((((432 * (a * b ^ 2 * p ^ 3) ^ 2 + 288 * (a * b ^ 2 * p ^ 2 * g) ^ 2) + (64 * (a * b * f ^ 5 * p ^ 3) ^ 2 + 320 * (a * b * f ^ 4 * p ^ 3) ^ 2)) + ((640 * (a * b * f ^ 3 * p ^ 3) ^ 2 + 640 * (a * b * f ^ 2 * p ^ 3) ^ 2) + (320 * (a * b * f * p ^ 3) ^ 2 + 64 * (a * b * p ^ 3) ^ 2))) + (((32 * (b ^ 8 * p ^ 2 * g) ^ 2 + 192 * (b ^ 7 * f * p ^ 2 * g) ^ 2) + (20 * (b ^ 7 * p ^ 3) ^ 2 + 192 * (b ^ 7 * p ^ 2 * g) ^ 2)) + ((448 * (b ^ 6 * f ^ 2 * p ^ 2 * g) ^ 2 + 112 * (b ^ 6 * f * p ^ 3) ^ 2) + (896 * (b ^ 6 * f * p ^ 2 * g) ^ 2 + 112 * (b ^ 6 * p ^ 3) ^ 2)))) + ((((448 * (b ^ 6 * p ^ 2 * g) ^ 2 + 512 * (b ^ 5 * f ^ 3 * p ^ 2 * g) ^ 2) + (244 * (b ^ 5 * f ^ 2 * p ^ 3) ^ 2 + 1536 * (b ^ 5 * f ^ 2 * p ^ 2 * g) ^ 2)) + ((488 * (b ^ 5 * f * p ^ 3) ^ 2 + 1536 * (b ^ 5 * f * p ^ 2 * g) ^ 2) + (244 * (b ^ 5 * p ^ 3) ^ 2 + 512 * (b ^ 5 * p ^ 2 * g) ^ 2))) + (((288 * (b ^ 4 * f ^ 4 * p ^ 2 * g) ^ 2 + 264 * (b ^ 4 * f ^ 3 * p ^ 3) ^ 2) + (1152 * (b ^ 4 * f ^ 3 * p ^ 2 * g) ^ 2 + 792 * (b ^ 4 * f ^ 2 * p ^ 3) ^ 2)) + ((1728 * (b ^ 4 * f ^ 2 * p ^ 2 * g) ^ 2 + 792 * (b ^ 4 * f * p ^ 3) ^ 2) + (1152 * (b ^ 4 * f * p ^ 2 * g) ^ 2 + 264 * (b ^ 4 * p ^ 3) ^ 2))))) :=
    (add_nonneg (add_nonneg (add_nonneg (add_nonneg (add_nonneg (mul_nonneg (by norm_num) (sq_nonneg (a * b ^ 2 * p ^ 3))) (mul_nonneg (by norm_num) (sq_nonneg (a * b ^ 2 * p ^ 2 * g)))) (add_nonneg (mul_nonneg (by norm_num) (sq_nonneg (a * b * f ^ 5 * p ^ 3))) (mul_nonneg (by norm_num) (sq_nonneg (a * b * f ^ 4 * p ^ 3))))) (add_nonneg (add_nonneg (mul_nonneg (by norm_num) (sq_nonneg (a * b * f ^ 3 * p ^ 3))) (mul_nonneg (by norm_num) (sq_nonneg (a * b * f ^ 2 * p ^ 3)))) (add_nonneg (mul_nonneg (by norm_num) (sq_nonneg (a * b * f * p ^ 3))) (mul_nonneg (by norm_num) (sq_nonneg (a * b * p ^ 3)))))) (add_nonneg (add_nonneg (add_nonneg (mul_nonneg (by norm_num) (sq_nonneg (b ^ 8 * p ^ 2 * g))) (mul_nonneg (by norm_num) (sq_nonneg (b ^ 7 * f * p ^ 2 * g)))) (add_nonneg (mul_nonneg (by norm_num) (sq_nonneg (b ^ 7 * p ^ 3))) (mul_nonneg (by norm_num) (sq_nonneg (b ^ 7 * p ^ 2 * g))))) (add_nonneg (add_nonneg (mul_nonneg (by norm_num) (sq_nonneg (b ^ 6 * f ^ 2 * p ^ 2 * g))) (mul_nonneg (by norm_num) (sq_nonneg (b ^ 6 * f * p ^ 3)))) (add_nonneg (mul_nonneg (by norm_num) (sq_nonneg (b ^ 6 * f * p ^ 2 * g))) (mul_nonneg (by norm_num) (sq_nonneg (b ^ 6 * p ^ 3))))))) (add_nonneg (add_nonneg (add_nonneg (add_nonneg (mul_nonneg (by norm_num) (sq_nonneg (b ^ 6 * p ^ 2 * g))) (mul_nonneg (by norm_num) (sq_nonneg (b ^ 5 * f ^ 3 * p ^ 2 * g)))) (add_nonneg (mul_nonneg (by norm_num) (sq_nonneg (b ^ 5 * f ^ 2 * p ^ 3))) (mul_nonneg (by norm_num) (sq_nonneg (b ^ 5 * f ^ 2 * p ^ 2 * g))))) (add_nonneg (add_nonneg (mul_nonneg (by norm_num) (sq_nonneg (b ^ 5 * f * p ^ 3))) (mul_nonneg (by norm_num) (sq_nonneg (b ^ 5 * f * p ^ 2 * g)))) (add_nonneg (mul_nonneg (by norm_num) (sq_nonneg (b ^ 5 * p ^ 3))) (mul_nonneg (by norm_num) (sq_nonneg (b ^ 5 * p ^ 2 * g)))))) (add_nonneg (add_nonneg (add_nonneg (mul_nonneg (by norm_num) (sq_nonneg (b ^ 4 * f ^ 4 * p ^ 2 * g))) (mul_nonneg (by norm_num) (sq_nonneg (b ^ 4 * f ^ 3 * p ^ 3)))) (add_nonneg (mul_nonneg (by norm_num) (sq_nonneg (b ^ 4 * f ^ 3 * p ^ 2 * g))) (mul_nonneg (by norm_num) (sq_nonneg (b ^ 4 * f ^ 2 * p ^ 3))))) (add_nonneg (add_nonneg (mul_nonneg (by norm_num) (sq_nonneg (b ^ 4 * f ^ 2 * p ^ 2 * g))) (mul_nonneg (by norm_num) (sq_nonneg (b ^ 4 * f * p ^ 3)))) (add_nonneg (mul_nonneg (by norm_num) (sq_nonneg (b ^ 4 * f * p ^ 2 * g))) (mul_nonneg (by norm_num) (sq_nonneg (b ^ 4 * p ^ 3))))))))
  have hc11 : (0:ℝ) ≤ ((((288 * (b ^ 4 * p ^ 2 * g) ^ 2 + 64 * (b ^ 3 * f ^ 5 * p ^ 2 * g) ^ 2) + (144 * (b ^ 3 * f ^ 4 * p ^ 3) ^ 2 + 320 * (b ^ 3 * f ^ 4 * p ^ 2 * g) ^ 2)) + ((576 * (b ^ 3 * f ^ 3 * p ^ 3) ^ 2 + 640 * (b ^ 3 * f ^ 3 * p ^ 2 * g) ^ 2) + (864 * (b ^ 3 * f ^ 2 * p ^ 3) ^ 2 + (640 * (b ^ 3 * f ^ 2 * p ^ 2 * g) ^ 2 + 576 * (b ^ 3 * f * p ^ 3) ^ 2)))) + (((320 * (b ^ 3 * f * p ^ 2 * g) ^ 2 + 144 * (b ^ 3 * p ^ 3) ^ 2) + (64 * (b ^ 3 * p ^ 2 * g) ^ 2 + 32 * (b ^ 2 * f ^ 5 * p ^ 3) ^ 2)) + ((160 * (b ^ 2 * f ^ 4 * p ^ 3) ^ 2 + 320 * (b ^ 2 * f ^ 3 * p ^ 3) ^ 2) + (320 * (b ^ 2 * f ^ 2 * p ^ 3) ^ 2 + (160 * (b ^ 2 * f * p ^ 3) ^ 2 + 32 * (b ^ 2 * p ^ 3) ^ 2))))) :=
    (add_nonneg (add_nonneg (add_nonneg (add_nonneg (mul_nonneg (by norm_num) (sq_nonneg (b ^ 4 * p ^ 2 * g))) (mul_nonneg (by norm_num) (sq_nonneg (b ^ 3 * f ^ 5 * p ^ 2 * g)))) (add_nonneg (mul_nonneg (by norm_num) (sq_nonneg (b ^ 3 * f ^ 4 * p ^ 3))) (mul_nonneg (by norm_num) (sq_nonneg (b ^ 3 * f ^ 4 * p ^ 2 * g))))) (add_nonneg (add_nonneg (mul_nonneg (by norm_num) (sq_nonneg (b ^ 3 * f ^ 3 * p ^ 3))) (mul_nonneg (by norm_num) (sq_nonneg (b ^ 3 * f ^ 3 * p ^ 2 * g)))) (add_nonneg (mul_nonneg (by norm_num) (sq_nonneg (b ^ 3 * f ^ 2 * p ^ 3))) (add_nonneg (mul_nonneg (by norm_num) (sq_nonneg (b ^ 3 * f ^ 2 * p ^ 2 * g))) (mul_nonneg (by norm_num) (sq_nonneg (b ^ 3 * f * p ^ 3))))))) (add_nonneg (add_nonneg (add_nonneg (mul_nonneg (by norm_num) (sq_nonneg (b ^ 3 * f * p ^ 2 * g))) (mul_nonneg (by norm_num) (sq_nonneg (b ^ 3 * p ^ 3)))) (add_nonneg (mul_nonneg (by norm_num) (sq_nonneg (b ^ 3 * p ^ 2 * g))) (mul_nonneg (by norm_num) (sq_nonneg (b ^ 2 * f ^ 5 * p ^ 3))))) (add_nonneg (add_nonneg (mul_nonneg (by norm_num) (sq_nonneg (b ^ 2 * f ^ 4 * p ^ 3))) (mul_nonneg (by norm_num) (sq_nonneg (b ^ 2 * f ^ 3 * p ^ 3)))) (add_nonneg (mul_nonneg (by norm_num) (sq_nonneg (b ^ 2 * f ^ 2 * p ^ 3))) (add_nonneg (mul_nonneg (by norm_num) (sq_nonneg (b ^ 2 * f * p ^ 3))) (mul_nonneg (by norm_num) (sq_nonneg (b ^ 2 * p ^ 3))))))))
  have hTot := (add_nonneg (add_nonneg (add_nonneg hc0 (add_nonneg hc1 hc2)) (add_nonneg hc3 (add_nonneg hc4 hc5))) (add_nonneg (add_nonneg hc6 (add_nonneg hc7 hc8)) (add_nonneg hc9 (add_nonneg hc10 hc11))))
  simp only [NqP, DqP]
  rw [ha, hU2, hm2, hp, hg]
  linarith [hTot]


set_option maxHeartbeats 1600000 in
theorem dqP_pos (m c G u : ℝ) (hu : 0 ≤ u) (hum : u ≤ m - 1) (hc : 0 < c) (hG : 0 ≤ G) :
    0 < DqP m c G u := by
  obtain ⟨a, ha⟩ : ∃ x : ℝ, u = x ^ 2 := ⟨Real.sqrt u, (Real.sq_sqrt hu).symm⟩
  obtain ⟨f, hf⟩ : ∃ x : ℝ, m - 1 - u = x ^ 2 := ⟨Real.sqrt (m - 1 - u), (Real.sq_sqrt (by linarith)).symm⟩
  obtain ⟨p, hp⟩ : ∃ x : ℝ, c = x ^ 2 := ⟨Real.sqrt c, (Real.sq_sqrt hc.le).symm⟩
  obtain ⟨g, hg⟩ : ∃ x : ℝ, G = x ^ 2 := ⟨Real.sqrt G, (Real.sq_sqrt hG).symm⟩
  have hm2 : m = 1 + a ^ 2 + f ^ 2 := by linarith
  have h2 : 0 < p ^ 2 := hp ▸ hc
  have hRest : (0:ℝ) ≤ ((((8 * (a ^ 4 * g) ^ 2 + 32 * (a ^ 3 * f * g) ^ 2) + (5 * (a ^ 3 * p) ^ 2 + 32 * (a ^ 3 * g) ^ 2)) + ((40 * (a ^ 2 * f ^ 2 * g) ^ 2 + 18 * (a ^ 2 * f * p) ^ 2) + (80 * (a ^ 2 * f * g) ^ 2 + (18 * (a ^ 2 * p) ^ 2 + 40 * (a ^ 2 * g) ^ 2)))) + (((16 * (a * f ^ 3 * g) ^ 2 + 20 * (a * f ^ 2 * p) ^ 2) + (48 * (a * f ^ 2 * g) ^ 2 + (40 * (a * f * p) ^ 2 + 48 * (a * f * g) ^ 2))) + ((20 * (a * p) ^ 2 + 16 * (a * g) ^ 2) + (8 * (f ^ 3 * p) ^ 2 + (24 * (f ^ 2 * p) ^ 2 + 24 * (f * p) ^ 2))))) :=
    (add_nonneg (add_nonneg (add_nonneg (add_nonneg (mul_nonneg (by norm_num) (sq_nonneg (a ^ 4 * g))) (mul_nonneg (by norm_num) (sq_nonneg (a ^ 3 * f * g)))) (add_nonneg (mul_nonneg (by norm_num) (sq_nonneg (a ^ 3 * p))) (mul_nonneg (by norm_num) (sq_nonneg (a ^ 3 * g))))) (add_nonneg (add_nonneg (mul_nonneg (by norm_num) (sq_nonneg (a ^ 2 * f ^ 2 * g))) (mul_nonneg (by norm_num) (sq_nonneg (a ^ 2 * f * p)))) (add_nonneg (mul_nonneg (by norm_num) (sq_nonneg (a ^ 2 * f * g))) (add_nonneg (mul_nonneg (by norm_num) (sq_nonneg (a ^ 2 * p))) (mul_nonneg (by norm_num) (sq_nonneg (a ^ 2 * g))))))) (add_nonneg (add_nonneg (add_nonneg (mul_nonneg (by norm_num) (sq_nonneg (a * f ^ 3 * g))) (mul_nonneg (by norm_num) (sq_nonneg (a * f ^ 2 * p)))) (add_nonneg (mul_nonneg (by norm_num) (sq_nonneg (a * f ^ 2 * g))) (add_nonneg (mul_nonneg (by norm_num) (sq_nonneg (a * f * p))) (mul_nonneg (by norm_num) (sq_nonneg (a * f * g)))))) (add_nonneg (add_nonneg (mul_nonneg (by norm_num) (sq_nonneg (a * p))) (mul_nonneg (by norm_num) (sq_nonneg (a * g)))) (add_nonneg (mul_nonneg (by norm_num) (sq_nonneg (f ^ 3 * p))) (add_nonneg (mul_nonneg (by norm_num) (sq_nonneg (f ^ 2 * p))) (mul_nonneg (by norm_num) (sq_nonneg (f * p))))))))
  simp only [DqP]
  rw [ha, hm2, hp, hg]
  linarith [hRest, h2]

/-! alphaBar basics -/

theorem alphaBar_denom_pos (m z : ℝ) (hm : 0 < m) : 0 < m + max 1 (m - z) := by
  have h := le_max_left 1 (m - z)
  linarith

theorem alphaBar_avg (m T z : ℝ) :
    T / ((m + max 1 (m - z)) / 2) - GRAVITY = alphaBar m T z := by
  rw [alphaBar, div_div_eq_mul_div, mul_comm]

theorem alphaBar_mono (m T z z' : ℝ) (hm : 0 < m) (hT : 0 ≤ T) (h : z ≤ z') :
    alphaBar m T z ≤ alphaBar m T z' := by
  rw [alphaBar, alphaBar]
  have h1 : max 1 (m - z') ≤ max 1 (m - z) := max_le_max le_rfl (by linarith)
  have h2 : 0 < m + max 1 (m - z') := alphaBar_denom_pos m z' hm
  have h3 : 2 * T / (m + max 1 (m - z)) ≤ 2 * T / (m + max 1 (m - z')) :=
    div_le_div_of_nonneg_left (by linarith) h2 (by linarith)
  linarith

theorem alphaBar_ge_na0 (m T z : ℝ) (hm : 1 ≤ m) (hT : 0 ≤ T) (hz : 0 ≤ z) :
    T / m - GRAVITY ≤ alphaBar m T z := by
  rw [alphaBar]
  have h1 : max 1 (m - z) ≤ m := max_le hm (by linarith)
  have h2 : 0 < m + max 1 (m - z) := alphaBar_denom_pos m z (by linarith)
  have h3 : 2 * T / (2 * m) ≤ 2 * T / (m + max 1 (m - z)) :=
    div_le_div_of_nonneg_left (by linarith) h2 (by linarith)
  have h4 : 2 * T / (2 * m) = T / m := by
    rw [mul_div_mul_left T m (two_ne_zero)]
  linarith

theorem gravity_pos : (0:ℝ) < GRAVITY := by rw [GRAVITY]; norm_num

theorem alphaBar_pos (m T z : ℝ) (hm : 1 ≤ m) (hT : m * GRAVITY < T) (hz : 0 ≤ z) :
    0 < alphaBar m T z := by
  have hm0 : 0 < m := by linarith
  have hG := gravity_pos
  have h1 : GRAVITY < T / m := (lt_div_iff₀ hm0).mpr (by nlinarith)
  have h2 := alphaBar_ge_na0 m T z hm (by nlinarith) hz
  linarith

theorem alphaBar_lin (m T z : ℝ) (hm : 1 ≤ m) (hz : 0 ≤ z) (hzK : z ≤ m - 1) :
    alphaBar m T z = (2 * T - 2 * m * GRAVITY + GRAVITY * z) / (2 * m - z) := by
  rw [alphaBar, max_eq_right (by linarith : (1:ℝ) ≤ m - z)]
  have hd : (0:ℝ) < 2 * m - z := by linarith
  rw [show m + (m - z) = 2 * m - z by ring]
  field_simp
  ring

theorem alphaBar_clamp (m T z : ℝ) (hz : m - 1 ≤ z) :
    alphaBar m T z = 2 * T / (m + 1) - GRAVITY := by
  rw [alphaBar, max_eq_left (by linarith : m - z ≤ 1)]

theorem alphaBar_min_form (m T z : ℝ) (hm : 1 ≤ m) (hz : 0 ≤ z) :
    alphaBar m T z =
      (2 * T - 2 * m * GRAVITY + GRAVITY * min z (m - 1)) / (2 * m - min z (m - 1)) := by
  rcases le_or_lt z (m - 1) with h | h
  · rw [min_eq_left h, alphaBar_lin m T z hm hz h]
  · rw [min_eq_right h.le, alphaBar_clamp m T z h.le]
    have hd : (0:ℝ) < m + 1 := by linarith
    have : 2 * m - (m - 1) = m + 1 := by ring
    rw [this]
    field_simp
    ring

theorem linQ (m c G p q s : ℝ) (hG : 0 ≤ G) (hc : 0 ≤ c) (hp : 0 ≤ p)
    (hpq : p ≤ q) (hq : q ≤ m - 1) (hs : 1 ≤ s) (hqs : q ≤ s * p) (hm : 1 ≤ m) :
    (c + G * q) / (2 * m - q) ≤ s ^ 2 * ((c + G * p) / (2 * m - p)) := by
  have hdq : (0:ℝ) < 2 * m - q := by linarith
  have hdp : (0:ℝ) < 2 * m - p := by linarith
  rcases eq_or_lt_of_le hp with hp0 | hp0
  · have hq0 : q = 0 := le_antisymm (by nlinarith) (by linarith)
    rw [← hp0, hq0]
    norm_num
    have hX : 0 ≤ c / (2 * m) := div_nonneg hc (by linarith)
    have h1 : (1:ℝ) ≤ s ^ 2 := by nlinarith
    have h2 := le_mul_of_one_le_left hX h1
    linarith
  · have step1 : (c + G * q) / (2 * m - q) ≤ (q / p) ^ 2 * ((c + G * p) / (2 * m - p)) := by
      have hrw : (q / p) ^ 2 * ((c + G * p) / (2 * m - p)) =
          q ^ 2 * (c + G * p) / (p ^ 2 * (2 * m - p)) := by
        field_simp
      rw [hrw, div_le_div_iff₀ hdq (by positivity)]
      have := pk1_kernel m c G p q hp hpq hq hc hG
      nlinarith [this]
    have step2 : (q / p) ^ 2 ≤ s ^ 2 := by
      have h1 : q / p ≤ s := (div_le_iff₀ hp0).mpr (by linarith)
      have h2 : 0 ≤ q / p := div_nonneg (by linarith) hp0.le
      exact pow_le_pow_left₀ h2 h1 2
    have hY : 0 ≤ (c + G * p) / (2 * m - p) := by positivity
    nlinarith [step1, step2, hY]

theorem alphaBar_quad (m T z Z s : ℝ) (hm : 1 ≤ m) (hT : m * GRAVITY ≤ T)
    (hz : 0 ≤ z) (hZ : 0 ≤ Z) (hs : 1 ≤ s) (hZs : Z ≤ s * z) :
    alphaBar m T Z ≤ s ^ 2 * alphaBar m T z := by
  have hG := gravity_pos
  have hm0 : (0:ℝ) < m := by linarith
  have hT0 : 0 ≤ T := by nlinarith
  have hab : 0 ≤ alphaBar m T z := by
    have h1 : GRAVITY ≤ T / m := (le_div_iff₀ hm0).mpr (by nlinarith)
    have h2 := alphaBar_ge_na0 m T z hm hT0 hz
    linarith
  rcases le_or_lt Z z with hZz | hZz
  · have h1 := alphaBar_mono m T Z z hm0 hT0 hZz
    have h2 : (1:ℝ) ≤ s ^ 2 := by nlinarith
    have h3 := le_mul_of_one_le_left hab h2
    linarith
  · have hc : 0 ≤ 2 * T - 2 * m * GRAVITY := by linarith
    have hpnn : 0 ≤ min z (m - 1) := le_min hz (by linarith)
    have hpq : min z (m - 1) ≤ min Z (m - 1) := min_le_min hZz.le le_rfl
    have hqK : min Z (m - 1) ≤ m - 1 := min_le_right Z (m - 1)
    have hqs : min Z (m - 1) ≤ s * min z (m - 1) := by
      rcases le_or_lt z (m - 1) with h | h
      · rw [min_eq_left h]
        calc min Z (m - 1) ≤ Z := min_le_left Z (m - 1)
          _ ≤ s * z := hZs
      · rw [min_eq_right h.le]
        calc min Z (m - 1) ≤ m - 1 := min_le_right Z (m - 1)
          _ ≤ s * (m - 1) := le_mul_of_one_le_left (by linarith) hs
    rw [alphaBar_min_form m T z hm hz, alphaBar_min_form m T Z hm hZ]
    exact linQ m (2 * T - 2 * m * GRAVITY) GRAVITY (min z (m - 1)) (min Z (m - 1)) s
      hG.le hc hpnn hpq hqK hs hqs hm

/-! est chain: non-negativity and loop evaluation in the regular case -/

theorem est0_nonneg (v m T : ℝ) (hm : 1 ≤ m) (hT : m * GRAVITY < T) (hv : 0 ≤ v) :
    0 ≤ est0 v m T := by
  have hm0 : (0:ℝ) < m := by linarith
  have h1 : GRAVITY < T / m := (lt_div_iff₀ hm0).mpr (by nlinarith [gravity_pos])
  exact div_nonneg hv (by linarith)

theorem est1_nonneg (v m T b : ℝ) (hm : 1 ≤ m) (hT : m * GRAVITY < T) (hb : 0 < b)
    (hv : 0 ≤ v) : 0 ≤ est1 v m T b := by
  have h := alphaBar_pos m T (est0 v m T * b) hm hT
    (mul_nonneg (est0_nonneg v m T hm hT hv) hb.le)
  exact div_nonneg hv h.le

theorem est2_nonneg (v m T b : ℝ) (hm : 1 ≤ m) (hT : m * GRAVITY < T) (hb : 0 < b)
    (hv : 0 ≤ v) : 0 ≤ est2 v m T b := by
  have h := alphaBar_pos m T (est1 v m T b * b) hm hT
    (mul_nonneg (est1_nonneg v m T b hm hT hb hv) hb.le)
  exact div_nonneg hv h.le

/-- One non-breaking pass: with positive net deceleration the loop refines
the estimate to velocity / alphaBar(e * burnRate). -/
theorem sbIter_step (v m T b e a : ℝ) (hm : 1 ≤ m) (hT : m * GRAVITY < T)
    (hb : 0 < b) (he : 0 ≤ e) :
    sbIter v m T b ⟨e, a, false⟩ =
      ⟨v / alphaBar m T (e * b), (m + max 1 (m - e * b)) / 2, false⟩ := by
  have hpos : 0 < alphaBar m T (e * b) :=
    alphaBar_pos m T (e * b) hm hT (mul_nonneg he hb.le)
  rw [sbIter]
  simp only [Bool.false_eq_true, if_false]
  rw [alphaBar_avg m T (e * b)]
  rw [if_neg (not_le.mpr hpos)]

theorem sbLoop_eval (v m T b : ℝ) (hm : 1 ≤ m) (hT : m * GRAVITY < T) (hb : 0 < b)
    (hv : 0 ≤ v) :
    sbLoop v m T b =
      ⟨v / alphaBar m T (est2 v m T b * b),
        (m + max 1 (m - est2 v m T b * b)) / 2, false⟩ := by
  have e0 : 0 ≤ v / (T / m - GRAVITY) := est0_nonneg v m T hm hT hv
  have e1 : 0 ≤ v / alphaBar m T (v / (T / m - GRAVITY) * b) :=
    est1_nonneg v m T b hm hT hb hv
  have e2 : 0 ≤ v / alphaBar m T (v / alphaBar m T (v / (T / m - GRAVITY) * b) * b) :=
    est2_nonneg v m T b hm hT hb hv
  simp only [sbLoop]
  rw [if_pos hb]
  rw [sbIter_step v m T b (v / (T / m - GRAVITY)) m hm hT hb e0]
  rw [sbIter_step v m T b (v / alphaBar m T (v / (T / m - GRAVITY) * b))
    ((m + max 1 (m - v / (T / m - GRAVITY) * b)) / 2) hm hT hb e1]
  rw [sbIter_step v m T b
    (v / alphaBar m T (v / alphaBar m T (v / (T / m - GRAVITY) * b) * b))
    ((m + max 1 (m - v / alphaBar m T (v / (T / m - GRAVITY) * b) * b)) / 2) hm hT hb e2]
  rfl

theorem suicide_eval (v m T b : ℝ) (hm : 1 ≤ m) (hT : m * GRAVITY < T) (hb : 0 < b)
    (hv : 0 ≤ v) :
    calculateSuicideBurnAltitude v m T b =
      v * v / (2 * alphaBar m T (est2 v m T b * b)) + 100 := by
  have hA : 0 < alphaBar m T (est2 v m T b * b) :=
    alphaBar_pos m T (est2 v m T b * b) hm hT
      (mul_nonneg (est2_nonneg v m T b hm hT hb hv) hb.le)
  simp only [calculateSuicideBurnAltitude]
  rw [sbLoop_eval v m T b hm hT hb hv]
  show (if T / ((m + max 1 (m - est2 v m T b * b)) / 2) - GRAVITY ≤ 0 then (0:ℝ)
    else v * v / (2 * (T / ((m + max 1 (m - est2 v m T b * b)) / 2) - GRAVITY)) + 100) = _
  rw [alphaBar_avg m T (est2 v m T b * b)]
  rw [if_neg (not_le.mpr hA)]

/-- Case A of the velocity-pair comparison: the first-pass deceleration
for the faster run is at most v2/v1 times the one for the slower run. -/
theorem suicide_pair_A (v1 v2 m T b : ℝ) (hm : 1 ≤ m) (hT : m * GRAVITY < T)
    (hb : 0 < b) (h1 : 0 < v1) (h12 : v1 ≤ v2)
    (hA : alphaBar m T (est0 v2 m T * b) ≤ v2 / v1 * alphaBar m T (est0 v1 m T * b)) :
    v1 ^ 2 * alphaBar m T (est2 v2 m T b * b) ≤
      v2 ^ 2 * alphaBar m T (est2 v1 m T b * b) := by
  have h2 : 0 < v2 := lt_of_lt_of_le h1 h12
  have hs : 1 ≤ v2 / v1 := (one_le_div h1).mpr h12
  have hA01 : 0 < alphaBar m T (est0 v1 m T * b) :=
    alphaBar_pos m T _ hm hT (mul_nonneg (est0_nonneg v1 m T hm hT h1.le) hb.le)
  have hA02 : 0 < alphaBar m T (est0 v2 m T * b) :=
    alphaBar_pos m T _ hm hT (mul_nonneg (est0_nonneg v2 m T hm hT h2.le) hb.le)
  have h1e : est1 v1 m T b ≤ est1 v2 m T b := by
    rw [est1, est1]
    have hstep : v2 / (v2 / v1 * alphaBar m T (est0 v1 m T * b)) ≤
        v2 / alphaBar m T (est0 v2 m T * b) :=
      div_le_div_of_nonneg_left h2.le hA02 hA
    have hid : v2 / (v2 / v1 * alphaBar m T (est0 v1 m T * b)) =
        v1 / alphaBar m T (est0 v1 m T * b) := by
      field_simp
      ring
    linarith [hstep, hid ▸ hstep]
  have hA11 : 0 < alphaBar m T (est1 v1 m T b * b) :=
    alphaBar_pos m T _ hm hT (mul_nonneg (est1_nonneg v1 m T b hm hT hb h1.le) hb.le)
  have h2e : alphaBar m T (est1 v1 m T b * b) ≤ alphaBar m T (est1 v2 m T b * b) :=
    alphaBar_mono m T _ _ (by linarith) (by nlinarith [gravity_pos]) 
      (mul_le_mul_of_nonneg_right h1e hb.le)
  have hA12 : 0 < alphaBar m T (est1 v2 m T b * b) :=
    alphaBar_pos m T _ hm hT (mul_nonneg (est1_nonneg v2 m T b hm hT hb h2.le) hb.le)
  have h3e : est2 v2 m T b ≤ v2 / v1 * est2 v1 m T b := by
    rw [est2, est2]
    have hstep : v2 / alphaBar m T (est1 v2 m T b * b) ≤
        v2 / alphaBar m T (est1 v1 m T b * b) :=
      div_le_div_of_nonneg_left h2.le hA11 h2e
    have hid : v2 / v1 * (v1 / alphaBar m T (est1 v1 m T b * b)) =
        v2 / alphaBar m T (est1 v1 m T b * b) := by
      field_simp
    linarith [hstep, hid]
  have hZs : est2 v2 m T b * b ≤ v2 / v1 * (est2 v1 m T b * b) := by
    have := mul_le_mul_of_nonneg_right h3e hb.le
    linarith [this, (by ring : v2 / v1 * est2 v1 m T b * b = v2 / v1 * (est2 v1 m T b * b))]
  have hquad := alphaBar_quad m T (est2 v1 m T b * b) (est2 v2 m T b * b) (v2 / v1)
    hm hT.le (mul_nonneg (est2_nonneg v1 m T b hm hT hb h1.le) hb.le)
    (mul_nonneg (est2_nonneg v2 m T b hm hT hb h2.le) hb.le) hs hZs
  have hv12sq : v1 ^ 2 * (v2 / v1) ^ 2 = v2 ^ 2 := by
    field_simp
  calc v1 ^ 2 * alphaBar m T (est2 v2 m T b * b)
      ≤ v1 ^ 2 * ((v2 / v1) ^ 2 * alphaBar m T (est2 v1 m T b * b)) :=
        mul_le_mul_of_nonneg_left hquad (sq_nonneg v1)
    _ = v2 ^ 2 * alphaBar m T (est2 v1 m T b * b) := by
        rw [← hv12sq]; ring

set_option maxHeartbeats 1600000 in
/-- Below the mass knee the second-pass average deceleration is the
rational function NqP/DqP of the initial fuel estimate. -/
theorem alphaBar_rep (v m T b c : ℝ) (hm : 1 ≤ m) (hT : m * GRAVITY < T) (hb : 0 < b)
    (hv : 0 < v) (hc_def : c = 2 * T - 2 * m * GRAVITY)
    (hK : est0 v m T * b ≤ m - 1) :
    alphaBar m T (est2 v m T b * b) =
      NqP m c GRAVITY (est0 v m T * b) / DqP m c GRAVITY (est0 v m T * b) := by
  have hG := gravity_pos
  have hm0 : (0:ℝ) < m := by linarith
  have hc : 0 < c := by rw [hc_def]; linarith
  have hna : 0 < T / m - GRAVITY := sub_pos.mpr ((lt_div_iff₀ hm0).mpr (by nlinarith))
  have hna_c : T / m - GRAVITY = c / (2 * m) := by rw [hc_def]; field_simp; ring
  set u := est0 v m T * b with hu_def
  have hu_pos : 0 < u := by rw [hu_def, est0]; exact mul_pos (div_pos hv hna) hb
  have hu_le : u ≤ m - 1 := hK
  have hbv : 2 * m * (v * b) = c * u := by
    rw [hu_def, est0, hna_c]
    field_simp
    ring
  have hcu : 0 < c + GRAVITY * u := by
    have := mul_nonneg hG.le hu_pos.le
    linarith
  have hL1 : 0 < 2 * m * (c + GRAVITY * u) := mul_pos (by linarith) hcu
  have hαu : alphaBar m T u = (c + GRAVITY * u) / (2 * m - u) := by
    rw [alphaBar_lin m T u hm hu_pos.le hu_le, hc_def]
  set z1 := est1 v m T b * b with hz1_def
  have hz1val : z1 = c * u * (2 * m - u) / (2 * m * (c + GRAVITY * u)) := by
    rw [hz1_def, est1, ← hu_def, hαu, div_div_eq_mul_div, div_mul_eq_mul_div,
      div_eq_div_iff (ne_of_gt hcu) (ne_of_gt hL1)]
    linear_combination ((2 * m - u) * (c + GRAVITY * u)) * hbv
  have f1 : z1 * (2 * m * (c + GRAVITY * u)) = c * u * (2 * m - u) := by
    rw [hz1val, div_mul_cancel₀ _ hL1.ne']
  have hz1_nonneg : 0 ≤ z1 := by
    rw [hz1val]
    exact div_nonneg (mul_nonneg (mul_nonneg hc.le hu_pos.le) (by linarith)) hL1.le
  have hz1_le : z1 ≤ u := by
    rw [hz1val, div_le_iff₀ hL1]
    have haux : (0:ℝ) ≤ u ^ 2 * (2 * m * GRAVITY + c) :=
      mul_nonneg (sq_nonneg u) (by nlinarith)
    nlinarith [haux]
  have hcz1 : 0 < c + GRAVITY * z1 := by
    have := mul_nonneg hG.le hz1_nonneg
    linarith
  have hL2 : 0 < 2 * m * (c + GRAVITY * z1) := mul_pos (by linarith) hcz1
  have hαz1 : alphaBar m T z1 = (c + GRAVITY * z1) / (2 * m - z1) := by
    rw [alphaBar_lin m T z1 hm hz1_nonneg (by linarith), hc_def]
  set z2 := est2 v m T b * b with hz2_def
  have hz2val : z2 = c * u * (2 * m - z1) / (2 * m * (c + GRAVITY * z1)) := by
    rw [hz2_def, est2, ← hz1_def, hαz1, div_div_eq_mul_div, div_mul_eq_mul_div,
      div_eq_div_iff (ne_of_gt hcz1) (ne_of_gt hL2)]
    linear_combination ((2 * m - z1) * (c + GRAVITY * z1)) * hbv
  have f2 : z2 * (2 * m * (c + GRAVITY * z1)) = c * u * (2 * m - z1) := by
    rw [hz2val, div_mul_cancel₀ _ hL2.ne']
  have hz2_nonneg : 0 ≤ z2 := by
    rw [hz2val]
    exact div_nonneg (mul_nonneg (mul_nonneg hc.le hu_pos.le) (by linarith)) hL2.le
  have hz2_le : z2 ≤ u := by
    rw [hz2val, div_le_iff₀ hL2]
    have haux : (0:ℝ) ≤ u * z1 * (2 * m * GRAVITY + c) :=
      mul_nonneg (mul_nonneg hu_pos.le hz1_nonneg) (by nlinarith)
    nlinarith [haux]
  have hαz2 : alphaBar m T z2 = (c + GRAVITY * z2) / (2 * m - z2) := by
    rw [alphaBar_lin m T z2 hm hz2_nonneg (by linarith), hc_def]
  have hDq : 0 < DqP m c GRAVITY u := dqP_pos m c GRAVITY u hu_pos.le hu_le hc hG.le
  have key : 2 * m * (c + GRAVITY * u) * (2 * m * (c + GRAVITY * z1) *
      ((c + GRAVITY * z2) * DqP m c GRAVITY u - NqP m c GRAVITY u * (2 * m - z2))) = 0 := by
    simp only [NqP, DqP]
    linear_combination
      (16 * m ^ 4 * c ^ 2 * GRAVITY + 48 * m ^ 4 * c * GRAVITY ^ 2 * u
        + 32 * m ^ 4 * GRAVITY ^ 3 * u ^ 2 + 8 * m ^ 3 * c ^ 3
        + 24 * m ^ 3 * c ^ 2 * GRAVITY * u + 8 * m ^ 3 * c * GRAVITY ^ 2 * u ^ 2
        - 8 * m ^ 3 * GRAVITY ^ 3 * u ^ 3 - 4 * m ^ 2 * c ^ 2 * GRAVITY * u ^ 2
        - 4 * m ^ 2 * c * GRAVITY ^ 2 * u ^ 3) * f2 +
      (-16 * m ^ 4 * c * GRAVITY ^ 2 * u - 16 * m ^ 4 * GRAVITY ^ 3 * u ^ 2
        - 16 * m ^ 3 * c ^ 2 * GRAVITY * u - 16 * m ^ 3 * c * GRAVITY ^ 2 * u ^ 2
        - 4 * m ^ 2 * c ^ 3 * u - 4 * m ^ 2 * c ^ 2 * GRAVITY * u ^ 2) * f1
  have T0 : (c + GRAVITY * z2) * DqP m c GRAVITY u - NqP m c GRAVITY u * (2 * m - z2) = 0 := by
    rcases mul_eq_zero.mp key with h | h
    · exact absurd h hL1.ne'
    rcases mul_eq_zero.mp h with h2 | h2
    · exact absurd h2 hL2.ne'
    · exact h2
  rw [hαz2, div_eq_div_iff (by linarith : (2:ℝ) * m - z2 ≠ 0) hDq.ne']
  linarith [T0]

/-- Case B of the velocity-pair comparison: both initial fuel estimates
sit below the mass knee, so the CU kernel applies. -/
theorem suicide_pair_B (v1 v2 m T b : ℝ) (hm : 1 ≤ m) (hT : m * GRAVITY < T)
    (hb : 0 < b) (h1 : 0 < v1) (h12 : v1 ≤ v2)
    (hUK : est0 v2 m T * b ≤ m - 1) :
    v1 ^ 2 * alphaBar m T (est2 v2 m T b * b) ≤
      v2 ^ 2 * alphaBar m T (est2 v1 m T b * b) := by
  have hG := gravity_pos
  have hm0 : (0:ℝ) < m := by linarith
  have h2 : 0 < v2 := lt_of_lt_of_le h1 h12
  have hc : (0:ℝ) < 2 * T - 2 * m * GRAVITY := by linarith
  have hna : 0 < T / m - GRAVITY := sub_pos.mpr ((lt_div_iff₀ hm0).mpr (by nlinarith))
  have hest : est0 v1 m T ≤ est0 v2 m T := by
    rw [est0, est0]
    have := mul_le_mul_of_nonneg_right h12 (inv_nonneg.mpr hna.le)
    rw [← div_eq_mul_inv, ← div_eq_mul_inv] at this
    exact this
  have huU : est0 v1 m T * b ≤ est0 v2 m T * b :=
    mul_le_mul_of_nonneg_right hest hb.le
  have hu_pos : 0 < est0 v1 m T * b := by
    rw [est0]; exact mul_pos (div_pos h1 hna) hb
  have hu_le : est0 v1 m T * b ≤ m - 1 := le_trans huU hUK
  have hrep1 := alphaBar_rep v1 m T b (2 * T - 2 * m * GRAVITY) hm hT hb h1 rfl hu_le
  have hrep2 := alphaBar_rep v2 m T b (2 * T - 2 * m * GRAVITY) hm hT hb h2 rfl hUK
  have hDu : 0 < DqP m (2 * T - 2 * m * GRAVITY) GRAVITY (est0 v1 m T * b) :=
    dqP_pos m _ GRAVITY _ hu_pos.le hu_le hc hG.le
  have hDU : 0 < DqP m (2 * T - 2 * m * GRAVITY) GRAVITY (est0 v2 m T * b) :=
    dqP_pos m _ GRAVITY _ (by linarith) hUK hc hG.le
  have base : (est0 v1 m T * b) ^ 2 *
        NqP m (2 * T - 2 * m * GRAVITY) GRAVITY (est0 v2 m T * b) /
        DqP m (2 * T - 2 * m * GRAVITY) GRAVITY (est0 v2 m T * b) ≤
      (est0 v2 m T * b) ^ 2 *
        NqP m (2 * T - 2 * m * GRAVITY) GRAVITY (est0 v1 m T * b) /
        DqP m (2 * T - 2 * m * GRAVITY) GRAVITY (est0 v1 m T * b) :=
    (div_le_div_iff₀ hDU hDu).mpr
      (cu_kernel m (2 * T - 2 * m * GRAVITY) GRAVITY (est0 v1 m T * b)
        (est0 v2 m T * b) hu_pos.le huU hUK hc.le hG.le)
  have hv1_eq : v1 = est0 v1 m T * b * (2 * T - 2 * m * GRAVITY) / (2 * m * b) := by
    rw [est0, show T / m - GRAVITY = (2 * T - 2 * m * GRAVITY) / (2 * m) by
      field_simp; ring]
    field_simp
    ring
  have hv2_eq : v2 = est0 v2 m T * b * (2 * T - 2 * m * GRAVITY) / (2 * m * b) := by
    rw [est0, show T / m - GRAVITY = (2 * T - 2 * m * GRAVITY) / (2 * m) by
      field_simp; ring]
    field_simp
    ring
  have hsq1 : v1 ^ 2 = (est0 v1 m T * b) ^ 2 * ((2 * T - 2 * m * GRAVITY) / (2 * m * b)) ^ 2 := by
    conv_lhs => rw [hv1_eq]
    ring
  have hsq2 : v2 ^ 2 = (est0 v2 m T * b) ^ 2 * ((2 * T - 2 * m * GRAVITY) / (2 * m * b)) ^ 2 := by
    conv_lhs => rw [hv2_eq]
    ring
  rw [hrep1, hrep2, ← mul_div_assoc, ← mul_div_assoc, div_le_div_iff₀ hDU hDu, hsq1, hsq2]
  rw [div_le_div_iff₀ hDU hDu] at base
  have hk : (0:ℝ) ≤ ((2 * T - 2 * m * GRAVITY) / (2 * m * b)) ^ 2 := sq_nonneg _
  nlinarith [mul_le_mul_of_nonneg_left base hk]

/-- The velocity-pair comparison: for 0 < v1 ≤ v2 the final average
decelerations cross-multiply monotonically. -/
theorem suicide_pair (v1 v2 m T b : ℝ) (hm : 1 ≤ m) (hT : m * GRAVITY < T)
    (hb : 0 < b) (h1 : 0 < v1) (h12 : v1 ≤ v2) :
    v1 ^ 2 * alphaBar m T (est2 v2 m T b * b) ≤
      v2 ^ 2 * alphaBar m T (est2 v1 m T b * b) := by
  have hG := gravity_pos
  have hm0 : (0:ℝ) < m := by linarith
  have h2 : 0 < v2 := lt_of_lt_of_le h1 h12
  have hna : 0 < T / m - GRAVITY := sub_pos.mpr ((lt_div_iff₀ hm0).mpr (by nlinarith))
  rcases le_or_lt (alphaBar m T (est0 v2 m T * b))
      (v2 / v1 * alphaBar m T (est0 v1 m T * b)) with hA | hA
  · exact suicide_pair_A v1 v2 m T b hm hT hb h1 h12 hA
  rcases le_or_lt (est0 v2 m T * b) (m - 1) with hUK | hUK
  · exact suicide_pair_B v1 v2 m T b hm hT hb h1 h12 hUK
  have hclamp2 : alphaBar m T (est0 v2 m T * b) = 2 * T / (m + 1) - GRAVITY :=
    alphaBar_clamp m T _ hUK.le
  have hu_pos : 0 < est0 v1 m T * b := by
    rw [est0]; exact mul_pos (div_pos h1 hna) hb
  have h1K : est0 v1 m T * b < m - 1 := by
    by_contra hcon
    push_neg at hcon
    have hclamp1 : alphaBar m T (est0 v1 m T * b) = 2 * T / (m + 1) - GRAVITY :=
      alphaBar_clamp m T _ hcon
    have hαF : 0 < 2 * T / (m + 1) - GRAVITY := by
      rw [← hclamp1]
      exact alphaBar_pos m T _ hm hT hu_pos.le
    have hs : 1 ≤ v2 / v1 := (one_le_div h1).mpr h12
    rw [hclamp1, hclamp2] at hA
    have := le_mul_of_one_le_left hαF.le hs
    linarith
  have hK_pos : (0:ℝ) < m - 1 := lt_trans hu_pos h1K
  set w := (m - 1) * (T / m - GRAVITY) / b with hw_def
  have hw_pos : 0 < w := div_pos (mul_pos hK_pos hna) hb
  have hwe : est0 w m T * b = m - 1 := by
    rw [est0, hw_def,
      show (m - 1) * (T / m - GRAVITY) / b / (T / m - GRAVITY) * b
        = (m - 1) * ((T / m - GRAVITY) / (T / m - GRAVITY)) * (b / b) by ring,
      div_self hna.ne', div_self hb.ne']
    ring
  have hv1w : v1 < w := by
    rw [est0] at h1K
    rw [hw_def, lt_div_iff₀ hb]
    have hv1b : v1 * b = v1 / (T / m - GRAVITY) * b * (T / m - GRAVITY) := by
      rw [show v1 / (T / m - GRAVITY) * b * (T / m - GRAVITY)
        = v1 * ((T / m - GRAVITY) / (T / m - GRAVITY)) * b by ring, div_self hna.ne']
      ring
    rw [hv1b]
    exact mul_lt_mul_of_pos_right h1K hna
  have hwv2 : w < v2 := by
    have h2K : m - 1 < est0 v2 m T * b := hUK
    rw [est0] at h2K
    rw [hw_def, div_lt_iff₀ hb]
    have hv2b : v2 / (T / m - GRAVITY) * b * (T / m - GRAVITY) = v2 * b := by
      rw [show v2 / (T / m - GRAVITY) * b * (T / m - GRAVITY)
        = v2 * ((T / m - GRAVITY) / (T / m - GRAVITY)) * b by ring, div_self hna.ne']
      ring
    calc (m - 1) * (T / m - GRAVITY) < v2 / (T / m - GRAVITY) * b * (T / m - GRAVITY) :=
          mul_lt_mul_of_pos_right h2K hna
      _ = v2 * b := hv2b
  have hP1 := suicide_pair_B v1 w m T b hm hT hb h1 hv1w.le (le_of_eq hwe)
  have hclampw : alphaBar m T (est0 w m T * b) = 2 * T / (m + 1) - GRAVITY :=
    alphaBar_clamp m T _ (le_of_eq hwe.symm)
  have hαF : 0 < 2 * T / (m + 1) - GRAVITY := by
    rw [← hclampw]
    exact alphaBar_pos m T _ hm hT (by rw [hwe]; linarith)
  have hsw : 1 ≤ v2 / w := (one_le_div hw_pos).mpr hwv2.le
  have hP2 := suicide_pair_A w v2 m T b hm hT hb hw_pos hwv2.le
    (by rw [hclampw, hclamp2]; exact le_mul_of_one_le_left hαF.le hsw)
  have hAw : 0 < alphaBar m T (est2 w m T b * b) :=
    alphaBar_pos m T _ hm hT (mul_nonneg (est2_nonneg w m T b hm hT hb hw_pos.le) hb.le)
  have hA1 : 0 ≤ alphaBar m T (est2 v1 m T b * b) :=
    (alphaBar_pos m T _ hm hT (mul_nonneg (est2_nonneg v1 m T b hm hT hb h1.le) hb.le)).le
  have hA2 : 0 ≤ alphaBar m T (est2 v2 m T b * b) :=
    (alphaBar_pos m T _ hm hT (mul_nonneg (est2_nonneg v2 m T b hm hT hb h2.le) hb.le)).le
  have hcomb := mul_le_mul hP1 hP2
    (mul_nonneg (sq_nonneg w) hA2)
    (mul_nonneg (sq_nonneg w) hA1)
  have hKw : 0 < w ^ 2 * alphaBar m T (est2 w m T b * b) := mul_pos (pow_pos hw_pos 2) hAw
  have hfin : w ^ 2 * alphaBar m T (est2 w m T b * b) *
      (v1 ^ 2 * alphaBar m T (est2 v2 m T b * b)) ≤
      w ^ 2 * alphaBar m T (est2 w m T b * b) *
      (v2 ^ 2 * alphaBar m T (est2 v1 m T b * b)) := by
    nlinarith [hcomb]
  exact le_of_mul_le_mul_left hfin hKw

/-! boundary cases of the loop -/

theorem sbIter_broke (v m T b e a : ℝ) : sbIter v m T b ⟨e, a, true⟩ = ⟨e, a, true⟩ := rfl

theorem sbLoop_b0 (v m T : ℝ) :
    sbLoop v m T 0 = ⟨v / (T / m - GRAVITY), m, false⟩ := by
  simp only [sbLoop]
  rw [if_neg (lt_irrefl (0:ℝ))]

theorem suicide_eval_b0 (v m T : ℝ) :
    calculateSuicideBurnAltitude v m T 0 =
      if T / m - GRAVITY ≤ 0 then 0 else v * v / (2 * (T / m - GRAVITY)) + 100 := by
  simp only [calculateSuicideBurnAltitude]
  rw [sbLoop_b0]

theorem suicide_mono_b0 (v1 v2 m T : ℝ) (h1 : 0 ≤ v1) (h12 : v1 ≤ v2) :
    calculateSuicideBurnAltitude v1 m T 0 ≤ calculateSuicideBurnAltitude v2 m T 0 := by
  rw [suicide_eval_b0, suicide_eval_b0]
  rcases le_or_lt (T / m - GRAVITY) 0 with h | h
  · rw [if_pos h, if_pos h]
  · rw [if_neg (not_le.mpr h), if_neg (not_le.mpr h)]
    have hsq := mul_self_le_mul_self h1 h12
    have hpos : (0:ℝ) < 2 * (T / m - GRAVITY) := by linarith
    have := mul_le_mul_of_nonneg_right hsq (inv_nonneg.mpr hpos.le)
    rw [← div_eq_mul_inv, ← div_eq_mul_inv] at this
    linarith

theorem sbIter_break (v m T b e a : ℝ) (hm0 : 0 < m) (hT0 : 0 ≤ T)
    (hna : T / m - GRAVITY ≤ 0) (heb : e * b ≤ 0) :
    sbIter v m T b ⟨e, a, false⟩ = ⟨e, (m + max 1 (m - e * b)) / 2, true⟩ := by
  have h1 : m ≤ max 1 (m - e * b) := le_max_of_le_right (by linarith)
  have h3 : T / ((m + max 1 (m - e * b)) / 2) ≤ T / m :=
    div_le_div_of_nonneg_left hT0 hm0 (by linarith)
  rw [sbIter]
  simp only [Bool.false_eq_true, if_false]
  rw [if_pos (by linarith : T / ((m + max 1 (m - e * b)) / 2) - GRAVITY ≤ 0)]

theorem suicide_eval_na_nonpos (v m T b : ℝ) (hm0 : 0 < m) (hT0 : 0 ≤ T)
    (hna : T / m - GRAVITY ≤ 0) (hb : 0 < b) (hv : 0 ≤ v) :
    calculateSuicideBurnAltitude v m T b = 0 := by
  have he : v / (T / m - GRAVITY) ≤ 0 := by
    rcases eq_or_lt_of_le hna with h0 | h0
    · rw [h0, div_zero]
    · exact (div_nonpos_iff.mpr (Or.inl ⟨hv, hna⟩))
  have heb : v / (T / m - GRAVITY) * b ≤ 0 :=
    mul_nonpos_iff.mpr (Or.inr ⟨he, hb.le⟩)
  have hst : sbLoop v m T b =
      ⟨v / (T / m - GRAVITY), (m + max 1 (m - v / (T / m - GRAVITY) * b)) / 2, true⟩ := by
    simp only [sbLoop]
    rw [if_pos hb, sbIter_break v m T b _ _ hm0 hT0 hna heb, sbIter_broke, sbIter_broke]
  simp only [calculateSuicideBurnAltitude]
  rw [hst]
  have h1 : m ≤ max 1 (m - v / (T / m - GRAVITY) * b) := le_max_of_le_right (by linarith)
  have h3 : T / ((m + max 1 (m - v / (T / m - GRAVITY) * b)) / 2) ≤ T / m :=
    div_le_div_of_nonneg_left hT0 hm0 (by linarith)
  show (if T / ((m + max 1 (m - v / (T / m - GRAVITY) * b)) / 2) - GRAVITY ≤ 0 then (0:ℝ)
    else v * v / (2 * (T / ((m + max 1 (m - v / (T / m - GRAVITY) * b)) / 2) - GRAVITY)) + 100) = 0
  rw [if_pos (by linarith)]

theorem sbIter_small_break (v m T b e a : ℝ) (hm1 : m ≤ 1) (hb : 0 < b) (he : 0 ≤ e)
    (hc : T / ((m + 1) / 2) - GRAVITY ≤ 0) :
    sbIter v m T b ⟨e, a, false⟩ = ⟨e, (m + 1) / 2, true⟩ := by
  have hmax : max 1 (m - e * b) = 1 := max_eq_left (by nlinarith)
  rw [sbIter]
  simp only [Bool.false_eq_true, if_false]
  rw [hmax, if_pos hc]

theorem sbIter_small_pos (v m T b e a : ℝ) (hm1 : m ≤ 1) (hb : 0 < b) (he : 0 ≤ e)
    (hc : 0 < T / ((m + 1) / 2) - GRAVITY) :
    sbIter v m T b ⟨e, a, false⟩ =
      ⟨v / (T / ((m + 1) / 2) - GRAVITY), (m + 1) / 2, false⟩ := by
  have hmax : max 1 (m - e * b) = 1 := max_eq_left (by nlinarith)
  rw [sbIter]
  simp only [Bool.false_eq_true, if_false]
  rw [hmax, if_neg (not_le.mpr hc)]

theorem suicide_eval_small (v m T b : ℝ) (hm0 : 0 < m) (hm1 : m ≤ 1) (hb : 0 < b)
    (hna : 0 < T / m - GRAVITY) (hv : 0 ≤ v) :
    calculateSuicideBurnAltitude v m T b =
      if T / ((m + 1) / 2) - GRAVITY ≤ 0 then 0
      else v * v / (2 * (T / ((m + 1) / 2) - GRAVITY)) + 100 := by
  have he0 : 0 ≤ v / (T / m - GRAVITY) := div_nonneg hv hna.le
  rcases le_or_lt (T / ((m + 1) / 2) - GRAVITY) 0 with hc | hc
  · have hst : sbLoop v m T b = ⟨v / (T / m - GRAVITY), (m + 1) / 2, true⟩ := by
      simp only [sbLoop]
      rw [if_pos hb, sbIter_small_break v m T b _ _ hm1 hb he0 hc, sbIter_broke, sbIter_broke]
    simp only [calculateSuicideBurnAltitude]
    rw [hst, if_pos hc]
  · have hec : 0 ≤ v / (T / ((m + 1) / 2) - GRAVITY) := div_nonneg hv hc.le
    have hst : sbLoop v m T b =
        ⟨v / (T / ((m + 1) / 2) - GRAVITY), (m + 1) / 2, false⟩ := by
      simp only [sbLoop]
      rw [if_pos hb, sbIter_small_pos v m T b _ _ hm1 hb he0 hc,
        sbIter_small_pos v m T b _ _ hm1 hb hec hc,
        sbIter_small_pos v m T b _ _ hm1 hb hec hc]
    simp only [calculateSuicideBurnAltitude]
    rw [hst, if_neg (not_le.mpr hc)]

theorem suicide_mono_small (v1 v2 m T b : ℝ) (hm0 : 0 < m) (hm1 : m ≤ 1) (hb : 0 < b)
    (hna : 0 < T / m - GRAVITY) (h1 : 0 ≤ v1) (h12 : v1 ≤ v2) :
    calculateSuicideBurnAltitude v1 m T b ≤ calculateSuicideBurnAltitude v2 m T b := by
  rw [suicide_eval_small v1 m T b hm0 hm1 hb hna h1,
    suicide_eval_small v2 m T b hm0 hm1 hb hna (le_trans h1 h12)]
  rcases le_or_lt (T / ((m + 1) / 2) - GRAVITY) 0 with hc | hc
  · rw [if_pos hc, if_pos hc]
  · rw [if_neg (not_le.mpr hc), if_neg (not_le.mpr hc)]
    have hsq := mul_self_le_mul_self h1 h12
    have hpos : (0:ℝ) < 2 * (T / ((m + 1) / 2) - GRAVITY) := by linarith
    have := mul_le_mul_of_nonneg_right hsq (inv_nonneg.mpr hpos.le)
    rw [← div_eq_mul_inv, ← div_eq_mul_inv] at this
    linarith

/-- C6: calculateSuicideBurnAltitude is monotone in the speed argument. -/
theorem c6_suicide_burn_monotone (v1 v2 mass thrust burnRate : ℝ)
    (hmass : 0 < mass) (hthrust : 0 ≤ thrust) (hburn : 0 ≤ burnRate)
    (hv1 : 0 ≤ v1) (hv12 : v1 ≤ v2) :
    calculateSuicideBurnAltitude v1 mass thrust burnRate ≤
      calculateSuicideBurnAltitude v2 mass thrust burnRate := by
  rcases hburn.eq_or_lt with hb0 | hbpos
  · rw [← hb0]
    exact suicide_mono_b0 v1 v2 mass thrust hv1 hv12
  rcases le_or_lt (thrust / mass - GRAVITY) 0 with hna | hna
  · rw [suicide_eval_na_nonpos v1 mass thrust burnRate hmass hthrust hna hbpos hv1,
      suicide_eval_na_nonpos v2 mass thrust burnRate hmass hthrust hna hbpos
        (le_trans hv1 hv12)]
  rcases le_or_lt mass 1 with hm1 | hm1
  · exact suicide_mono_small v1 v2 mass thrust burnRate hmass hm1 hbpos hna hv1 hv12
  have hm : 1 ≤ mass := hm1.le
  have hT : mass * GRAVITY < thrust := by
    have := (lt_div_iff₀ hmass).mp (by linarith : GRAVITY < thrust / mass)
    linarith
  have hA1 : 0 < alphaBar mass thrust (est2 v1 mass thrust burnRate * burnRate) :=
    alphaBar_pos mass thrust _ hm hT
      (mul_nonneg (est2_nonneg v1 mass thrust burnRate hm hT hbpos hv1) hbpos.le)
  have hA2 : 0 < alphaBar mass thrust (est2 v2 mass thrust burnRate * burnRate) :=
    alphaBar_pos mass thrust _ hm hT
      (mul_nonneg (est2_nonneg v2 mass thrust burnRate hm hT hbpos
        (le_trans hv1 hv12)) hbpos.le)
  rw [suicide_eval v1 mass thrust burnRate hm hT hbpos hv1,
    suicide_eval v2 mass thrust burnRate hm hT hbpos (le_trans hv1 hv12)]
  rcases eq_or_lt_of_le hv1 with hv10 | hv10
  · rw [← hv10]
    have h100 : (0:ℝ) * 0 / (2 * alphaBar mass thrust
        (est2 0 mass thrust burnRate * burnRate)) = 0 := by
      rw [zero_mul, zero_div]
    rw [h100]
    have hfrac : 0 ≤ v2 * v2 / (2 * alphaBar mass thrust
        (est2 v2 mass thrust burnRate * burnRate)) :=
      div_nonneg (mul_self_nonneg v2) (by linarith)
    linarith
  · have hpair := suicide_pair v1 v2 mass thrust burnRate hm hT hbpos hv10 hv12
    have hcross : v1 * v1 / (2 * alphaBar mass thrust
          (est2 v1 mass thrust burnRate * burnRate)) ≤
        v2 * v2 / (2 * alphaBar mass thrust
          (est2 v2 mass thrust burnRate * burnRate)) := by
      rw [div_le_div_iff₀ (by linarith) (by linarith)]
      nlinarith [hpair]
    linarith [hcross]

end

end R2
